import Mathlib

/-!
Payment platform: orchestrator and storage layer.

A shallow embedding of `internal/domain/entities`, `internal/domain/service`,
`internal/domain/simulator`, `internal/storage` and the `createPayment` handler of
`cmd/api` of the payment platform, together with the few library functions they call (`strings.Split`,
`strconv.Itoa`, `strconv.Atoi`, `uuid.UUID.String`, `time.Time.UnixNano`).

Conventions of the embedding:

* Go `string` is `String`; Go `int`, `int64` are `Int` (`int` is taken to be
  64 bits wide, the range being checked where the code parses a number).
* A Go result `(T, error)` is the pair `T × Option Error`, `none` being `nil`.
* A runtime panic (index out of range) is the `panicked` case of `Outcome`.
* Collaborators reached through an interface are structures of functions that
  pass their state explicitly; the orchestrator appends every collaborator
  call it makes to a ghost trace `calls`.
* Logging (`slog`) has no effect on results and is left out.
-/

namespace PaymentPlatform

/-! ## Errors and outcomes -/

/-- The two error kinds of `strconv`. -/
inductive NumErrKind where
  | ErrSyntax
  | ErrRange
  deriving DecidableEq, Repr

/-- Go `error` values that the embedded code creates or hands on. -/
inductive Error where
  /-- A `*strconv.NumError` with fields `Func`, `Num`, `Err`. -/
  | numError (Func Num : String) (Err : NumErrKind)
  /-- An error built by `fmt.Errorf` or `errors.New`, identified by its text. -/
  | errorString (msg : String)
  deriving DecidableEq, Repr

/-- Result of running a Go function body: it returns, or the goroutine panics. -/
inductive Outcome (α : Type) where
  | returned (a : α)
  | panicked (msg : String)
  deriving DecidableEq, Repr

/-! ## Library functions used by the storage layer -/

namespace strings

/-- The pieces of `cs` between the occurrences of `sep` (always at least one piece). -/
def splitChars (sep : Char) : List Char → List (List Char)
  | [] => [[]]
  | c :: cs =>
    if c = sep then [] :: splitChars sep cs
    else
      match splitChars sep cs with
      | [] => [[c]]
      | h :: t => (c :: h) :: t

/-- Go `strings.Split(s, sep)` for a separator of one ASCII character (the code
only ever splits on `"#"`). -/
def Split (s : String) (sep : Char) : List String :=
  (splitChars sep s.data).map String.mk

end strings

namespace strconv

/-- Go `strconv.Itoa`: decimal digits, with a leading `-` for negative numbers. -/
def Itoa (i : Int) : String :=
  if i < 0 then String.mk ('-' :: Nat.toDigits 10 i.natAbs)
  else String.mk (Nat.toDigits 10 i.natAbs)

/-- Value of a run of decimal digits, most significant first. -/
def digitsValue (cs : List Char) : Nat :=
  cs.foldl (fun n c => n * 10 + (c.toNat - 48)) 0

/-- Go `strconv.Atoi` on a 64-bit platform: an optional sign followed by one or
more decimal digits, the value lying in `[-2^63, 2^63)`. -/
def Atoi (s : String) : Int × Option Error :=
  match s.data with
  | [] => (0, some (Error.numError "Atoi" s NumErrKind.ErrSyntax))
  | c :: rest =>
    let body := if c = '-' ∨ c = '+' then rest else c :: rest
    if body = [] ∨ ¬ (body.all Char.isDigit = true) then
      (0, some (Error.numError "Atoi" s NumErrKind.ErrSyntax))
    else
      let n := digitsValue body
      if c = '-' then
        if 2 ^ 63 < n then (-(2 ^ 63), some (Error.numError "Atoi" s NumErrKind.ErrRange))
        else (-(n : Int), none)
      else
        if 2 ^ 63 ≤ n then (2 ^ 63 - 1, some (Error.numError "Atoi" s NumErrKind.ErrRange))
        else ((n : Int), none)

end strconv

namespace uuid

/-- Go `uuid.UUID`, an array of 16 bytes. -/
structure UUID where
  bytes : Fin 16 → Fin 256

/-- Two lower-case hexadecimal digits of a byte. -/
def hexByte (b : Fin 256) : List Char :=
  [Nat.digitChar (b.val / 16), Nat.digitChar (b.val % 16)]

/-- Go `UUID.String`: the form `xxxxxxxx-xxxx-xxxx-xxxx-xxxxxxxxxxxx`. -/
def UUID.String (u : UUID) : String :=
  String.mk
    (hexByte (u.bytes 0) ++ hexByte (u.bytes 1) ++ hexByte (u.bytes 2) ++ hexByte (u.bytes 3)
      ++ '-' :: (hexByte (u.bytes 4) ++ hexByte (u.bytes 5))
      ++ '-' :: (hexByte (u.bytes 6) ++ hexByte (u.bytes 7))
      ++ '-' :: (hexByte (u.bytes 8) ++ hexByte (u.bytes 9))
      ++ '-' :: (hexByte (u.bytes 10) ++ hexByte (u.bytes 11) ++ hexByte (u.bytes 12)
        ++ hexByte (u.bytes 13) ++ hexByte (u.bytes 14) ++ hexByte (u.bytes 15)))

end uuid

namespace time

/-- Wrap an integer into the range of `int64`. -/
def wrapInt64 (x : Int) : Int := (x + 2 ^ 63) % 2 ^ 64 - 2 ^ 63

/-- Go `time.Time`, as seconds since the epoch and nanoseconds within the second. -/
structure Time where
  sec : Int
  nsec : Int
  deriving DecidableEq, Repr

/-- Go `time.Unix(sec, nsec)`: `nsec` outside `[0, 999999999]` is carried into `sec`. -/
def Unix (sec nsec : Int) : Time :=
  if nsec < 0 ∨ 1000000000 ≤ nsec then
    let n := nsec.tdiv 1000000000
    let sec1 := sec + n
    let nsec1 := nsec - n * 1000000000
    if nsec1 < 0 then ⟨sec1 - 1, nsec1 + 1000000000⟩ else ⟨sec1, nsec1⟩
  else ⟨sec, nsec⟩

/-- Go `Time.UnixNano`: nanoseconds since the epoch as an `int64`. -/
def Time.UnixNano (t : Time) : Int := wrapInt64 (t.sec * 1000000000 + t.nsec)

/-- Go `int64(time.Millisecond)`: a millisecond in nanoseconds. -/
def Millisecond : Int := 1000000

end time

/-! ## `internal/domain/entities` -/

namespace entities

structure CardDetails where
  Name : String
  Number : String
  SecurityCode : Int
  ExpirationDate : String
  deriving DecidableEq, Repr

structure Customer where
  ID : String
  CardDetails : CardDetails
  deriving DecidableEq, Repr

structure AccountDetails where
  Name : String
  IBAN : String
  BIC : String
  Currency : String
  deriving DecidableEq, Repr

structure Merchant where
  ID : String
  AccountDetails : AccountDetails
  deriving DecidableEq, Repr

structure Money where
  Amount : Int
  Currency : String
  deriving DecidableEq, Repr

structure Payment where
  ID : String
  Merchant : Merchant
  Customer : Customer
  Price : Money
  BankTransactionID : String
  Timestamp : Int
  Refunded : Bool
  RefundTimestamp : Int
  deriving DecidableEq, Repr

/-- The zero value `entities.Payment{}`. -/
def Payment.zero : Payment :=
  { ID := "", Merchant := ⟨"", ⟨"", "", "", ""⟩⟩, Customer := ⟨"", ⟨"", "", 0, ""⟩⟩,
    Price := ⟨0, ""⟩, BankTransactionID := "", Timestamp := 0, Refunded := false,
    RefundTimestamp := 0 }

/-- PaymentDetails without sensitive information. -/
structure PaymentDetails where
  ID : String
  MerchantID : String
  CustomerID : String
  Price : Money
  Timestamp : Int
  Refunded : Bool
  RefundTimestamp : Int
  deriving DecidableEq, Repr

/-- The zero value `entities.PaymentDetails{}`. -/
def PaymentDetails.zero : PaymentDetails :=
  { ID := "", MerchantID := "", CustomerID := "", Price := ⟨0, ""⟩, Timestamp := 0,
    Refunded := false, RefundTimestamp := 0 }

def NewPaymentDetailsFromPayment (payment : Payment) : PaymentDetails :=
  { ID := payment.ID
    MerchantID := payment.Merchant.ID
    CustomerID := payment.Customer.ID
    Price := payment.Price
    Timestamp := payment.Timestamp
    Refunded := payment.Refunded
    RefundTimestamp := payment.RefundTimestamp }

end entities

/-! ## `internal/storage`: entities of the key-value table -/

namespace storage

open entities (Payment Merchant)

/-- The storage copy of the card details (`storage.CardDetails`). -/
structure CardDetails where
  Name : String
  Number : String
  SecurityCode : Int
  ExpirationDate : String
  deriving DecidableEq, Repr

/-- The storage copy of the account details (`storage.AccountDetails`). -/
structure AccountDetails where
  Name : String
  IBAN : String
  BIC : String
  Currency : String
  deriving DecidableEq, Repr

structure PaymentsItem where
  PK : String
  SK : String
  DATA : String
  CustomerID : String
  CardDetails : CardDetails
  Timestamp : Int
  Refunded : Bool
  RefundTimestamp : Int
  deriving DecidableEq, Repr

structure MerchantItem where
  PK : String
  SK : String
  AccountDetails : AccountDetails
  deriving DecidableEq, Repr

def NewPaymentsItemFromPayment (payment : Payment) : PaymentsItem :=
  { PK := payment.Merchant.ID
    SK := "PAYMENT#" ++ payment.ID
    DATA := payment.Price.Currency ++ "#" ++ strconv.Itoa payment.Price.Amount
    CustomerID := payment.Customer.ID
    CardDetails :=
      { Name := payment.Customer.CardDetails.Name
        Number := payment.Customer.CardDetails.Number
        SecurityCode := payment.Customer.CardDetails.SecurityCode
        ExpirationDate := payment.Customer.CardDetails.ExpirationDate }
    Timestamp := payment.Timestamp
    Refunded := payment.Refunded
    RefundTimestamp := payment.RefundTimestamp }

/-- The part of `DynamoDBRepository.GetPayment` after the item has been
unmarshalled: it parses the amount out of `DATA`, then builds the payment.
Indexing a split result at `1` panics when the text holds no `#`. -/
def decodePaymentsItem (item : PaymentsItem) : Outcome (Payment × Option Error) :=
  match (strings.Split item.DATA '#')[1]? with
  | none => Outcome.panicked "index out of range [1] with length 1"
  | some amountText =>
    match strconv.Atoi amountText with
    | (_, some err) => Outcome.returned (Payment.zero, some err)
    | (amount, none) =>
      match (strings.Split item.SK '#')[1]? with
      | none => Outcome.panicked "index out of range [1] with length 1"
      | some id =>
        Outcome.returned
          ({ ID := id
             Merchant := { ID := item.PK, AccountDetails := ⟨"", "", "", ""⟩ }
             Customer :=
               { ID := item.CustomerID
                 CardDetails :=
                   { Name := item.CardDetails.Name
                     Number := item.CardDetails.Number
                     SecurityCode := item.CardDetails.SecurityCode
                     ExpirationDate := item.CardDetails.ExpirationDate } }
             Price :=
               { Amount := amount
                 Currency := ((strings.Split item.DATA '#')[0]?).getD "" }
             BankTransactionID := ""
             Timestamp := item.Timestamp
             Refunded := item.Refunded
             RefundTimestamp := item.RefundTimestamp }, none)

/-- The zero value `entities.Merchant{}`. -/
def zeroMerchant : Merchant := ⟨"", ⟨"", "", "", ""⟩⟩

/-- The interface `storage.DBRepository`, over the state `σ` of an implementation.
The two reads leave the state as it is; the two writes return the new state. -/
structure DBRepository (σ : Type) where
  GetMerchantDetails : σ → String → Merchant × Option Error
  CreateNewPayment : σ → Payment → Option Error × σ
  UpdatePayment : σ → Payment → Option Error × σ
  GetPayment : σ → String → String → Outcome (Payment × Option Error)

/-! ### `memory_repository.go` -/

/-- The in-memory repository: the Go map `payments` from payment id to payment. -/
structure MemoryRepository where
  payments : String → Option Payment

def NewMemoryRepository : MemoryRepository := ⟨fun _ => none⟩

def MemoryRepository.GetMerchantDetails (_r : MemoryRepository) (merchantID : String) :
    Merchant × Option Error :=
  ({ ID := merchantID
     AccountDetails :=
       { Name := "Test Merchant"
         IBAN := "DE89370400440532013000"
         BIC := "COBADEFFXXX"
         Currency := "EUR" } }, none)

def MemoryRepository.CreateNewPayment (r : MemoryRepository) (payment : Payment) :
    Option Error × MemoryRepository :=
  (none, ⟨fun k => if k = payment.ID then some payment else r.payments k⟩)

def MemoryRepository.UpdatePayment (r : MemoryRepository) (payment : Payment) :
    Option Error × MemoryRepository :=
  (none, ⟨fun k => if k = payment.ID then some payment else r.payments k⟩)

def MemoryRepository.GetPayment (r : MemoryRepository) (_merchantID paymentID : String) :
    Payment × Option Error :=
  match r.payments paymentID with
  | none =>
    (Payment.zero, some (Error.errorString ("payment with ID " ++ paymentID ++ " not found")))
  | some payment => (payment, none)

/-- The in-memory repository as a `DBRepository`. -/
def MemoryRepository.repository : DBRepository MemoryRepository :=
  { GetMerchantDetails := MemoryRepository.GetMerchantDetails
    CreateNewPayment := MemoryRepository.CreateNewPayment
    UpdatePayment := MemoryRepository.UpdatePayment
    GetPayment := fun r m id => Outcome.returned (r.GetPayment m id) }

/-- Every record of the in-memory repository sits under its own id, as in every state
that `CreateNewPayment` and `UpdatePayment` build from `NewMemoryRepository`. -/
def MemoryRepository.WellKeyed (r : MemoryRepository) : Prop :=
  ∀ (k : String) (p : Payment), r.payments k = some p → p.ID = k

/-- A write to the repository: a call of `CreateNewPayment` or of `UpdatePayment`. -/
inductive Write where
  | create (payment : Payment)
  | update (payment : Payment)
  deriving DecidableEq, Repr

/-- The payment that a write stores. -/
def Write.payment : Write → Payment
  | Write.create payment => payment
  | Write.update payment => payment

/-- The in-memory repository after one write. -/
def MemoryRepository.write (r : MemoryRepository) : Write → MemoryRepository
  | Write.create payment => (r.CreateNewPayment payment).2
  | Write.update payment => (r.UpdatePayment payment).2

/-- The in-memory repository after a history of writes, oldest first, starting from
`NewMemoryRepository`. -/
def MemoryRepository.replay (ws : List Write) : MemoryRepository :=
  ws.foldl MemoryRepository.write NewMemoryRepository

/-! ### `dynamodb_repository.go` -/

/-- An item of the table. The attribute maps that `attributevalue.MarshalMap`
builds from the two item structures are kept in their typed form. -/
inductive Item where
  | payment (item : PaymentsItem)
  | merchant (item : MerchantItem)
  deriving DecidableEq, Repr

/-- The `PK` attribute of an item. -/
def Item.PK : Item → String
  | Item.payment item => item.PK
  | Item.merchant item => item.PK

/-- The `SK` attribute of an item. -/
def Item.SK : Item → String
  | Item.payment item => item.SK
  | Item.merchant item => item.SK

/-- The zero value `PaymentsItem{}`. -/
def PaymentsItem.zero : PaymentsItem :=
  { PK := "", SK := "", DATA := "", CustomerID := "", CardDetails := ⟨"", "", 0, ""⟩,
    Timestamp := 0, Refunded := false, RefundTimestamp := 0 }

/-- The zero value `MerchantItem{}`. -/
def MerchantItem.zero : MerchantItem :=
  { PK := "", SK := "", AccountDetails := ⟨"", "", "", ""⟩ }

/-- `attributevalue.MarshalMap` on a `PaymentsItem`. -/
def MarshalPaymentsItem (item : PaymentsItem) : Item × Option Error :=
  (Item.payment item, none)

/-- `attributevalue.UnmarshalMap(result.Item, &item)` into a `PaymentsItem`: attributes
that the map lacks keep their zero value, attributes without a field are ignored, and
an empty map (`none`) leaves the whole item zero. -/
def UnmarshalPaymentsItem : Option Item → PaymentsItem × Option Error
  | none => (PaymentsItem.zero, none)
  | some (Item.payment item) => (item, none)
  | some (Item.merchant item) => ({ PaymentsItem.zero with PK := item.PK, SK := item.SK }, none)

/-- `attributevalue.UnmarshalMap(result.Item, &item)` into a `MerchantItem`. -/
def UnmarshalMerchantItem : Option Item → MerchantItem × Option Error
  | none => (MerchantItem.zero, none)
  | some (Item.merchant item) => (item, none)
  | some (Item.payment item) => ({ MerchantItem.zero with PK := item.PK, SK := item.SK }, none)

/-- The `dynamodb.GetItemOutput` of a lookup; `Item` is `none` when the map is empty. -/
structure GetItemOutput where
  Item : Option Item
  deriving DecidableEq, Repr

/-- The interface `storage.DynamoDBClient` over a client state `δ`, restricted to the
two operations the repository calls; the only table is the repository's `tableName`. -/
structure DynamoDBClient (δ : Type) where
  PutItem : δ → Item → Option Error × δ
  GetItem : δ → String → String → GetItemOutput × Option Error

structure DynamoDBRepository (δ : Type) where
  db : DynamoDBClient δ

def DynamoDBRepository.GetMerchantDetails {δ : Type} (r : DynamoDBRepository δ) (st : δ)
    (merchantID : String) : Merchant × Option Error :=
  match r.db.GetItem st merchantID "MERCHANT" with
  | (_, some err) => (zeroMerchant, some err)
  | (result, none) =>
    match UnmarshalMerchantItem result.Item with
    | (_, some err) => (zeroMerchant, some err)
    | (item, none) =>
      ({ ID := item.PK
         AccountDetails :=
           { Name := item.AccountDetails.Name
             IBAN := item.AccountDetails.IBAN
             BIC := item.AccountDetails.BIC
             Currency := item.AccountDetails.Currency } }, none)

def DynamoDBRepository.CreateNewPayment {δ : Type} (r : DynamoDBRepository δ) (st : δ)
    (payment : Payment) : Option Error × δ :=
  let item := NewPaymentsItemFromPayment payment
  match MarshalPaymentsItem item with
  | (_, some err) => (some err, st)
  | (av, none) =>
    match r.db.PutItem st av with
    | (some err, st1) => (some err, st1)
    | (none, st1) => (none, st1)

def DynamoDBRepository.UpdatePayment {δ : Type} (r : DynamoDBRepository δ) (st : δ)
    (payment : Payment) : Option Error × δ :=
  match r.CreateNewPayment st payment with
  | (some err, st1) => (some err, st1)
  | (none, st1) => (none, st1)

def DynamoDBRepository.GetPayment {δ : Type} (r : DynamoDBRepository δ) (st : δ)
    (merchantID paymentID : String) : Outcome (Payment × Option Error) :=
  match r.db.GetItem st merchantID ("PAYMENT#" ++ paymentID) with
  | (_, some err) => Outcome.returned (Payment.zero, some err)
  | (result, none) =>
    match UnmarshalPaymentsItem result.Item with
    | (_, some err) => Outcome.returned (Payment.zero, some err)
    | (item, none) => decodePaymentsItem item

/-- The key-value repository as a `DBRepository`. -/
def DynamoDBRepository.repository {δ : Type} (r : DynamoDBRepository δ) : DBRepository δ :=
  { GetMerchantDetails := r.GetMerchantDetails
    CreateNewPayment := r.CreateNewPayment
    UpdatePayment := r.UpdatePayment
    GetPayment := r.GetPayment }

/-- A table of the key-value store: at most one item under each `(PK, SK)`. -/
structure Table where
  items : String → String → Option Item

/-- Put-whole-item: the item replaces whatever was stored under its `(PK, SK)`. -/
def Table.PutItem (t : Table) (item : Item) : Option Error × Table :=
  (none, ⟨fun pk sk => if pk = item.PK ∧ sk = item.SK then some item else t.items pk sk⟩)

/-- Get-by-key: the item under `(pk, sk)`, or an empty item and no error. -/
def Table.GetItem (t : Table) (pk sk : String) : GetItemOutput × Option Error :=
  (⟨t.items pk sk⟩, none)

/-- A reachable store as a `DynamoDBClient`. -/
def Table.client : DynamoDBClient Table :=
  { PutItem := Table.PutItem, GetItem := Table.GetItem }

/-- The table after one write of the key-value repository. -/
def Table.write (t : Table) : Write → Table
  | Write.create payment => ((DynamoDBRepository.mk Table.client).CreateNewPayment t payment).2
  | Write.update payment => ((DynamoDBRepository.mk Table.client).UpdatePayment t payment).2

end storage

/-! ## `internal/domain/simulator` -/

namespace simulator

open entities

/-- The interface `simulator.BankClient` over the state `β` of the bank. -/
structure BankClient (β : Type) where
  ValidateCardInformation : β → CardDetails → Option Error × β
  ProcessTransaction : β → AccountDetails → CardDetails → Money → (String × Option Error) × β
  RevertTransaction : β → String → Option Error × β

/-- The simulated bank: every request succeeds. -/
def BankSimulator : BankClient Unit :=
  { ValidateCardInformation := fun b _ => (none, b)
    ProcessTransaction := fun b _ _ _ => (("simulatedTransactionID", none), b)
    RevertTransaction := fun b _ => (none, b) }

end simulator

/-! ## `internal/domain/service` -/

namespace service

open entities

/-- A call the orchestrator makes to one of its collaborators, with its arguments. -/
inductive Call where
  | ValidateCardInformation (card : CardDetails)
  | GetMerchantDetails (merchantID : String)
  | ProcessTransaction (account : AccountDetails) (card : CardDetails) (money : Money)
  | CreateNewPayment (payment : Payment)
  | UpdatePayment (payment : Payment)
  | GetPayment (merchantID paymentID : String)
  | RevertTransaction (transactionID : String)
  deriving DecidableEq, Repr

/-- The package variables `now` and `newUUID`: what each returns when the use case
calls it (each use case calls each of them at most once). -/
structure Globals where
  now : time.Time
  newUUID : uuid.UUID

/-- What a use case runs against: the state of the repository, the state of the bank
and the trace of the collaborator calls made so far. -/
structure World (σ β : Type) where
  storage : σ
  bank : β
  calls : List Call

structure Service (σ β : Type) where
  storage : storage.DBRepository σ
  bankClient : simulator.BankClient β

def Service.CreateNewPayment {σ β : Type} (s : Service σ β) (g : Globals) (payment : Payment)
    (w : World σ β) : (String × Option Error) × World σ β :=
  match s.bankClient.ValidateCardInformation w.bank payment.Customer.CardDetails with
  | (some err, bank1) =>
    (("", some err),
      { storage := w.storage, bank := bank1
        calls := w.calls ++ [Call.ValidateCardInformation payment.Customer.CardDetails] })
  | (none, bank1) =>
    let calls1 := w.calls ++ [Call.ValidateCardInformation payment.Customer.CardDetails]
    let calls2 := calls1 ++ [Call.GetMerchantDetails payment.Merchant.ID]
    match s.storage.GetMerchantDetails w.storage payment.Merchant.ID with
    | (_, some err) => (("", some err), { storage := w.storage, bank := bank1, calls := calls2 })
    | (merchant, none) =>
      let calls3 := calls2 ++ [Call.ProcessTransaction merchant.AccountDetails
        payment.Customer.CardDetails payment.Price]
      match s.bankClient.ProcessTransaction bank1 merchant.AccountDetails
          payment.Customer.CardDetails payment.Price with
      | ((_, some err), bank2) =>
        (("", some err), { storage := w.storage, bank := bank2, calls := calls3 })
      | ((transactionID, none), bank2) =>
        let payment1 : Payment :=
          { payment with
            ID := g.newUUID.String
            BankTransactionID := transactionID
            Merchant := { payment.Merchant with AccountDetails := merchant.AccountDetails }
            Timestamp := g.now.UnixNano.tdiv time.Millisecond }
        let calls4 := calls3 ++ [Call.CreateNewPayment payment1]
        match s.storage.CreateNewPayment w.storage payment1 with
        | (some err, storage1) =>
          (("", some err), { storage := storage1, bank := bank2, calls := calls4 })
        | (none, storage1) =>
          ((payment1.ID, none), { storage := storage1, bank := bank2, calls := calls4 })

def Service.GetPaymentDetails {σ β : Type} (s : Service σ β) (merchantID paymentID : String)
    (w : World σ β) : Outcome ((PaymentDetails × Option Error) × World σ β) :=
  let w1 : World σ β := { w with calls := w.calls ++ [Call.GetPayment merchantID paymentID] }
  match s.storage.GetPayment w.storage merchantID paymentID with
  | Outcome.panicked msg => Outcome.panicked msg
  | Outcome.returned (_, some err) => Outcome.returned ((PaymentDetails.zero, some err), w1)
  | Outcome.returned (payment, none) =>
    Outcome.returned ((NewPaymentDetailsFromPayment payment, none), w1)

def Service.RefundPayment {σ β : Type} (s : Service σ β) (g : Globals)
    (merchantID paymentID : String) (w : World σ β) : Outcome (Option Error × World σ β) :=
  let calls1 := w.calls ++ [Call.GetPayment merchantID paymentID]
  match s.storage.GetPayment w.storage merchantID paymentID with
  | Outcome.panicked msg => Outcome.panicked msg
  | Outcome.returned (_, some err) =>
    Outcome.returned (some err, { storage := w.storage, bank := w.bank, calls := calls1 })
  | Outcome.returned (payment, none) =>
    let calls2 := calls1 ++ [Call.RevertTransaction payment.BankTransactionID]
    match s.bankClient.RevertTransaction w.bank payment.BankTransactionID with
    | (some err, bank1) =>
      Outcome.returned (some err, { storage := w.storage, bank := bank1, calls := calls2 })
    | (none, bank1) =>
      let payment1 : Payment :=
        { payment with
          Refunded := true
          RefundTimestamp := g.now.UnixNano.tdiv time.Millisecond }
      let calls3 := calls2 ++ [Call.UpdatePayment payment1]
      match s.storage.UpdatePayment w.storage payment1 with
      | (some err, storage1) =>
        Outcome.returned (some err, { storage := storage1, bank := bank1, calls := calls3 })
      | (none, storage1) =>
        Outcome.returned (none, { storage := storage1, bank := bank1, calls := calls3 })

/-- Whether a call is the repository's `CreateNewPayment`. -/
def Call.isCreateNewPayment : Call → Bool
  | Call.CreateNewPayment _ => true
  | _ => false

/-- A request to the orchestrator: one of its three use cases with its arguments and,
where the use case reads them, the values of the package variables. -/
inductive Op where
  | create (g : Globals) (payment : Payment)
  | details (merchantID paymentID : String)
  | refund (g : Globals) (merchantID paymentID : String)

/-- Whether a request can write the record of the payment `id`: a refund of `id`, or a
creation whose generated id is `id`. -/
def Op.writes (id : String) : Op → Bool
  | Op.create g _ => decide (g.newUUID.String = id)
  | Op.details _ _ => false
  | Op.refund _ _ paymentID => decide (paymentID = id)

/-- The world after one request; a request that panics leaves the world as it was. -/
def Service.step {σ β : Type} (s : Service σ β) (w : World σ β) : Op → World σ β
  | Op.create g payment => (s.CreateNewPayment g payment w).2
  | Op.details merchantID paymentID =>
    match s.GetPaymentDetails merchantID paymentID w with
    | Outcome.returned (_, w1) => w1
    | Outcome.panicked _ => w
  | Op.refund g merchantID paymentID =>
    match s.RefundPayment g merchantID paymentID w with
    | Outcome.returned (_, w1) => w1
    | Outcome.panicked _ => w

/-- The world after a sequence of requests, oldest first. -/
def Service.run {σ β : Type} (s : Service σ β) (w : World σ β) (ops : List Op) : World σ β :=
  ops.foldl s.step w

end service

/-! ## `cmd/api`: the `createPayment` handler -/

namespace api

open entities service

/-- Modelled from the spec: the type `validator.Validator` of `internal/validator`, which
is not among the sources; it collects the validation errors of a request by field. -/
structure Validator where
  FieldErrors : List (String × String)
  deriving DecidableEq, Repr

/-- Modelled from the spec: the method `Validator.CheckField` of `internal/validator`,
which is not among the sources; when the condition is false it records the message
under the field, the first message of a field being kept. -/
def Validator.CheckField (v : Validator) (ok : Bool) (key message : String) : Validator :=
  if ok then v
  else if v.FieldErrors.any (fun e => e.1 == key) then v
  else ⟨v.FieldErrors ++ [(key, message)]⟩

/-- Modelled from the spec: the method `Validator.HasErrors` of `internal/validator`, which
is not among the sources; whether any error has been recorded. -/
def Validator.HasErrors (v : Validator) : Bool := !v.FieldErrors.isEmpty

/-- Modelled from the spec: the responders `app.failedValidation`, `app.serverError` and
`response.JSON`, which are not among the sources; a response records which of them the
handler called and with what. -/
inductive Response where
  | failedValidation (v : Validator)
  | serverError (err : Error)
  | JSON (status : Nat) (data : List (String × String))
  deriving DecidableEq, Repr

/-- The decoded body of a `createPayment` request (the handler's `input`). -/
structure createPaymentInput where
  CustomerID : String
  CustomerName : String
  CardNumber : String
  CardCVV : Int
  CardExpiryDate : String
  Price : Int
  Currency : String
  deriving DecidableEq, Repr

structure application (σ β : Type) where
  service : Service σ β

/-- The checks of `createPayment`, in the order of the handler. -/
def createPaymentChecks (input : createPaymentInput) : Validator :=
  let v0 : Validator := ⟨[]⟩
  let v1 := v0.CheckField (decide (input.CustomerID ≠ "")) "CustomerID" "CustomerID is required"
  let v2 := v1.CheckField (decide (input.CustomerName ≠ "")) "CustomerName"
    "CustomerName is required"
  let v3 := v2.CheckField (decide (input.CardNumber ≠ "")) "CardNumber" "CardNumber is required"
  let v4 := v3.CheckField (decide (input.CardNumber.length = 16)) "CardNumber"
    "CardNumber must be exactly 16 digits"
  let v5 := v4.CheckField (decide (input.CardCVV ≠ 0)) "CardCVV" "CardCVV is required"
  let v6 := v5.CheckField (decide (100 ≤ input.CardCVV ∧ input.CardCVV ≤ 999)) "CardCVV"
    "CardCVV must be exactly 3 digits"
  let v7 := v6.CheckField (decide (input.CardExpiryDate ≠ "")) "CardExpiryDate"
    "CardExpiryDate is required"
  let v8 := v7.CheckField (decide (input.Price ≠ 0)) "Price"
    "Price is required and cannot be zero"
  v8.CheckField (decide (input.Currency ≠ "")) "Currency" "Currency is required"

/-- The payment that `createPayment` builds from a request that passed the checks. -/
def createPaymentPayment (merchantID : String) (input : createPaymentInput) : Payment :=
  { ID := ""
    Merchant := { ID := merchantID, AccountDetails := ⟨"", "", "", ""⟩ }
    Customer :=
      { ID := input.CustomerID
        CardDetails :=
          { Name := input.CustomerName
            Number := input.CardNumber
            SecurityCode := input.CardCVV
            ExpirationDate := input.CardExpiryDate } }
    Price := { Amount := input.Price, Currency := input.Currency }
    BankTransactionID := ""
    Timestamp := 0
    Refunded := false
    RefundTimestamp := 0 }

/-- The handler `createPayment` on a request whose body has been decoded into `input`,
for the authenticated merchant `merchantID`; writing the response is taken to succeed. -/
def application.createPayment {σ β : Type} (app : application σ β) (g : Globals)
    (merchantID : String) (input : createPaymentInput) (w : World σ β) :
    Response × World σ β :=
  let v := createPaymentChecks input
  if v.HasErrors then (Response.failedValidation v, w)
  else
    let payment := createPaymentPayment merchantID input
    match app.service.CreateNewPayment g payment w with
    | ((_, some err), w1) => (Response.serverError err, w1)
    | ((paymentID, none), w1) => (Response.JSON 200 [("paymentID", paymentID)], w1)

end api

/-! ## Concrete data: the values of the repository's tests -/

namespace examples

open entities storage simulator service

/-- The identifier `00000000-0000-0000-0000-000000000000` of the service tests. -/
def testUUID : uuid.UUID := ⟨fun _ => 0⟩

/-- The package variables as the service tests set them: `now` is `time.Unix(100, 100)`. -/
def testGlobals : Globals := ⟨time.Unix 100 100, testUUID⟩

/-- A later clock reading, `time.Unix(200, 0)`, with the same identifier. -/
def laterGlobals : Globals := ⟨time.Unix 200 0, testUUID⟩

/-- The account details that the in-memory repository hands out. -/
def testAccount : entities.AccountDetails :=
  ⟨"Test Merchant", "DE89370400440532013000", "COBADEFFXXX", "EUR"⟩

/-- The customer of the service tests. -/
def testCustomer : Customer :=
  ⟨"testCustomerID", ⟨"Test Customer", "1234567890123456", 123, "12/23"⟩⟩

/-- The input of `TestCreateNewPayment`, with an id, a bank transaction id, account
details and a timestamp filled in by the caller. -/
def callerPayment : Payment :=
  { ID := "callerID"
    Merchant := ⟨"testMerchantID", ⟨"x", "y", "z", "w"⟩⟩
    Customer := testCustomer
    Price := ⟨100, "USD"⟩
    BankTransactionID := "callerTransactionID"
    Timestamp := 7
    Refunded := false
    RefundTimestamp := 0 }

/-- The stored payment of `TestRefundPayment`. -/
def storedPayment : Payment :=
  { ID := "00000000-0000-0000-0000-000000000000"
    Merchant := ⟨"testMerchantID", testAccount⟩
    Customer := testCustomer
    Price := ⟨100, "USD"⟩
    BankTransactionID := "simulatedTransactionID"
    Timestamp := 123
    Refunded := false
    RefundTimestamp := 0 }

/-- The orchestrator of the service tests: in-memory repository and simulated bank. -/
def memoryService : Service MemoryRepository Unit :=
  ⟨MemoryRepository.repository, BankSimulator⟩

/-- The world at the start of a service test. -/
def emptyWorld : World MemoryRepository Unit := ⟨NewMemoryRepository, (), []⟩

/-- The world of `TestRefundPayment` before the refund: `storedPayment` has been stored. -/
def storedWorld : World MemoryRepository Unit :=
  ⟨(NewMemoryRepository.CreateNewPayment storedPayment).2, (), []⟩

/-- A table that holds the merchant row of `merchantID` and nothing else. -/
def merchantTable (merchantID : String) : Table :=
  ⟨fun pk sk =>
    if pk = merchantID ∧ sk = "MERCHANT" then
      some (Item.merchant
        { PK := merchantID, SK := "MERCHANT"
          AccountDetails := ⟨"Test Merchant", "DE89370400440532013000", "COBADEFFXXX", "EUR"⟩ })
    else none⟩

/-- The table after `InsertTestData`: the one merchant row of `test@merchant`. -/
def seededTable : Table := merchantTable "test@merchant"

/-- The orchestrator over the key-value repository and the simulated bank. -/
def tableService : Service Table Unit :=
  ⟨(DynamoDBRepository.mk Table.client).repository, BankSimulator⟩

/-- The world before a payment is created over the key-value repository. -/
def seededWorld : World Table Unit := ⟨seededTable, (), []⟩

/-- The payment that the `createPayment` handler builds from the request of the spec's
scenario, under the merchant `test@merchant`. -/
def requestPayment : Payment :=
  { ID := ""
    Merchant := ⟨"test@merchant", ⟨"", "", "", ""⟩⟩
    Customer := ⟨"c1", ⟨"Customer One", "1234123412341234", 123, "12/23"⟩⟩
    Price := ⟨1000, "USD"⟩
    BankTransactionID := ""
    Timestamp := 0
    Refunded := false
    RefundTimestamp := 0 }

/-- The error of a collaborator that declines a request. -/
def declined : Error := Error.errorString "declined"

/-- A bank whose three answers are fixed in advance (`none` for success). -/
def scriptedBank (validate process revert : Option Error) : BankClient Unit :=
  { ValidateCardInformation := fun b _ => (validate, b)
    ProcessTransaction := fun b _ _ _ => ((if process = none then "tx-1" else "", process), b)
    RevertTransaction := fun b _ => (revert, b) }

/-- A store that cannot be reached: every request fails. -/
def offlineClient : DynamoDBClient Table :=
  { PutItem := fun t _ => (some (Error.errorString "store unreachable"), t)
    GetItem := fun _ _ _ => (⟨none⟩, some (Error.errorString "store unreachable")) }

/-- A store that answers reads and refuses writes. -/
def readOnlyClient : DynamoDBClient Table :=
  { PutItem := fun t _ => (some (Error.errorString "write refused"), t)
    GetItem := Table.GetItem }

/-- The record that `TestRefundPayment` expects after the refund. -/
def refundedPayment : Payment :=
  { storedPayment with Refunded := true, RefundTimestamp := 100000 }

/-- The world of `TestRefundPayment` after the refund. -/
def refundedWorld : World MemoryRepository Unit :=
  ⟨(storedWorld.storage.UpdatePayment refundedPayment).2, (),
    [Call.GetPayment "testMerchantID" "00000000-0000-0000-0000-000000000000",
      Call.RevertTransaction "simulatedTransactionID",
      Call.UpdatePayment refundedPayment]⟩

/-- The stored test payment with other card details, another bank transaction id and
another merchant account. -/
def otherSecrets : Payment :=
  { storedPayment with
    Merchant := ⟨"testMerchantID", ⟨"Other Merchant", "PL61109010140000071219812874", "WBKPPLPP", "PLN"⟩⟩
    Customer := ⟨"testCustomerID", ⟨"Someone Else", "9999888877776666", 987, "01/30"⟩⟩
    BankTransactionID := "anotherTransactionID" }

/-- The payment that the `createPayment` handler builds from the request of the spec's
scenario under merchant `m1`: customer `c1`, card `1234123412341234`, security code 123,
expiry `12/23`, price 1000 `USD`; the holder's name is free. -/
def scenarioPayment (holder : String) : Payment :=
  { ID := ""
    Merchant := ⟨"m1", ⟨"", "", "", ""⟩⟩
    Customer := ⟨"c1", ⟨holder, "1234123412341234", 123, "12/23"⟩⟩
    Price := ⟨1000, "USD"⟩
    BankTransactionID := ""
    Timestamp := 0
    Refunded := false
    RefundTimestamp := 0 }

/-- The payment of the repository tests `TestCreateNewPayment` and `TestUpdatePayment`. -/
def repositoryPayment : Payment :=
  { ID := "paymentID"
    Merchant := ⟨"merchantID", ⟨"", "", "", ""⟩⟩
    Customer := ⟨"customerID", ⟨"name", "number", 123, "expirationDate"⟩⟩
    Price := ⟨100, "USD"⟩
    BankTransactionID := ""
    Timestamp := 123
    Refunded := false
    RefundTimestamp := 0 }

/-- The item that the repository tests expect `PutItem` to receive. -/
def repositoryItem : PaymentsItem :=
  { PK := "merchantID"
    SK := "PAYMENT#paymentID"
    DATA := "USD#100"
    CustomerID := "customerID"
    CardDetails := ⟨"name", "number", 123, "expirationDate"⟩
    Timestamp := 123
    Refunded := false
    RefundTimestamp := 0 }

/-- A table that holds the item of the repository tests and nothing else. -/
def repositoryTable : Table :=
  ((DynamoDBRepository.mk Table.client).CreateNewPayment ⟨fun _ _ => none⟩ repositoryPayment).2

/-- A table whose only item is the item of the repository tests with `DATA` set to
`USD#1#2`. -/
def twoHashTable : Table :=
  ⟨fun pk sk =>
    if pk = "merchantID" ∧ sk = "PAYMENT#paymentID" then
      some (Item.payment { repositoryItem with DATA := "USD#1#2" })
    else none⟩

/-- The payment of the repository tests with another price: same merchant, same id. -/
def repricedPayment : Payment :=
  { repositoryPayment with Price := ⟨999, "EUR"⟩ }

/-- The request of the spec's scenario under a merchant that has no row in the table. -/
def unknownMerchantPayment : Payment :=
  { requestPayment with Merchant := ⟨"unknown@merchant", ⟨"", "", "", ""⟩⟩ }

/-- The input of `TestCreateNewPayment` marked as refunded by the caller. -/
def refundedInput : Payment :=
  { callerPayment with Refunded := true, RefundTimestamp := 5 }

/-- A second identifier, `01010101-0101-0101-0101-010101010101`. -/
def otherUUID : uuid.UUID := ⟨fun _ => 1⟩

/-- A table whose only item is the item of the repository tests with the `#` of `DATA`
missing: `USD100`. -/
def noHashDataTable : Table :=
  ⟨fun pk sk =>
    if pk = "merchantID" ∧ sk = "PAYMENT#paymentID" then
      some (Item.payment { repositoryItem with DATA := "USD100" })
    else none⟩

/-- A table whose only item is the item of the repository tests with an `SK` attribute
without `#`: `PAYMENT`. -/
def noHashKeyTable : Table :=
  ⟨fun pk sk =>
    if pk = "merchantID" ∧ sk = "PAYMENT#paymentID" then
      some (Item.payment { repositoryItem with SK := "PAYMENT" })
    else none⟩

/-- The world over a table that holds the item of the repository tests and nothing
else. -/
def repositoryWorld : World Table Unit := ⟨repositoryTable, (), []⟩

/-- The payment that `CreateNewPayment` stores for `requestPayment` under the package
variables of the tests. -/
def createdPayment : Payment :=
  { requestPayment with
    ID := "00000000-0000-0000-0000-000000000000"
    Merchant := ⟨"test@merchant", testAccount⟩
    BankTransactionID := "simulatedTransactionID"
    Timestamp := 100000 }

/-- The request of `TestCreatePayment`. -/
def testRequest : api.createPaymentInput :=
  { CustomerID := "testCustomer", CustomerName := "Test Customer"
    CardNumber := "1234123412341234", CardCVV := 123, CardExpiryDate := "12/23"
    Price := 1000, Currency := "USD" }

/-- The request of `TestCreatePayment` with a card number of sixteen letters. -/
def lettersRequest : api.createPaymentInput :=
  { testRequest with CardNumber := "abcdefghijklmnop" }

/-- The application of `TestCreatePayment`: in-memory repository and simulated bank. -/
def testApplication : api.application MemoryRepository Unit := ⟨memoryService⟩

/-- The request of `TestCreatePayment` with the currency `USD#5`. -/
def hashCurrencyRequest : api.createPaymentInput :=
  { testRequest with Currency := "USD#5" }

/-- The application over the key-value repository and the simulated bank. -/
def tableApplication : api.application Table Unit := ⟨tableService⟩

/-- A bank that accepts every request and counts the reverts it is handed: its state
is the number of `RevertTransaction` calls so far. -/
def countingBank : BankClient Nat :=
  { ValidateCardInformation := fun b _ => (none, b)
    ProcessTransaction := fun b _ _ _ => (("countedTransactionID", none), b)
    RevertTransaction := fun b _ => (none, b + 1) }

/-- A bank that accepts every request and counts the validations and the charges it is
handed: its state is the pair of the numbers of `ValidateCardInformation` and of
`ProcessTransaction` calls so far. -/
def chargeCountingBank : BankClient (Nat × Nat) :=
  { ValidateCardInformation := fun b _ => (none, (b.1 + 1, b.2))
    ProcessTransaction := fun b _ _ _ => (("countedTransactionID", none), (b.1, b.2 + 1))
    RevertTransaction := fun b _ => (none, b) }

/-- A repository that stores nothing and counts the writes it is handed: its state is
the number of `CreateNewPayment` and `UpdatePayment` calls so far; reads answer as the
in-memory repository does on an empty store. -/
def countingRepository : DBRepository Nat :=
  { GetMerchantDetails := fun _ merchantID => NewMemoryRepository.GetMerchantDetails merchantID
    CreateNewPayment := fun n _ => (none, n + 1)
    UpdatePayment := fun n _ => (none, n + 1)
    GetPayment := fun _ m id => Outcome.returned (NewMemoryRepository.GetPayment m id) }

end examples

/-! ## Lemmas on the library functions -/

section LibraryLemmas

open strings strconv

theorem digitChar_ne_hash : ∀ d, d < 16 → Nat.digitChar d ≠ '#' := by
  decide

theorem digitChar_facts : ∀ d, d < 10 →
    (Nat.digitChar d).isDigit = true ∧ (Nat.digitChar d).toNat - 48 = d ∧
      Nat.digitChar d ≠ '-' ∧ Nat.digitChar d ≠ '+' := by
  decide

theorem splitChars_of_not_mem (sep : Char) (cs : List Char) (h : sep ∉ cs) :
    splitChars sep cs = [cs] := by
  induction cs with
  | nil => rfl
  | cons c cs ih =>
    have hc : c ≠ sep := fun e => h (by simp [e])
    have hcs : sep ∉ cs := fun m => h (List.mem_cons_of_mem _ m)
    simp [splitChars, hc, ih hcs]

theorem splitChars_append_sep (sep : Char) (a b : List Char) (h : sep ∉ a) :
    splitChars sep (a ++ sep :: b) = a :: splitChars sep b := by
  induction a with
  | nil => simp [splitChars]
  | cons c cs ih =>
    have hc : c ≠ sep := fun e => h (by simp [e])
    have hcs : sep ∉ cs := fun m => h (List.mem_cons_of_mem _ m)
    simp [splitChars, hc, ih hcs]


/-- Shape of the digits produced by `Nat.toDigitsCore` in base ten. -/
theorem toDigitsCore_shape (fuel : Nat) : ∀ (n : Nat) (acc : List Char),
    ∃ pre : List Char, Nat.toDigitsCore 10 fuel n acc = pre ++ acc ∧
      (∀ c ∈ pre, ∃ d, d < 10 ∧ c = Nat.digitChar d) ∧ (0 < fuel → pre ≠ []) := by
  induction fuel with
  | zero => intro n acc; exact ⟨[], by simp [Nat.toDigitsCore]⟩
  | succ fuel ih =>
    intro n acc
    by_cases h : n / 10 = 0
    · refine ⟨[Nat.digitChar (n % 10)], by simp [Nat.toDigitsCore, h], ?_, by simp⟩
      intro c hc
      exact ⟨n % 10, Nat.mod_lt _ (by decide), by simpa using hc⟩
    · obtain ⟨pre, hpre, hdig, _⟩ := ih (n / 10) (Nat.digitChar (n % 10) :: acc)
      refine ⟨pre ++ [Nat.digitChar (n % 10)], by simp [Nat.toDigitsCore, h, hpre], ?_, by simp⟩
      intro c hc
      rcases List.mem_append.1 hc with hc | hc
      · exact hdig c hc
      · exact ⟨n % 10, Nat.mod_lt _ (by decide), by simpa using hc⟩

/-- Reading back the digits of `Nat.toDigitsCore` gives the number, when the fuel suffices. -/
theorem foldl_toDigitsCore (fuel : Nat) : ∀ (n : Nat) (acc : List Char), n < fuel →
    (Nat.toDigitsCore 10 fuel n acc).foldl (fun n c => n * 10 + (c.toNat - 48)) 0
      = acc.foldl (fun n c => n * 10 + (c.toNat - 48)) n := by
  induction fuel with
  | zero => intro n acc h; omega
  | succ fuel ih =>
    intro n acc hn
    have hd := (digitChar_facts (n % 10) (Nat.mod_lt _ (by decide))).2.1
    by_cases h : n / 10 = 0
    · have hlt : n % 10 = n := by omega
      rw [hlt] at hd
      simp [Nat.toDigitsCore, h, hd, hlt]
    · have hlt : n / 10 < fuel := by omega
      have hrec : n / 10 * 10 + n % 10 = n := by omega
      simp [Nat.toDigitsCore, h, ih (n / 10) _ hlt, hd, hrec]

theorem toDigits_shape (n : Nat) :
    Nat.toDigits 10 n ≠ [] ∧ (∀ c ∈ Nat.toDigits 10 n, ∃ d, d < 10 ∧ c = Nat.digitChar d) := by
  obtain ⟨pre, hpre, hdig, hne⟩ := toDigitsCore_shape (n + 1) n []
  have : Nat.toDigits 10 n = pre := by simpa [Nat.toDigits] using hpre
  rw [this]
  exact ⟨hne (Nat.succ_pos _), hdig⟩

theorem digitsValue_toDigits (n : Nat) : digitsValue (Nat.toDigits 10 n) = n := by
  have := foldl_toDigitsCore (n + 1) n [] (Nat.lt_succ_self n)
  simpa [digitsValue, Nat.toDigits] using this

theorem toDigits_all_isDigit (n : Nat) : (Nat.toDigits 10 n).all Char.isDigit = true := by
  rw [List.all_eq_true]
  intro c hc
  obtain ⟨d, hd, rfl⟩ := (toDigits_shape n).2 c hc
  exact (digitChar_facts d hd).1

theorem hash_not_mem_toDigits (n : Nat) : '#' ∉ Nat.toDigits 10 n := by
  intro hc
  obtain ⟨d, hd, he⟩ := (toDigits_shape n).2 _ hc
  exact digitChar_ne_hash d (by omega) he.symm

theorem hash_not_mem_Itoa (i : Int) : '#' ∉ (Itoa i).data := by
  unfold Itoa
  split
  · simp [hash_not_mem_toDigits]
  · simp [hash_not_mem_toDigits]

/-- `Atoi` reads back what `Itoa` wrote, for every 64-bit integer. -/
theorem Atoi_Itoa (i : Int) (hlo : -(2 ^ 63) ≤ i) (hhi : i < 2 ^ 63) :
    Atoi (Itoa i) = (i, none) := by
  obtain ⟨hne, hdig⟩ := toDigits_shape i.natAbs
  have hall := toDigits_all_isDigit i.natAbs
  have hval := digitsValue_toDigits i.natAbs
  by_cases hneg : i < 0
  · have hb : ¬ (9223372036854775808 < i.natAbs) := by omega
    have hi : -|i| = i := by rw [abs_of_neg hneg]; omega
    simp [Atoi, Itoa, hneg, hne, hall, hval, hb, hi]
  · obtain ⟨c, rest, hcr⟩ := List.exists_cons_of_ne_nil hne
    obtain ⟨d, hd, hcd⟩ := hdig c (by simp [hcr])
    have hf := digitChar_facts d hd
    have hm : c ≠ '-' := hcd ▸ hf.2.2.1
    have hp : c ≠ '+' := hcd ▸ hf.2.2.2
    have hb : ¬ (2 ^ 63 ≤ i.natAbs) := by omega
    have hi : (i.natAbs : Int) = i := by omega
    have hall2 : (c :: rest).all Char.isDigit = true := hcr ▸ hall
    have hval2 : digitsValue (c :: rest) = i.natAbs := hcr ▸ hval
    simp only [Atoi, Itoa, if_neg hneg, hcr]
    simp [hm, hp, hall2, hval2, hi]
    omega

theorem Split_packed (a b : String) (ha : '#' ∉ a.data) (hb : '#' ∉ b.data) :
    Split (a ++ "#" ++ b) '#' = [a, b] := by
  have h : (a ++ "#" ++ b).data = a.data ++ '#' :: b.data := by
    simp [String.data_append]
  simp [Split, h, splitChars_append_sep _ _ _ ha, splitChars_of_not_mem _ _ hb]

theorem Split_sortKey (id : String) (h : '#' ∉ id.data) :
    Split ("PAYMENT#" ++ id) '#' = ["PAYMENT", id] := by
  have e : "PAYMENT#" ++ id = "PAYMENT" ++ "#" ++ id := by
    apply String.ext
    simp [String.data_append]
  rw [e]
  exact Split_packed "PAYMENT" id (by decide) h

theorem hash_not_mem_hexByte (b : Fin 256) : '#' ∉ uuid.hexByte b := by
  have h1 := digitChar_ne_hash (b.val / 16) (by omega)
  have h2 := digitChar_ne_hash (b.val % 16) (by omega)
  simp [uuid.hexByte, Ne.symm h1, Ne.symm h2]

theorem hash_not_mem_UUID_String (u : uuid.UUID) : '#' ∉ u.String.data := by
  simp [uuid.UUID.String, hash_not_mem_hexByte]

theorem Itoa_decimal (i : Int) :
    ∃ ds : List Char, (Itoa i).data = (if i < 0 then '-' :: ds else ds) ∧ ds ≠ [] ∧
      ds.all Char.isDigit = true ∧ digitsValue ds = i.natAbs := by
  refine ⟨Nat.toDigits 10 i.natAbs, ?_, (toDigits_shape _).1, toDigits_all_isDigit _,
    digitsValue_toDigits _⟩
  unfold Itoa
  split <;> rfl

/-- The first two pieces of a text with a `#`: the text before the first `#` and the
text between the first `#` and the next one, or the end. -/
theorem Split_first_two (s : String) (cur amt rest : List Char)
    (hdata : s.data = cur ++ '#' :: (amt ++ rest)) (hcur : '#' ∉ cur) (hamt : '#' ∉ amt)
    (hrest : rest = [] ∨ rest.head? = some '#') :
    (Split s '#')[0]? = some (String.mk cur) ∧ (Split s '#')[1]? = some (String.mk amt) := by
  have h2 : ∃ more, splitChars '#' (amt ++ rest) = amt :: more := by
    rcases hrest with h | h
    · subst h
      exact ⟨[], by simp [splitChars_of_not_mem _ _ hamt]⟩
    · cases rest with
      | nil => simp at h
      | cons c tail =>
        simp only [List.head?_cons, Option.some.injEq] at h
        subst h
        exact ⟨_, splitChars_append_sep _ _ _ hamt⟩
  obtain ⟨more, hmore⟩ := h2
  simp [Split, hdata, splitChars_append_sep _ _ _ hcur, hmore]

theorem splitChars_ne_nil (sep : Char) (cs : List Char) : splitChars sep cs ≠ [] := by
  cases cs with
  | nil => simp [splitChars]
  | cons c cs =>
    unfold splitChars
    split
    · simp
    · split <;> simp

/-- A text with a `#` splits into at least two pieces. -/
theorem Split_second_of_mem (cs : List Char) (h : '#' ∈ cs) :
    ∃ a b more, splitChars '#' cs = a :: b :: more := by
  induction cs with
  | nil => simp at h
  | cons c cs ih =>
    by_cases hc : c = '#'
    · cases hs : splitChars '#' cs with
      | nil => exact absurd hs (splitChars_ne_nil _ _)
      | cons b more => exact ⟨[], b, more, by simp [splitChars, hc, hs]⟩
    · have hmem : '#' ∈ cs := by
        rcases List.mem_cons.1 h with h1 | h1
        · exact absurd h1.symm hc
        · exact h1
      obtain ⟨a, b, more, hs⟩ := ih hmem
      exact ⟨c :: a, b, more, by simp [splitChars, hc, hs]⟩

end LibraryLemmas

/-! ## The storage encoding -/

section Encoding

open entities storage

/-- Decoding an encoded payment gives the payment back, the two fields that the item
does not hold being zero. -/
theorem decode_encode (p : Payment) (hid : '#' ∉ p.ID.data)
    (hcur : '#' ∉ p.Price.Currency.data)
    (hlo : -(2 ^ 63) ≤ p.Price.Amount) (hhi : p.Price.Amount < 2 ^ 63) :
    decodePaymentsItem (NewPaymentsItemFromPayment p) =
      Outcome.returned
        ({ p with
           BankTransactionID := ""
           Merchant := { ID := p.Merchant.ID, AccountDetails := ⟨"", "", "", ""⟩ } }, none) := by
  simp [decodePaymentsItem, NewPaymentsItemFromPayment,
    Split_packed _ _ hcur (hash_not_mem_Itoa _), Split_sortKey _ hid, Atoi_Itoa _ hlo hhi]

/-- C1: for every payment whose id and currency hold no `#` and whose amount is a
64-bit integer (negative ones included), decoding the item built by
`NewPaymentsItemFromPayment` succeeds and gives back the payment in `ID`, `Merchant.ID`,
`Customer`, `Price`, `Timestamp`, `Refunded` and `RefundTimestamp`. -/
theorem decodePaymentsItem_NewPaymentsItemFromPayment (p : Payment) (hid : '#' ∉ p.ID.data)
    (hcur : '#' ∉ p.Price.Currency.data)
    (hlo : -(2 ^ 63) ≤ p.Price.Amount) (hhi : p.Price.Amount < 2 ^ 63) :
    ∃ q : Payment, decodePaymentsItem (NewPaymentsItemFromPayment p) = Outcome.returned (q, none) ∧
      q.ID = p.ID ∧ q.Merchant.ID = p.Merchant.ID ∧ q.Customer = p.Customer ∧
      q.Price = p.Price ∧ q.Timestamp = p.Timestamp ∧ q.Refunded = p.Refunded ∧
      q.RefundTimestamp = p.RefundTimestamp := by
  refine ⟨_, decode_encode p hid hcur hlo hhi, ?_⟩
  simp

/-- C1, at a payment with a negative amount. -/
theorem decodePaymentsItem_NewPaymentsItemFromPayment_witness :
    ∃ q : Payment,
      decodePaymentsItem
          (NewPaymentsItemFromPayment { examples.storedPayment with Price := ⟨-100, "USD"⟩ }) =
        Outcome.returned (q, none) ∧
      q.ID = "00000000-0000-0000-0000-000000000000" ∧ q.Merchant.ID = "testMerchantID" ∧
      q.Customer = examples.testCustomer ∧ q.Price = ⟨-100, "USD"⟩ ∧ q.Timestamp = 123 ∧
      q.Refunded = false ∧ q.RefundTimestamp = 0 :=
  decodePaymentsItem_NewPaymentsItemFromPayment
    { examples.storedPayment with Price := ⟨-100, "USD"⟩ }
    (by decide) (by decide) (by decide) (by decide)

end Encoding


/-! ## The two repositories -/

section Repositories

open entities storage

theorem MemoryRepository_write_payments (r : MemoryRepository) (w : Write) (id : String) :
    (r.write w).payments id = if id = w.payment.ID then some w.payment else r.payments id := by
  cases w <;> rfl

/-- After a run of writes, an id is unset exactly when it was unset before and no write
of the run stored under it. -/
theorem foldl_write_payments_none (ws : List Write) : ∀ (r : MemoryRepository) (id : String),
    (ws.foldl MemoryRepository.write r).payments id = none ↔
      r.payments id = none ∧ ∀ w ∈ ws, w.payment.ID ≠ id := by
  induction ws with
  | nil => intro r id; simp
  | cons w ws ih =>
    intro r id
    rw [List.foldl_cons, ih, MemoryRepository_write_payments]
    by_cases h : id = w.payment.ID
    · simp [h]
    · have h2 : w.payment.ID ≠ id := fun e => h e.symm
      simp [h, h2]

/-- Writes under other ids leave the entry of an id as it is. -/
theorem foldl_write_payments_other (ws : List Write) : ∀ (r : MemoryRepository) (id : String),
    (∀ w ∈ ws, w.payment.ID ≠ id) →
      (ws.foldl MemoryRepository.write r).payments id = r.payments id := by
  induction ws with
  | nil => intro r id _; rfl
  | cons w ws ih =>
    intro r id h
    have h1 : id ≠ w.payment.ID := fun e => h w (List.mem_cons_self _ _) e.symm
    rw [List.foldl_cons, ih _ _ (fun w1 hw1 => h w1 (List.mem_cons_of_mem _ hw1)),
      MemoryRepository_write_payments, if_neg h1]

/-- C11: for the in-memory repository, `GetPayment` returns an error exactly when the id
holds no payment; after any history of `CreateNewPayment` and `UpdatePayment` calls on a
new repository that is exactly when no call stored under the id, the answer then being
the not-found error with a zero payment, and otherwise `GetPayment` returns the payment of
the last call that stored under the id. -/
theorem MemoryRepository_GetPayment_history (ws : List Write) (m id : String) :
    (∀ r : MemoryRepository, (r.GetPayment m id).2 ≠ none ↔ r.payments id = none) ∧
    (((MemoryRepository.replay ws).GetPayment m id).2 ≠ none ↔
      ∀ w ∈ ws, w.payment.ID ≠ id) ∧
    ((∀ w ∈ ws, w.payment.ID ≠ id) →
      (MemoryRepository.replay ws).GetPayment m id =
        (Payment.zero, some (Error.errorString ("payment with ID " ++ id ++ " not found")))) ∧
    (∀ (before after : List Write) (w : Write), ws = before ++ w :: after →
      w.payment.ID = id → (∀ w1 ∈ after, w1.payment.ID ≠ id) →
      (MemoryRepository.replay ws).GetPayment m id = (w.payment, none)) := by
  have hget : ∀ r : MemoryRepository, (r.GetPayment m id).2 ≠ none ↔ r.payments id = none := by
    intro r
    unfold MemoryRepository.GetPayment
    cases h : r.payments id <;> simp
  have hnone : (MemoryRepository.replay ws).payments id = none ↔
      ∀ w ∈ ws, w.payment.ID ≠ id := by
    unfold MemoryRepository.replay
    rw [foldl_write_payments_none]
    simp [NewMemoryRepository]
  refine ⟨hget, (hget _).trans hnone, ?_, ?_⟩
  · intro h
    have := hnone.2 h
    simp [MemoryRepository.GetPayment, this]
  · intro before after w hws hid hafter
    have hst : (MemoryRepository.replay ws).payments id = some w.payment := by
      subst hws
      unfold MemoryRepository.replay
      rw [List.foldl_append, List.foldl_cons, foldl_write_payments_other after _ id hafter,
        MemoryRepository_write_payments, if_pos hid.symm]
    simp [MemoryRepository.GetPayment, hst]

/-- C11, at a history of three writes: the stored test payment is created, another
payment is created, the first is updated; a fourth id was never stored. -/
theorem MemoryRepository_GetPayment_history_witness :
    (MemoryRepository.replay
        [Write.create examples.storedPayment, Write.create examples.callerPayment,
          Write.update examples.refundedPayment]).GetPayment "testMerchantID" "missing" =
      (Payment.zero, some (Error.errorString "payment with ID missing not found")) ∧
    (MemoryRepository.replay
        [Write.create examples.storedPayment, Write.create examples.callerPayment,
          Write.update examples.refundedPayment]).GetPayment "testMerchantID"
        "00000000-0000-0000-0000-000000000000" = (examples.refundedPayment, none) :=
  ⟨(MemoryRepository_GetPayment_history _ "testMerchantID" "missing").2.2.1 (by decide),
    (MemoryRepository_GetPayment_history _ "testMerchantID"
      "00000000-0000-0000-0000-000000000000").2.2.2
      [Write.create examples.storedPayment, Write.create examples.callerPayment] []
      (Write.update examples.refundedPayment) rfl rfl (by simp)⟩

/-- Over a table that holds nothing under the payment's key, `GetPayment` panics: the
empty item is unmarshalled to a zero item, whose `DATA` splits into one piece. -/
theorem GetPayment_table_absent (t : Table) (m id : String)
    (h : t.items m ("PAYMENT#" ++ id) = none) :
    (DynamoDBRepository.mk Table.client).GetPayment t m id =
      Outcome.panicked "index out of range [1] with length 1" := by
  simp only [DynamoDBRepository.GetPayment, Table.client, Table.GetItem, h,
    UnmarshalPaymentsItem]
  rfl

/-- C12 (the code at an absent payment): over the seeded table, which holds no payment,
`GetPayment` does not return a not-found error; it panics on the index `1` of the split
of an empty `DATA`. -/
theorem GetPayment_table_absent_panics :
    examples.seededTable.items "test@merchant" ("PAYMENT#" ++ "missing") = none ∧
      (DynamoDBRepository.mk Table.client).GetPayment examples.seededTable "test@merchant"
          "missing" = Outcome.panicked "index out of range [1] with length 1" ∧
      ∀ (q : Payment) (e : Option Error),
        (DynamoDBRepository.mk Table.client).GetPayment examples.seededTable "test@merchant"
          "missing" ≠ Outcome.returned (q, e) := by
  have h : examples.seededTable.items "test@merchant" ("PAYMENT#" ++ "missing") = none := by
    decide
  refine ⟨h, GetPayment_table_absent _ _ _ h, fun q e => ?_⟩
  rw [GetPayment_table_absent _ _ _ h]
  simp

/-- A payment that the decoding returns has the item's `PK` as its merchant id. -/
theorem decodePaymentsItem_Merchant_ID (item : PaymentsItem) (q : Payment) (e : Option Error)
    (h : decodePaymentsItem item = Outcome.returned (q, e)) (he : e = none) :
    q.Merchant.ID = item.PK := by
  subst he
  unfold decodePaymentsItem at h
  split at h
  · simp at h
  · split at h
    · simp at h
    · split at h
      · simp at h
      · simp only [Outcome.returned.injEq, Prod.mk.injEq, and_true] at h
        rw [← h]

/-- C13: merchant scoping on the key-value backend. A payment created under merchant `A`
with id `X`, into a table that holds nothing under `(B, "PAYMENT#" + X)` for another
merchant `B`, is not returned by `GetPayment(B, X)`; and in a table whose items carry the
`PK` they are stored under, every payment that `GetPayment(B, X)` returns has merchant
id `B`. -/
theorem GetPayment_table_merchant_scoped :
    (∀ (t : Table) (A B X : String) (p : Payment), A ≠ B → p.Merchant.ID = A → p.ID = X →
      t.items B ("PAYMENT#" ++ X) = none →
      ((DynamoDBRepository.mk Table.client).CreateNewPayment t p).1 = none ∧
      ∀ q : Payment,
        (DynamoDBRepository.mk Table.client).GetPayment
          ((DynamoDBRepository.mk Table.client).CreateNewPayment t p).2 B X
          ≠ Outcome.returned (q, none)) ∧
    (∀ (t : Table) (B X : String) (q : Payment),
      (∀ pk sk item, t.items pk sk = some item → item.PK = pk) →
      (DynamoDBRepository.mk Table.client).GetPayment t B X = Outcome.returned (q, none) →
      q.Merchant.ID = B) := by
  refine ⟨?_, ?_⟩
  · intro t A B X p hAB hA hX habs
    refine ⟨rfl, fun q => ?_⟩
    have hstill : ((DynamoDBRepository.mk Table.client).CreateNewPayment t p).2.items B
        ("PAYMENT#" ++ X) = none := by
      have hne : ¬ (B = p.Merchant.ID ∧ "PAYMENT#" ++ X = "PAYMENT#" ++ p.ID) := by
        intro hk
        exact hAB (hA.symm.trans hk.1.symm)
      simp only [DynamoDBRepository.CreateNewPayment, MarshalPaymentsItem, Table.client,
        Table.PutItem, Item.PK, Item.SK, NewPaymentsItemFromPayment]
      rw [if_neg hne]
      exact habs
    rw [GetPayment_table_absent _ _ _ hstill]
    simp
  · intro t B X q hkeyed hget
    cases hit : t.items B ("PAYMENT#" ++ X) with
    | none =>
      rw [GetPayment_table_absent _ _ _ hit] at hget
      simp at hget
    | some item =>
      have hpk := hkeyed _ _ _ hit
      cases item with
      | payment pitem =>
        simp only [DynamoDBRepository.GetPayment, Table.client, Table.GetItem, hit,
          UnmarshalPaymentsItem] at hget
        rw [decodePaymentsItem_Merchant_ID _ _ _ hget rfl]
        exact hpk
      | merchant mitem =>
        simp only [DynamoDBRepository.GetPayment, Table.client, Table.GetItem, hit,
          UnmarshalPaymentsItem] at hget
        rw [decodePaymentsItem_Merchant_ID _ _ _ hget rfl]
        exact hpk

/-- C13, at the payment of the repository tests: created under `merchantID`, it is not
returned to `otherMerchant`, and what `merchantID` gets back carries `merchantID`. -/
theorem GetPayment_table_merchant_scoped_witness :
    (∀ q : Payment,
      (DynamoDBRepository.mk Table.client).GetPayment examples.repositoryTable
        "otherMerchant" "paymentID" ≠ Outcome.returned (q, none)) ∧
    (DynamoDBRepository.mk Table.client).GetPayment examples.repositoryTable "merchantID"
        "paymentID" = Outcome.returned (examples.repositoryPayment, none) ∧
    examples.repositoryPayment.Merchant.ID = "merchantID" := by
  have hget : (DynamoDBRepository.mk Table.client).GetPayment examples.repositoryTable
      "merchantID" "paymentID" = Outcome.returned (examples.repositoryPayment, none) := by
    decide
  refine ⟨(GetPayment_table_merchant_scoped.1 ⟨fun _ _ => none⟩ "merchantID" "otherMerchant"
      "paymentID" examples.repositoryPayment (by decide) rfl rfl rfl).2, hget, ?_⟩
  refine GetPayment_table_merchant_scoped.2 examples.repositoryTable "merchantID" "paymentID"
    examples.repositoryPayment ?_ hget
  intro pk sk item hitem
  simp only [examples.repositoryTable, DynamoDBRepository.CreateNewPayment,
    MarshalPaymentsItem, Table.client, Table.PutItem] at hitem
  split at hitem
  · rename_i hk
    simp only [Option.some.injEq] at hitem
    rw [← hitem]
    exact hk.1.symm
  · simp at hitem

/-- The key-value `CreateNewPayment` is one `PutItem` of the payment's item. -/
theorem CreateNewPayment_eq_PutItem {δ : Type} (db : DynamoDBClient δ) (st : δ) (p : Payment) :
    (DynamoDBRepository.mk db).CreateNewPayment st p =
      db.PutItem st (Item.payment (NewPaymentsItemFromPayment p)) := by
  simp only [DynamoDBRepository.CreateNewPayment, MarshalPaymentsItem]
  rcases h : db.PutItem st (Item.payment (NewPaymentsItemFromPayment p)) with ⟨e, st1⟩
  cases e <;> rfl

/-- C14: the item of a payment has `PK` the merchant id, `SK` the text `PAYMENT#` followed
by the payment id, `DATA` the currency, a `#` and the decimal digits of the amount (with a
leading `-` when it is negative), and the customer id, the four card fields, `Timestamp`,
`Refunded` and `RefundTimestamp` copied; `DynamoDBRepository.CreateNewPayment` puts
exactly this item; the payment of the repository test gives the item the test expects. -/
theorem NewPaymentsItemFromPayment_layout (p : Payment) :
    (NewPaymentsItemFromPayment p).PK = p.Merchant.ID ∧
    (NewPaymentsItemFromPayment p).SK = "PAYMENT#" ++ p.ID ∧
    (NewPaymentsItemFromPayment p).DATA = p.Price.Currency ++ "#" ++ strconv.Itoa p.Price.Amount ∧
    (∃ ds : List Char,
      (NewPaymentsItemFromPayment p).DATA.data =
        p.Price.Currency.data ++ '#' :: (if p.Price.Amount < 0 then '-' :: ds else ds) ∧
      ds ≠ [] ∧ ds.all Char.isDigit = true ∧
      strconv.digitsValue ds = p.Price.Amount.natAbs) ∧
    (NewPaymentsItemFromPayment p).CustomerID = p.Customer.ID ∧
    (NewPaymentsItemFromPayment p).CardDetails.Name = p.Customer.CardDetails.Name ∧
    (NewPaymentsItemFromPayment p).CardDetails.Number = p.Customer.CardDetails.Number ∧
    (NewPaymentsItemFromPayment p).CardDetails.SecurityCode
      = p.Customer.CardDetails.SecurityCode ∧
    (NewPaymentsItemFromPayment p).CardDetails.ExpirationDate
      = p.Customer.CardDetails.ExpirationDate ∧
    (NewPaymentsItemFromPayment p).Timestamp = p.Timestamp ∧
    (NewPaymentsItemFromPayment p).Refunded = p.Refunded ∧
    (NewPaymentsItemFromPayment p).RefundTimestamp = p.RefundTimestamp ∧
    (∀ (δ : Type) (db : DynamoDBClient δ) (st : δ),
      (DynamoDBRepository.mk db).CreateNewPayment st p =
        db.PutItem st (Item.payment (NewPaymentsItemFromPayment p))) ∧
    NewPaymentsItemFromPayment examples.repositoryPayment = examples.repositoryItem := by
  obtain ⟨ds, hds, hne, hall, hval⟩ := Itoa_decimal p.Price.Amount
  refine ⟨rfl, rfl, rfl, ⟨ds, ?_, hne, hall, hval⟩, rfl, rfl, rfl, rfl, rfl, rfl, rfl, rfl,
    fun δ db st => CreateNewPayment_eq_PutItem db st p, by decide⟩
  simp [NewPaymentsItemFromPayment, String.data_append, hds]

/-- With an item stored under the key, `GetPayment` over a table is the decoding of the
item. -/
theorem GetPayment_table_present (t : Table) (m id : String) (item : PaymentsItem)
    (hitem : t.items m ("PAYMENT#" ++ id) = some (Item.payment item)) :
    (DynamoDBRepository.mk Table.client).GetPayment t m id = decodePaymentsItem item := by
  simp only [DynamoDBRepository.GetPayment, Table.client, Table.GetItem, hitem,
    UnmarshalPaymentsItem]

/-- C15 (the code at a `DATA` with a second `#`): `GetPayment` does not parse the entire
text after the first `#` and rejects nothing here. The item whose `DATA` is `USD#1#2`,
whose remainder `1#2` is no decimal integer, is returned as amount 1 of `USD` with no
error. Such a `DATA` is written by the program itself: the request of `TestCreatePayment`
with the currency `USD#5` passes the checks of `createPayment` and is answered with the id
of the created payment, the table then holds `DATA` `USD#5#1000`, and `GetPayment` reads
it back as amount 5 of `USD` with no error, where the in-memory repository returns the
amount 1000 of `USD#5` of the request. -/
theorem GetPayment_table_second_hash_ignored :
    (strconv.Atoi "1#2").2 ≠ none ∧
    (DynamoDBRepository.mk Table.client).GetPayment examples.twoHashTable "merchantID"
        "paymentID" =
      Outcome.returned ({ examples.repositoryPayment with Price := ⟨1, "USD"⟩ }, none) ∧
    (api.createPaymentChecks examples.hashCurrencyRequest).HasErrors = false ∧
    (examples.tableApplication.createPayment examples.testGlobals "test@merchant"
        examples.hashCurrencyRequest examples.seededWorld).1
      = api.Response.JSON 200 [("paymentID", "00000000-0000-0000-0000-000000000000")] ∧
    (examples.tableApplication.createPayment examples.testGlobals "test@merchant"
        examples.hashCurrencyRequest examples.seededWorld).2.storage.items "test@merchant"
        "PAYMENT#00000000-0000-0000-0000-000000000000" =
      some (Item.payment
        { PK := "test@merchant"
          SK := "PAYMENT#00000000-0000-0000-0000-000000000000"
          DATA := "USD#5#1000"
          CustomerID := "testCustomer"
          CardDetails := ⟨"Test Customer", "1234123412341234", 123, "12/23"⟩
          Timestamp := 100000
          Refunded := false
          RefundTimestamp := 0 }) ∧
    (strconv.Atoi "5#1000").2 ≠ none ∧
    (DynamoDBRepository.mk Table.client).GetPayment
        (examples.tableApplication.createPayment examples.testGlobals "test@merchant"
          examples.hashCurrencyRequest examples.seededWorld).2.storage "test@merchant"
        "00000000-0000-0000-0000-000000000000" =
      Outcome.returned
        ({ ID := "00000000-0000-0000-0000-000000000000"
           Merchant := { ID := "test@merchant", AccountDetails := ⟨"", "", "", ""⟩ }
           Customer :=
             ⟨"testCustomer", ⟨"Test Customer", "1234123412341234", 123, "12/23"⟩⟩
           Price := ⟨5, "USD"⟩
           BankTransactionID := ""
           Timestamp := 100000
           Refunded := false
           RefundTimestamp := 0 }, none) ∧
    (examples.testApplication.createPayment examples.testGlobals "test@merchant"
        examples.hashCurrencyRequest examples.emptyWorld).1
      = api.Response.JSON 200 [("paymentID", "00000000-0000-0000-0000-000000000000")] ∧
    MemoryRepository.GetPayment
        (examples.testApplication.createPayment examples.testGlobals "test@merchant"
          examples.hashCurrencyRequest examples.emptyWorld).2.storage "test@merchant"
        "00000000-0000-0000-0000-000000000000" =
      ({ ID := "00000000-0000-0000-0000-000000000000"
         Merchant := { ID := "test@merchant", AccountDetails := examples.testAccount }
         Customer := ⟨"testCustomer", ⟨"Test Customer", "1234123412341234", 123, "12/23"⟩⟩
         Price := ⟨1000, "USD#5"⟩
         BankTransactionID := "simulatedTransactionID"
         Timestamp := 100000
         Refunded := false
         RefundTimestamp := 0 }, none) := by
  decide

/-- What `GetPayment` makes of the `DATA` of any stored item that holds a `#`:
`strings.Split` cuts `DATA` at every `#` and only the pieces 0 and 1 are read. A failing
parse of piece 1 is returned as the error; when it parses and `SK` holds a `#` too, the
payment is returned with piece 0 as currency and piece 1 as amount, and whatever follows
a second `#` is dropped without an error. -/
theorem GetPayment_table_DATA (t : Table) (m id : String) (item : PaymentsItem)
    (cur amt rest : List Char)
    (hitem : t.items m ("PAYMENT#" ++ id) = some (Item.payment item))
    (hdata : item.DATA.data = cur ++ '#' :: (amt ++ rest))
    (hcur : '#' ∉ cur) (hamt : '#' ∉ amt) (hrest : rest = [] ∨ rest.head? = some '#') :
    (∀ v e, strconv.Atoi (String.mk amt) = (v, some e) →
      (DynamoDBRepository.mk Table.client).GetPayment t m id
        = Outcome.returned (Payment.zero, some e)) ∧
    (∀ v, strconv.Atoi (String.mk amt) = (v, none) → '#' ∈ item.SK.data →
      ∃ q : Payment,
        (DynamoDBRepository.mk Table.client).GetPayment t m id = Outcome.returned (q, none) ∧
        q.Price = ⟨v, String.mk cur⟩) := by
  obtain ⟨h0, h1⟩ := Split_first_two item.DATA cur amt rest hdata hcur hamt hrest
  rw [GetPayment_table_present t m id item hitem]
  refine ⟨?_, ?_⟩
  · intro v e ha
    simp [decodePaymentsItem, h1, ha]
  · intro v ha hsk
    obtain ⟨a, b, more, hs⟩ := Split_second_of_mem _ hsk
    have hid : (strings.Split item.SK '#')[1]? = some (String.mk b) := by
      simp [strings.Split, hs]
    simp [decodePaymentsItem, h1, h0, ha, hid]

/-- The pieces read by `GetPayment` at `USD#1#2` and at the `USD#100` of
`TestGetPayment`. -/
theorem GetPayment_table_DATA_witness :
    (∃ q : Payment,
      (DynamoDBRepository.mk Table.client).GetPayment examples.twoHashTable "merchantID"
        "paymentID" = Outcome.returned (q, none) ∧ q.Price = ⟨1, "USD"⟩) ∧
    (∃ q : Payment,
      (DynamoDBRepository.mk Table.client).GetPayment examples.repositoryTable "merchantID"
        "paymentID" = Outcome.returned (q, none) ∧ q.Price = ⟨100, "USD"⟩) :=
  ⟨(GetPayment_table_DATA examples.twoHashTable "merchantID" "paymentID"
      { examples.repositoryItem with DATA := "USD#1#2" } ['U', 'S', 'D'] ['1'] ['#', '2']
      (by decide) (by decide) (by decide) (by decide) (by decide)).2 1 (by decide) (by decide),
    (GetPayment_table_DATA examples.repositoryTable "merchantID" "paymentID"
      examples.repositoryItem ['U', 'S', 'D'] ['1', '0', '0'] []
      (by decide) (by decide) (by decide) (by decide) (by decide)).2 100 (by decide)
      (by decide)⟩

/-- C16: for both repositories `UpdatePayment` has the result and the effect of
`CreateNewPayment`. In memory both succeed and leave the payment under its id, the other
ids being untouched; over any key-value client both are the same single `PutItem` of the
payment's item, so they fail together, and over a table that put succeeds, leaves the
item under `(merchant id, "PAYMENT#" + id)` and touches no other key. -/
theorem UpdatePayment_eq_CreateNewPayment (p : Payment) :
    (∀ r : MemoryRepository,
      r.UpdatePayment p = r.CreateNewPayment p ∧ (r.UpdatePayment p).1 = none ∧
      (r.UpdatePayment p).2.payments p.ID = some p ∧
      ∀ k : String, k ≠ p.ID → (r.UpdatePayment p).2.payments k = r.payments k) ∧
    (∀ (δ : Type) (db : DynamoDBClient δ) (st : δ),
      (DynamoDBRepository.mk db).UpdatePayment st p
        = (DynamoDBRepository.mk db).CreateNewPayment st p ∧
      (DynamoDBRepository.mk db).UpdatePayment st p
        = db.PutItem st (Item.payment (NewPaymentsItemFromPayment p))) ∧
    (∀ t : Table,
      ((DynamoDBRepository.mk Table.client).UpdatePayment t p).1 = none ∧
      ((DynamoDBRepository.mk Table.client).UpdatePayment t p).2.items p.Merchant.ID
        ("PAYMENT#" ++ p.ID) = some (Item.payment (NewPaymentsItemFromPayment p)) ∧
      ∀ pk sk : String, ¬ (pk = p.Merchant.ID ∧ sk = "PAYMENT#" ++ p.ID) →
        ((DynamoDBRepository.mk Table.client).UpdatePayment t p).2.items pk sk
          = t.items pk sk) := by
  have hupd : ∀ (δ : Type) (db : DynamoDBClient δ) (st : δ),
      (DynamoDBRepository.mk db).UpdatePayment st p
        = (DynamoDBRepository.mk db).CreateNewPayment st p := by
    intro δ db st
    unfold DynamoDBRepository.UpdatePayment
    rcases h : (DynamoDBRepository.mk db).CreateNewPayment st p with ⟨e, st1⟩
    cases e <;> rfl
  refine ⟨fun r => ⟨rfl, rfl, ?_, fun k hk => ?_⟩,
    fun δ db st => ⟨hupd δ db st, (hupd δ db st).trans (CreateNewPayment_eq_PutItem db st p)⟩,
    fun t => ?_⟩
  · simp [MemoryRepository.UpdatePayment]
  · simp [MemoryRepository.UpdatePayment, hk]
  · rw [hupd, CreateNewPayment_eq_PutItem]
    refine ⟨rfl, ?_, fun pk sk hk => ?_⟩
    · simp [Table.client, Table.PutItem, Item.PK, Item.SK, NewPaymentsItemFromPayment]
    · have hk2 : ¬ (pk = (Item.payment (NewPaymentsItemFromPayment p)).PK ∧
          sk = (Item.payment (NewPaymentsItemFromPayment p)).SK) := hk
      simp only [Table.client, Table.PutItem, if_neg hk2]

/-- C16, at `TestUpdatePayment`: the update of the test payment over an empty table
leaves the item the test expects under its key, as the creation does, and over a store
that refuses writes both fail with the store's error. -/
theorem UpdatePayment_eq_CreateNewPayment_witness :
    ((DynamoDBRepository.mk Table.client).UpdatePayment ⟨fun _ _ => none⟩
        examples.repositoryPayment).2.items "merchantID" "PAYMENT#paymentID"
      = some (Item.payment examples.repositoryItem) ∧
    (DynamoDBRepository.mk examples.readOnlyClient).UpdatePayment examples.seededTable
        examples.repositoryPayment
      = (DynamoDBRepository.mk examples.readOnlyClient).CreateNewPayment examples.seededTable
        examples.repositoryPayment ∧
    ((DynamoDBRepository.mk examples.readOnlyClient).UpdatePayment examples.seededTable
        examples.repositoryPayment).1 = some (Error.errorString "write refused") :=
  ⟨((UpdatePayment_eq_CreateNewPayment examples.repositoryPayment).2.2 ⟨fun _ _ => none⟩).2.1,
    ((UpdatePayment_eq_CreateNewPayment examples.repositoryPayment).2.1 Table
      examples.readOnlyClient examples.seededTable).1,
    by decide⟩

/-- C17 (as stated, refuted): `CreateNewPayment` with an id that is already stored with
different contents returns success and the earlier record is gone. In memory the stored
test payment is replaced by a payment with other card details; over a table the payment
of the repository tests is replaced by one with another price. -/
theorem CreateNewPayment_replaces_stored :
    (examples.storedPayment ≠ examples.otherSecrets ∧
      examples.storedPayment.ID = examples.otherSecrets.ID ∧
      examples.storedWorld.storage.GetPayment "testMerchantID"
        "00000000-0000-0000-0000-000000000000" = (examples.storedPayment, none) ∧
      (examples.storedWorld.storage.CreateNewPayment examples.otherSecrets).1 = none ∧
      (examples.storedWorld.storage.CreateNewPayment examples.otherSecrets).2.GetPayment
        "testMerchantID" "00000000-0000-0000-0000-000000000000"
        = (examples.otherSecrets, none)) ∧
    ((DynamoDBRepository.mk Table.client).GetPayment examples.repositoryTable "merchantID"
        "paymentID" = Outcome.returned (examples.repositoryPayment, none) ∧
      ((DynamoDBRepository.mk Table.client).CreateNewPayment examples.repositoryTable
        examples.repricedPayment).1 = none ∧
      (DynamoDBRepository.mk Table.client).GetPayment
        ((DynamoDBRepository.mk Table.client).CreateNewPayment examples.repositoryTable
          examples.repricedPayment).2 "merchantID" "paymentID"
        = Outcome.returned (examples.repricedPayment, none)) := by
  decide

/-- C17 (amended): `CreateNewPayment` overwrites. Called with a payment whose id is
already stored with different contents it returns success, the new record replaces the
earlier one, which `GetPayment` no longer returns, and the records under other ids (other
keys of the table) are untouched. -/
theorem CreateNewPayment_overwrites (p : Payment) :
    (∀ (r : MemoryRepository) (old : Payment) (m : String),
      r.payments p.ID = some old → old ≠ p →
      (r.CreateNewPayment p).1 = none ∧
      (r.CreateNewPayment p).2.GetPayment m p.ID = (p, none) ∧
      (r.CreateNewPayment p).2.GetPayment m p.ID ≠ (old, none) ∧
      ∀ k : String, k ≠ p.ID → (r.CreateNewPayment p).2.payments k = r.payments k) ∧
    (∀ (t : Table) (old : Item),
      t.items p.Merchant.ID ("PAYMENT#" ++ p.ID) = some old →
      old ≠ Item.payment (NewPaymentsItemFromPayment p) →
      ((DynamoDBRepository.mk Table.client).CreateNewPayment t p).1 = none ∧
      ((DynamoDBRepository.mk Table.client).CreateNewPayment t p).2.items p.Merchant.ID
        ("PAYMENT#" ++ p.ID) = some (Item.payment (NewPaymentsItemFromPayment p)) ∧
      (DynamoDBRepository.mk Table.client).GetPayment
        ((DynamoDBRepository.mk Table.client).CreateNewPayment t p).2 p.Merchant.ID p.ID
        = decodePaymentsItem (NewPaymentsItemFromPayment p) ∧
      ∀ pk sk : String, ¬ (pk = p.Merchant.ID ∧ sk = "PAYMENT#" ++ p.ID) →
        ((DynamoDBRepository.mk Table.client).CreateNewPayment t p).2.items pk sk
          = t.items pk sk) := by
  refine ⟨?_, ?_⟩
  · intro r old m _ hne
    have hget : (r.CreateNewPayment p).2.GetPayment m p.ID = (p, none) := by
      simp [MemoryRepository.GetPayment, MemoryRepository.CreateNewPayment]
    refine ⟨rfl, hget, ?_, fun k hk => ?_⟩
    · rw [hget]
      intro h
      exact hne (congrArg Prod.fst h).symm
    · simp [MemoryRepository.CreateNewPayment, hk]
  · intro t old _ _
    have hput : ((DynamoDBRepository.mk Table.client).CreateNewPayment t p).2.items
        p.Merchant.ID ("PAYMENT#" ++ p.ID)
        = some (Item.payment (NewPaymentsItemFromPayment p)) := by
      rw [CreateNewPayment_eq_PutItem]
      simp [Table.client, Table.PutItem, Item.PK, Item.SK, NewPaymentsItemFromPayment]
    refine ⟨rfl, hput, GetPayment_table_present _ _ _ _ hput, fun pk sk hk => ?_⟩
    rw [CreateNewPayment_eq_PutItem]
    have hk2 : ¬ (pk = (Item.payment (NewPaymentsItemFromPayment p)).PK ∧
        sk = (Item.payment (NewPaymentsItemFromPayment p)).SK) := hk
    simp only [Table.client, Table.PutItem, if_neg hk2]

/-- C17 (amended), at the two replacements of the refutation. -/
theorem CreateNewPayment_overwrites_witness :
    ((examples.storedWorld.storage.CreateNewPayment examples.otherSecrets).1 = none ∧
      (examples.storedWorld.storage.CreateNewPayment examples.otherSecrets).2.GetPayment
        "testMerchantID" examples.otherSecrets.ID = (examples.otherSecrets, none) ∧
      (examples.storedWorld.storage.CreateNewPayment examples.otherSecrets).2.GetPayment
        "testMerchantID" examples.otherSecrets.ID ≠ (examples.storedPayment, none)) ∧
    (((DynamoDBRepository.mk Table.client).CreateNewPayment examples.repositoryTable
        examples.repricedPayment).1 = none ∧
      ((DynamoDBRepository.mk Table.client).CreateNewPayment examples.repositoryTable
        examples.repricedPayment).2.items "merchantID" ("PAYMENT#" ++ "paymentID")
        = some (Item.payment (NewPaymentsItemFromPayment examples.repricedPayment))) := by
  have h1 := (CreateNewPayment_overwrites examples.otherSecrets).1 examples.storedWorld.storage
    examples.storedPayment "testMerchantID" (by decide) (by decide)
  have h2 := (CreateNewPayment_overwrites examples.repricedPayment).2 examples.repositoryTable
    (Item.payment examples.repositoryItem) (by decide) (by decide)
  exact ⟨⟨h1.1, h1.2.1, h1.2.2.1⟩, ⟨h2.1, h2.2.1⟩⟩

/-- Over a table that holds nothing under `(merchantID, "MERCHANT")`, the lookup of the
merchant returns a zero merchant and no error. -/
theorem GetMerchantDetails_table_absent (t : Table) (m : String)
    (h : t.items m "MERCHANT" = none) :
    (DynamoDBRepository.mk Table.client).GetMerchantDetails t m =
      ({ ID := "", AccountDetails := ⟨"", "", "", ""⟩ }, none) := by
  simp only [DynamoDBRepository.GetMerchantDetails, Table.client, Table.GetItem, h,
    UnmarshalMerchantItem]
  rfl

/-- An item whose `DATA` holds no `#` makes the decoding panic, whatever else it holds. -/
theorem decodePaymentsItem_DATA_without_hash (item : PaymentsItem)
    (h : '#' ∉ item.DATA.data) :
    decodePaymentsItem item = Outcome.panicked "index out of range [1] with length 1" := by
  have hs : strings.Split item.DATA '#' = [item.DATA] := by
    simp [strings.Split, splitChars_of_not_mem _ _ h]
  simp [decodePaymentsItem, hs]

/-- C24 (the code at two malformed records): for a stored item whose `DATA` is `USD100`
and for a stored item whose `SK` attribute is `PAYMENT`, `GetPayment` returns neither a
payment nor an error; it panics on the index `1` of the split text. -/
theorem GetPayment_table_malformed_panics :
    (DynamoDBRepository.mk Table.client).GetPayment examples.noHashDataTable "merchantID"
        "paymentID" = Outcome.panicked "index out of range [1] with length 1" ∧
    (DynamoDBRepository.mk Table.client).GetPayment examples.noHashKeyTable "merchantID"
        "paymentID" = Outcome.panicked "index out of range [1] with length 1" ∧
    (strings.Split "USD100" '#').length = 1 ∧ (strings.Split "PAYMENT" '#').length = 1 := by
  refine ⟨?_, by decide, by decide, by decide⟩
  rw [GetPayment_table_present examples.noHashDataTable "merchantID" "paymentID"
    { examples.repositoryItem with DATA := "USD100" } (by decide)]
  exact decodePaymentsItem_DATA_without_hash _ (by decide)

theorem sortKey_ne_MERCHANT (id : String) : "PAYMENT#" ++ id ≠ "MERCHANT" := by
  intro h
  have hd := congrArg String.data h
  rw [String.data_append] at hd
  have h1 : ("PAYMENT#" : String).data = 'P' :: ("AYMENT#" : String).data := by decide
  have h2 : ("MERCHANT" : String).data = 'M' :: ("ERCHANT" : String).data := by decide
  rw [h1, h2, List.cons_append] at hd
  have := (List.cons.inj hd).1
  exact absurd this (by decide)

theorem sortKey_injective (a b : String) (h : "PAYMENT#" ++ a = "PAYMENT#" ++ b) : a = b := by
  have hd := congrArg String.data h
  rw [String.data_append, String.data_append] at hd
  exact String.ext (List.append_cancel_left hd)

/-- A write of the key-value repository over a table leaves every `MERCHANT` row as it
was. -/
theorem Table_write_MERCHANT (t : Table) (w : Write) (pk : String) :
    (t.write w).items pk "MERCHANT" = t.items pk "MERCHANT" := by
  have hput : ∀ p : Payment,
      ((DynamoDBRepository.mk Table.client).CreateNewPayment t p).2.items pk "MERCHANT"
        = t.items pk "MERCHANT" := by
    intro p
    rw [CreateNewPayment_eq_PutItem]
    have hk : ¬ (pk = (Item.payment (NewPaymentsItemFromPayment p)).PK ∧
        "MERCHANT" = (Item.payment (NewPaymentsItemFromPayment p)).SK) := by
      intro hk
      exact sortKey_ne_MERCHANT p.ID hk.2.symm
    simp only [Table.client, Table.PutItem, if_neg hk]
  cases w with
  | create p => exact hput p
  | update p =>
    have hupd : (DynamoDBRepository.mk Table.client).UpdatePayment t p
        = (DynamoDBRepository.mk Table.client).CreateNewPayment t p := by
      unfold DynamoDBRepository.UpdatePayment
      rcases h : (DynamoDBRepository.mk Table.client).CreateNewPayment t p with ⟨e, st1⟩
      cases e <;> rfl
    simp only [Table.write, hupd]
    exact hput p

/-- C25: payment rows never collide with the merchant row. The sort key of a payment's
item differs from `MERCHANT`; `CreateNewPayment` and `UpdatePayment` over a table leave
every `MERCHANT` row as it was, so after any sequence of payment writes
`GetMerchantDetails` returns what it returned before; and payments that differ in merchant
id or payment id are written under different `(PK, SK)` keys. -/
theorem payment_rows_apart_from_MERCHANT :
    (∀ p : Payment, (NewPaymentsItemFromPayment p).SK ≠ "MERCHANT") ∧
    (∀ (t : Table) (p : Payment) (pk : String),
      ((DynamoDBRepository.mk Table.client).CreateNewPayment t p).2.items pk "MERCHANT"
        = t.items pk "MERCHANT" ∧
      ((DynamoDBRepository.mk Table.client).UpdatePayment t p).2.items pk "MERCHANT"
        = t.items pk "MERCHANT") ∧
    (∀ (ws : List Write) (t : Table) (m : String),
      (DynamoDBRepository.mk Table.client).GetMerchantDetails (ws.foldl Table.write t) m
        = (DynamoDBRepository.mk Table.client).GetMerchantDetails t m) ∧
    (∀ p q : Payment, (p.Merchant.ID, p.ID) ≠ (q.Merchant.ID, q.ID) →
      ((NewPaymentsItemFromPayment p).PK, (NewPaymentsItemFromPayment p).SK)
        ≠ ((NewPaymentsItemFromPayment q).PK, (NewPaymentsItemFromPayment q).SK)) := by
  refine ⟨fun p => sortKey_ne_MERCHANT p.ID,
    fun t p pk => ⟨Table_write_MERCHANT t (Write.create p) pk,
      Table_write_MERCHANT t (Write.update p) pk⟩, ?_, ?_⟩
  · intro ws
    induction ws with
    | nil => intro t m; rfl
    | cons w ws ih =>
      intro t m
      rw [List.foldl_cons, ih]
      simp only [DynamoDBRepository.GetMerchantDetails, Table.client, Table.GetItem,
        Table_write_MERCHANT]
  · intro p q hne hkey
    apply hne
    have h1 : p.Merchant.ID = q.Merchant.ID := congrArg Prod.fst hkey
    have h2 : p.ID = q.ID := sortKey_injective _ _ (congrArg Prod.snd hkey)
    rw [h1, h2]

/-- C25, at the seeded table: after the payment of the repository tests is created under
`test@merchant`, repriced and updated, the merchant is read as before; the payment of the
repository tests and the stored test payment go under different keys. -/
theorem payment_rows_apart_from_MERCHANT_witness :
    (DynamoDBRepository.mk Table.client).GetMerchantDetails
        ([Write.create { examples.repositoryPayment with
            Merchant := ⟨"test@merchant", ⟨"", "", "", ""⟩⟩ },
          Write.update { examples.repricedPayment with
            Merchant := ⟨"test@merchant", ⟨"", "", "", ""⟩⟩ }].foldl Table.write
          examples.seededTable) "test@merchant"
      = (DynamoDBRepository.mk Table.client).GetMerchantDetails examples.seededTable
        "test@merchant" ∧
    ((NewPaymentsItemFromPayment examples.repositoryPayment).PK,
        (NewPaymentsItemFromPayment examples.repositoryPayment).SK)
      ≠ ((NewPaymentsItemFromPayment examples.storedPayment).PK,
        (NewPaymentsItemFromPayment examples.storedPayment).SK) :=
  ⟨payment_rows_apart_from_MERCHANT.2.2.1 _ examples.seededTable "test@merchant",
    payment_rows_apart_from_MERCHANT.2.2.2 examples.repositoryPayment examples.storedPayment
      (by decide)⟩

end Repositories

/-! ## The orchestrator -/

section Orchestrator

open entities storage simulator service

variable {σ β : Type}

/-- A successful `CreateNewPayment` ran all four collaborator calls, each successfully. -/
theorem CreateNewPayment_success (s : Service σ β) (g : Globals) (p : Payment) (w : World σ β)
    (h : (s.CreateNewPayment g p w).1.2 = none) :
    ∃ bank1 merchant tx bank2 storage1,
      s.bankClient.ValidateCardInformation w.bank p.Customer.CardDetails = (none, bank1) ∧
      s.storage.GetMerchantDetails w.storage p.Merchant.ID = (merchant, none) ∧
      s.bankClient.ProcessTransaction bank1 merchant.AccountDetails p.Customer.CardDetails
        p.Price = ((tx, none), bank2) ∧
      s.storage.CreateNewPayment w.storage
        { p with
          ID := g.newUUID.String
          BankTransactionID := tx
          Merchant := { p.Merchant with AccountDetails := merchant.AccountDetails }
          Timestamp := g.now.UnixNano.tdiv time.Millisecond } = (none, storage1) ∧
      s.CreateNewPayment g p w =
        ((g.newUUID.String, none),
          { storage := storage1, bank := bank2
            calls := w.calls ++ [Call.ValidateCardInformation p.Customer.CardDetails] ++
              [Call.GetMerchantDetails p.Merchant.ID] ++
              [Call.ProcessTransaction merchant.AccountDetails p.Customer.CardDetails p.Price] ++
              [Call.CreateNewPayment
                { p with
                  ID := g.newUUID.String
                  BankTransactionID := tx
                  Merchant := { p.Merchant with AccountDetails := merchant.AccountDetails }
                  Timestamp := g.now.UnixNano.tdiv time.Millisecond }] }) := by
  rcases hv : s.bankClient.ValidateCardInformation w.bank p.Customer.CardDetails with ⟨ev, bank1⟩
  cases ev with
  | some e => simp [Service.CreateNewPayment, hv] at h
  | none =>
    rcases hm : s.storage.GetMerchantDetails w.storage p.Merchant.ID with ⟨merchant, em⟩
    cases em with
    | some e => simp [Service.CreateNewPayment, hv, hm] at h
    | none =>
      rcases hp : s.bankClient.ProcessTransaction bank1 merchant.AccountDetails
        p.Customer.CardDetails p.Price with ⟨⟨tx, ep⟩, bank2⟩
      cases ep with
      | some e => simp [Service.CreateNewPayment, hv, hm, hp] at h
      | none =>
        rcases hc : s.storage.CreateNewPayment w.storage
          { p with
            ID := g.newUUID.String
            BankTransactionID := tx
            Merchant := { p.Merchant with AccountDetails := merchant.AccountDetails }
            Timestamp := g.now.UnixNano.tdiv time.Millisecond } with ⟨ec, storage1⟩
        cases ec with
        | some e => simp [Service.CreateNewPayment, hv, hm, hp, hc] at h
        | none =>
          refine ⟨bank1, merchant, tx, bank2, storage1, rfl, rfl, hp, hc, ?_⟩
          simp [Service.CreateNewPayment, hv, hm, hp, hc]

/-- C2: when `CreateNewPayment` succeeds over the in-memory repository it returns the
string of the generated id, and `GetPayment` on that id then returns the input with `ID`,
`BankTransactionID`, `Timestamp` and `Merchant.AccountDetails` replaced by the generated
id, the id that `ProcessTransaction` returned, the clock in milliseconds and the account
details of `GetMerchantDetails`; the other fields are the input's. -/
theorem CreateNewPayment_memory_GetPayment (bank : BankClient β) (g : Globals) (p : Payment)
    (w : World MemoryRepository β)
    (h : ((Service.mk MemoryRepository.repository bank).CreateNewPayment g p w).1.2 = none) :
    ((Service.mk MemoryRepository.repository bank).CreateNewPayment g p w).1.1
        = g.newUUID.String ∧
      ∀ m : String,
        ((Service.mk MemoryRepository.repository bank).CreateNewPayment g p w).2.storage.GetPayment
            m g.newUUID.String =
          ({ ID := g.newUUID.String
             Merchant :=
               { ID := p.Merchant.ID
                 AccountDetails :=
                   (MemoryRepository.GetMerchantDetails w.storage p.Merchant.ID).1.AccountDetails }
             Customer := p.Customer
             Price := p.Price
             BankTransactionID :=
               (bank.ProcessTransaction
                 (bank.ValidateCardInformation w.bank p.Customer.CardDetails).2
                 (MemoryRepository.GetMerchantDetails w.storage p.Merchant.ID).1.AccountDetails
                 p.Customer.CardDetails p.Price).1.1
             Timestamp := g.now.UnixNano.tdiv time.Millisecond
             Refunded := p.Refunded
             RefundTimestamp := p.RefundTimestamp }, none) := by
  obtain ⟨bank1, merchant, tx, bank2, storage1, hv, hm, hp, hc, hr⟩ :=
    CreateNewPayment_success _ g p w h
  have hm2 : merchant = (MemoryRepository.GetMerchantDetails w.storage p.Merchant.ID).1 := by
    have := congrArg Prod.fst hm
    exact this.symm
  subst hm2
  have hs : storage1 = (MemoryRepository.CreateNewPayment w.storage _).2 :=
    (congrArg Prod.snd hc).symm
  dsimp only at hv hp
  rw [hr, hs]
  refine ⟨rfl, fun m => ?_⟩
  simp [MemoryRepository.GetPayment, MemoryRepository.CreateNewPayment, hv, hp]

/-- C2, at the input of `TestCreateNewPayment` with caller-supplied id, transaction id,
timestamp and account details: the stored record is the one the test expects. -/
theorem CreateNewPayment_memory_GetPayment_witness :
    (examples.memoryService.CreateNewPayment examples.testGlobals examples.callerPayment
        examples.emptyWorld).1.1 = "00000000-0000-0000-0000-000000000000" ∧
      (examples.memoryService.CreateNewPayment examples.testGlobals examples.callerPayment
          examples.emptyWorld).2.storage.GetPayment "testMerchantID"
          "00000000-0000-0000-0000-000000000000" =
        ({ ID := "00000000-0000-0000-0000-000000000000"
           Merchant := ⟨"testMerchantID", examples.testAccount⟩
           Customer := examples.testCustomer
           Price := ⟨100, "USD"⟩
           BankTransactionID := "simulatedTransactionID"
           Timestamp := 100000
           Refunded := false
           RefundTimestamp := 0 }, none) := by
  have h := CreateNewPayment_memory_GetPayment simulator.BankSimulator examples.testGlobals
    examples.callerPayment examples.emptyWorld (by decide)
  have hu : examples.testGlobals.newUUID.String = "00000000-0000-0000-0000-000000000000" := by
    decide
  have ht : examples.testGlobals.now.UnixNano.tdiv time.Millisecond = 100000 := by decide
  rw [hu, ht] at h
  exact ⟨h.1, h.2 "testMerchantID"⟩

/-- Over a table, a successful `CreateNewPayment` returns the generated id, and
`GetPayment` under the payment's merchant and that id then returns the created payment
without its bank transaction id and without the merchant's account details. -/
theorem CreateNewPayment_table_GetPayment (bank : BankClient β) (g : Globals) (p : Payment)
    (w : World Table β) (hcur : '#' ∉ p.Price.Currency.data)
    (hlo : -(2 ^ 63) ≤ p.Price.Amount) (hhi : p.Price.Amount < 2 ^ 63)
    (h : ((Service.mk (DynamoDBRepository.mk Table.client).repository bank).CreateNewPayment
      g p w).1.2 = none) :
    ((Service.mk (DynamoDBRepository.mk Table.client).repository bank).CreateNewPayment
        g p w).1.1 = g.newUUID.String ∧
      (DynamoDBRepository.mk Table.client).GetPayment
          ((Service.mk (DynamoDBRepository.mk Table.client).repository bank).CreateNewPayment
            g p w).2.storage p.Merchant.ID g.newUUID.String =
        Outcome.returned
          ({ ID := g.newUUID.String
             Merchant := { ID := p.Merchant.ID, AccountDetails := ⟨"", "", "", ""⟩ }
             Customer := p.Customer
             Price := p.Price
             BankTransactionID := ""
             Timestamp := g.now.UnixNano.tdiv time.Millisecond
             Refunded := p.Refunded
             RefundTimestamp := p.RefundTimestamp }, none) := by
  obtain ⟨bank1, merchant, tx, bank2, storage1, hv, hm, hp, hc, hr⟩ :=
    CreateNewPayment_success _ g p w h
  have hs : storage1 = (Table.PutItem w.storage (Item.payment (NewPaymentsItemFromPayment
      { p with
        ID := g.newUUID.String
        BankTransactionID := tx
        Merchant := { p.Merchant with AccountDetails := merchant.AccountDetails }
        Timestamp := g.now.UnixNano.tdiv time.Millisecond }))).2 := by
    have := congrArg Prod.snd hc
    simpa [DynamoDBRepository.repository, DynamoDBRepository.CreateNewPayment,
      MarshalPaymentsItem, Table.client, Table.PutItem] using this.symm
  rw [hr, hs]
  refine ⟨rfl, ?_⟩
  have hd := decode_encode
    { p with
      ID := g.newUUID.String
      BankTransactionID := tx
      Merchant := { p.Merchant with AccountDetails := merchant.AccountDetails }
      Timestamp := g.now.UnixNano.tdiv time.Millisecond }
    (hash_not_mem_UUID_String _) hcur hlo hhi
  have hk : (NewPaymentsItemFromPayment
      { p with
        ID := g.newUUID.String
        BankTransactionID := tx
        Merchant := { p.Merchant with AccountDetails := merchant.AccountDetails }
        Timestamp := g.now.UnixNano.tdiv time.Millisecond }).PK = p.Merchant.ID
      ∧ (NewPaymentsItemFromPayment
      { p with
        ID := g.newUUID.String
        BankTransactionID := tx
        Merchant := { p.Merchant with AccountDetails := merchant.AccountDetails }
        Timestamp := g.now.UnixNano.tdiv time.Millisecond }).SK
        = "PAYMENT#" ++ g.newUUID.String := ⟨rfl, rfl⟩
  simp only [DynamoDBRepository.GetPayment, Table.client, Table.GetItem, Table.PutItem,
    Item.PK, Item.SK, hk.1, hk.2, and_self, if_true, UnmarshalPaymentsItem, hd]

/-- C3 (the code at a valid input): over the seeded table and the simulated bank, which
answers `ProcessTransaction` with `simulatedTransactionID`, `CreateNewPayment` returns the
generated id, and `GetPayment` under the merchant and that id returns a record with the
same price and customer id whose `BankTransactionID` is empty. -/
theorem CreateNewPayment_table_BankTransactionID_empty :
    (examples.tableService.CreateNewPayment examples.testGlobals examples.requestPayment
        examples.seededWorld).1 = ("00000000-0000-0000-0000-000000000000", none) ∧
      (simulator.BankSimulator.ProcessTransaction () examples.testAccount
        examples.requestPayment.Customer.CardDetails examples.requestPayment.Price).1
        = ("simulatedTransactionID", none) ∧
      (DynamoDBRepository.mk Table.client).GetPayment
          (examples.tableService.CreateNewPayment examples.testGlobals examples.requestPayment
            examples.seededWorld).2.storage "test@merchant"
            "00000000-0000-0000-0000-000000000000" =
        Outcome.returned
          ({ ID := "00000000-0000-0000-0000-000000000000"
             Merchant := { ID := "test@merchant", AccountDetails := ⟨"", "", "", ""⟩ }
             Customer := ⟨"c1", ⟨"Customer One", "1234123412341234", 123, "12/23"⟩⟩
             Price := ⟨1000, "USD"⟩
             BankTransactionID := ""
             Timestamp := 100000
             Refunded := false
             RefundTimestamp := 0 }, none) := by
  have h := CreateNewPayment_table_GetPayment simulator.BankSimulator examples.testGlobals
    examples.requestPayment examples.seededWorld (by decide) (by decide) (by decide) (by decide)
  have hu : examples.testGlobals.newUUID.String = "00000000-0000-0000-0000-000000000000" := by
    decide
  have ht : examples.testGlobals.now.UnixNano.tdiv time.Millisecond = 100000 := by decide
  rw [hu, ht] at h
  exact ⟨by decide, by decide, h.2⟩

/-- C4: in `CreateNewPayment` the first failing step ends the use case. The result is the
empty id with that step's error, the trace holds the calls up to the failing one and no
later call, and the repository state is the one before the call unless the failing step
is the repository's own `CreateNewPayment`. -/
theorem CreateNewPayment_first_failure (s : Service σ β) (g : Globals) (p : Payment)
    (w : World σ β) :
    (∀ e bank1,
      s.bankClient.ValidateCardInformation w.bank p.Customer.CardDetails = (some e, bank1) →
      s.CreateNewPayment g p w =
        (("", some e),
          { storage := w.storage, bank := bank1
            calls := w.calls ++ [Call.ValidateCardInformation p.Customer.CardDetails] })) ∧
    (∀ e bank1 merchant,
      s.bankClient.ValidateCardInformation w.bank p.Customer.CardDetails = (none, bank1) →
      s.storage.GetMerchantDetails w.storage p.Merchant.ID = (merchant, some e) →
      s.CreateNewPayment g p w =
        (("", some e),
          { storage := w.storage, bank := bank1
            calls := w.calls ++ [Call.ValidateCardInformation p.Customer.CardDetails,
              Call.GetMerchantDetails p.Merchant.ID] })) ∧
    (∀ e bank1 merchant tx bank2,
      s.bankClient.ValidateCardInformation w.bank p.Customer.CardDetails = (none, bank1) →
      s.storage.GetMerchantDetails w.storage p.Merchant.ID = (merchant, none) →
      s.bankClient.ProcessTransaction bank1 merchant.AccountDetails p.Customer.CardDetails
        p.Price = ((tx, some e), bank2) →
      s.CreateNewPayment g p w =
        (("", some e),
          { storage := w.storage, bank := bank2
            calls := w.calls ++ [Call.ValidateCardInformation p.Customer.CardDetails,
              Call.GetMerchantDetails p.Merchant.ID,
              Call.ProcessTransaction merchant.AccountDetails p.Customer.CardDetails
                p.Price] })) ∧
    (∀ e bank1 merchant tx bank2 storage1,
      s.bankClient.ValidateCardInformation w.bank p.Customer.CardDetails = (none, bank1) →
      s.storage.GetMerchantDetails w.storage p.Merchant.ID = (merchant, none) →
      s.bankClient.ProcessTransaction bank1 merchant.AccountDetails p.Customer.CardDetails
        p.Price = ((tx, none), bank2) →
      s.storage.CreateNewPayment w.storage
        { p with
          ID := g.newUUID.String
          BankTransactionID := tx
          Merchant := { p.Merchant with AccountDetails := merchant.AccountDetails }
          Timestamp := g.now.UnixNano.tdiv time.Millisecond } = (some e, storage1) →
      s.CreateNewPayment g p w =
        (("", some e),
          { storage := storage1, bank := bank2
            calls := w.calls ++ [Call.ValidateCardInformation p.Customer.CardDetails,
              Call.GetMerchantDetails p.Merchant.ID,
              Call.ProcessTransaction merchant.AccountDetails p.Customer.CardDetails p.Price,
              Call.CreateNewPayment
                { p with
                  ID := g.newUUID.String
                  BankTransactionID := tx
                  Merchant := { p.Merchant with AccountDetails := merchant.AccountDetails }
                  Timestamp := g.now.UnixNano.tdiv time.Millisecond }] })) := by
  refine ⟨?_, ?_, ?_, ?_⟩
  · intro e bank1 hv
    simp [Service.CreateNewPayment, hv]
  · intro e bank1 merchant hv hm
    simp [Service.CreateNewPayment, hv, hm]
  · intro e bank1 merchant tx bank2 hv hm hp
    simp [Service.CreateNewPayment, hv, hm, hp]
  · intro e bank1 merchant tx bank2 storage1 hv hm hp hc
    simp [Service.CreateNewPayment, hv, hm, hp, hc]

/-- C4, at four concrete runs: a declining validation, an unreachable store at the merchant
lookup, a declined charge, and a store that refuses the write. -/
theorem CreateNewPayment_first_failure_witness :
    (Service.mk MemoryRepository.repository
        (examples.scriptedBank (some examples.declined) none none)).CreateNewPayment
        examples.testGlobals examples.callerPayment examples.emptyWorld =
      (("", some examples.declined),
        { storage := examples.emptyWorld.storage, bank := ()
          calls := [Call.ValidateCardInformation examples.testCustomer.CardDetails] }) ∧
    (Service.mk (DynamoDBRepository.mk examples.offlineClient).repository
        simulator.BankSimulator).CreateNewPayment
        examples.testGlobals examples.requestPayment examples.seededWorld =
      (("", some (Error.errorString "store unreachable")),
        { storage := examples.seededTable, bank := ()
          calls := [Call.ValidateCardInformation examples.requestPayment.Customer.CardDetails,
            Call.GetMerchantDetails "test@merchant"] }) ∧
    (Service.mk MemoryRepository.repository
        (examples.scriptedBank none (some examples.declined) none)).CreateNewPayment
        examples.testGlobals examples.callerPayment examples.emptyWorld =
      (("", some examples.declined),
        { storage := examples.emptyWorld.storage, bank := ()
          calls := [Call.ValidateCardInformation examples.testCustomer.CardDetails,
            Call.GetMerchantDetails "testMerchantID",
            Call.ProcessTransaction examples.testAccount examples.testCustomer.CardDetails
              ⟨100, "USD"⟩] }) ∧
    (Service.mk (DynamoDBRepository.mk examples.readOnlyClient).repository
        simulator.BankSimulator).CreateNewPayment
        examples.testGlobals examples.requestPayment examples.seededWorld =
      (("", some (Error.errorString "write refused")),
        { storage := examples.seededTable, bank := ()
          calls := [Call.ValidateCardInformation examples.requestPayment.Customer.CardDetails,
            Call.GetMerchantDetails "test@merchant",
            Call.ProcessTransaction examples.testAccount
              examples.requestPayment.Customer.CardDetails ⟨1000, "USD"⟩,
            Call.CreateNewPayment
              { examples.requestPayment with
                ID := examples.testUUID.String
                BankTransactionID := "simulatedTransactionID"
                Merchant := ⟨"test@merchant", examples.testAccount⟩
                Timestamp := (time.Unix 100 100).UnixNano.tdiv time.Millisecond }] }) :=
  ⟨(CreateNewPayment_first_failure _ examples.testGlobals examples.callerPayment
      examples.emptyWorld).1 examples.declined () rfl,
    (CreateNewPayment_first_failure _ examples.testGlobals examples.requestPayment
      examples.seededWorld).2.1 (Error.errorString "store unreachable") () zeroMerchant rfl rfl,
    (CreateNewPayment_first_failure _ examples.testGlobals examples.callerPayment
      examples.emptyWorld).2.2.1 examples.declined () ⟨"testMerchantID", examples.testAccount⟩
      "" () rfl rfl rfl,
    (CreateNewPayment_first_failure _ examples.testGlobals examples.requestPayment
      examples.seededWorld).2.2.2 (Error.errorString "write refused") ()
      ⟨"test@merchant", examples.testAccount⟩ "simulatedTransactionID" () examples.seededTable
      rfl (by decide) rfl rfl⟩

/-- A successful `RefundPayment` ran its three collaborator calls, each successfully. -/
theorem RefundPayment_success (s : Service σ β) (g : Globals) (m id : String)
    (w w1 : World σ β) (h : s.RefundPayment g m id w = Outcome.returned (none, w1)) :
    ∃ payment bank1 storage1,
      s.storage.GetPayment w.storage m id = Outcome.returned (payment, none) ∧
      s.bankClient.RevertTransaction w.bank payment.BankTransactionID = (none, bank1) ∧
      s.storage.UpdatePayment w.storage
        { payment with
          Refunded := true
          RefundTimestamp := g.now.UnixNano.tdiv time.Millisecond } = (none, storage1) ∧
      w1 =
        { storage := storage1, bank := bank1
          calls := w.calls ++ [Call.GetPayment m id,
            Call.RevertTransaction payment.BankTransactionID,
            Call.UpdatePayment
              { payment with
                Refunded := true
                RefundTimestamp := g.now.UnixNano.tdiv time.Millisecond }] } := by
  cases hg : s.storage.GetPayment w.storage m id with
  | panicked msg => simp [Service.RefundPayment, hg] at h
  | returned r =>
    rcases r with ⟨payment, eg⟩
    cases eg with
    | some e => simp [Service.RefundPayment, hg] at h
    | none =>
      rcases hr : s.bankClient.RevertTransaction w.bank payment.BankTransactionID with ⟨er, bank1⟩
      cases er with
      | some e => simp [Service.RefundPayment, hg, hr] at h
      | none =>
        rcases hu : s.storage.UpdatePayment w.storage
          { payment with
            Refunded := true
            RefundTimestamp := g.now.UnixNano.tdiv time.Millisecond } with ⟨eu, storage1⟩
        cases eu with
        | some e => simp [Service.RefundPayment, hg, hr, hu] at h
        | none =>
          refine ⟨payment, bank1, storage1, rfl, hr, hu, ?_⟩
          simp [Service.RefundPayment, hg, hr, hu] at h
          exact h.symm

/-- C5: over the in-memory repository, a successful `RefundPayment` on a payment stored
under its id leaves under that id the same record with `Refunded` true and
`RefundTimestamp` the clock in milliseconds, and changes no record under another id. -/
theorem RefundPayment_memory_frame (bank : BankClient β) (g : Globals) (m X : String)
    (p : Payment) (w w1 : World MemoryRepository β)
    (hst : w.storage.payments X = some p) (hid : p.ID = X)
    (h : (Service.mk MemoryRepository.repository bank).RefundPayment g m X w
      = Outcome.returned (none, w1)) :
    w1.storage.payments X =
        some
          { ID := p.ID, Merchant := p.Merchant, Customer := p.Customer, Price := p.Price
            BankTransactionID := p.BankTransactionID, Timestamp := p.Timestamp
            Refunded := true
            RefundTimestamp := g.now.UnixNano.tdiv time.Millisecond } ∧
      ∀ k : String, k ≠ X → w1.storage.payments k = w.storage.payments k := by
  obtain ⟨payment, bank1, storage1, hg, hr, hu, hw⟩ := RefundPayment_success _ g m X w w1 h
  have hp : payment = p := by
    have := hg
    simp [MemoryRepository.repository, MemoryRepository.GetPayment, hst] at this
    exact this.symm
  subst hp
  have hs : storage1 = (MemoryRepository.UpdatePayment w.storage
      { payment with
        Refunded := true
        RefundTimestamp := g.now.UnixNano.tdiv time.Millisecond }).2 :=
    (congrArg Prod.snd hu).symm
  subst hw
  subst hs
  refine ⟨?_, fun k hk => ?_⟩
  · simp [MemoryRepository.UpdatePayment, hid]
  · simp [MemoryRepository.UpdatePayment, hid, hk]

/-- C5, at `TestRefundPayment`: the stored record afterwards is the one the test expects. -/
theorem RefundPayment_memory_frame_witness :
    examples.memoryService.RefundPayment examples.testGlobals "testMerchantID"
        "00000000-0000-0000-0000-000000000000" examples.storedWorld
        = Outcome.returned (none, examples.refundedWorld) ∧
      examples.refundedWorld.storage.payments "00000000-0000-0000-0000-000000000000" =
        some
          { ID := "00000000-0000-0000-0000-000000000000"
            Merchant := ⟨"testMerchantID", examples.testAccount⟩
            Customer := examples.testCustomer
            Price := ⟨100, "USD"⟩
            BankTransactionID := "simulatedTransactionID"
            Timestamp := 123
            Refunded := true
            RefundTimestamp := (time.Unix 100 100).UnixNano.tdiv time.Millisecond } ∧
      ∀ k : String, k ≠ "00000000-0000-0000-0000-000000000000" →
        examples.refundedWorld.storage.payments k = examples.storedWorld.storage.payments k :=
  ⟨rfl,
    RefundPayment_memory_frame simulator.BankSimulator examples.testGlobals "testMerchantID"
      "00000000-0000-0000-0000-000000000000" examples.storedPayment examples.storedWorld
      examples.refundedWorld (by decide) rfl rfl⟩

/-- C6: in `RefundPayment`, when `GetPayment` fails neither `RevertTransaction` nor
`UpdatePayment` is called, and when `RevertTransaction` fails `UpdatePayment` is not
called; the collaborator's error is returned as it is and the repository state is the one
before the call. -/
theorem RefundPayment_first_failure (s : Service σ β) (g : Globals) (m id : String)
    (w : World σ β) :
    (∀ e payment,
      s.storage.GetPayment w.storage m id = Outcome.returned (payment, some e) →
      s.RefundPayment g m id w =
        Outcome.returned
          (some e,
            { storage := w.storage, bank := w.bank
              calls := w.calls ++ [Call.GetPayment m id] })) ∧
    (∀ e payment bank1,
      s.storage.GetPayment w.storage m id = Outcome.returned (payment, none) →
      s.bankClient.RevertTransaction w.bank payment.BankTransactionID = (some e, bank1) →
      s.RefundPayment g m id w =
        Outcome.returned
          (some e,
            { storage := w.storage, bank := bank1
              calls := w.calls ++ [Call.GetPayment m id,
                Call.RevertTransaction payment.BankTransactionID] })) := by
  refine ⟨?_, ?_⟩
  · intro e payment hg
    simp [Service.RefundPayment, hg]
  · intro e payment bank1 hg hr
    simp [Service.RefundPayment, hg, hr]

/-- C6, at two concrete runs over the in-memory repository: a refund of an id that is not
stored, and a refund of the stored test payment that the bank declines. -/
theorem RefundPayment_first_failure_witness :
    examples.memoryService.RefundPayment examples.testGlobals "testMerchantID" "missing"
        examples.storedWorld =
      Outcome.returned
        (some (Error.errorString "payment with ID missing not found"),
          { storage := examples.storedWorld.storage, bank := ()
            calls := [Call.GetPayment "testMerchantID" "missing"] }) ∧
    (Service.mk MemoryRepository.repository
        (examples.scriptedBank none none (some examples.declined))).RefundPayment
        examples.testGlobals "testMerchantID" "00000000-0000-0000-0000-000000000000"
        examples.storedWorld =
      Outcome.returned
        (some examples.declined,
          { storage := examples.storedWorld.storage, bank := ()
            calls := [Call.GetPayment "testMerchantID" "00000000-0000-0000-0000-000000000000",
              Call.RevertTransaction "simulatedTransactionID"] }) :=
  ⟨(RefundPayment_first_failure examples.memoryService examples.testGlobals "testMerchantID"
      "missing" examples.storedWorld).1 (Error.errorString "payment with ID missing not found")
      Payment.zero (by decide),
    (RefundPayment_first_failure _ examples.testGlobals "testMerchantID"
      "00000000-0000-0000-0000-000000000000" examples.storedWorld).2 examples.declined
      examples.storedPayment () (by decide) rfl⟩

/-- Over the in-memory repository a refund of a payment stored under its id succeeds
whenever the bank reverts, and its effect is determined. -/
theorem RefundPayment_memory_run (bank : BankClient β) (g : Globals) (m X : String)
    (p : Payment) (w : World MemoryRepository β) (bank1 : β)
    (hst : w.storage.payments X = some p)
    (hr : bank.RevertTransaction w.bank p.BankTransactionID = (none, bank1)) :
    (Service.mk MemoryRepository.repository bank).RefundPayment g m X w =
      Outcome.returned
        (none,
          { storage :=
              (MemoryRepository.UpdatePayment w.storage
                { p with
                  Refunded := true
                  RefundTimestamp := g.now.UnixNano.tdiv time.Millisecond }).2
            bank := bank1
            calls := w.calls ++ [Call.GetPayment m X,
              Call.RevertTransaction p.BankTransactionID,
              Call.UpdatePayment
                { p with
                  Refunded := true
                  RefundTimestamp := g.now.UnixNano.tdiv time.Millisecond }] }) := by
  simp [Service.RefundPayment, MemoryRepository.repository, MemoryRepository.GetPayment, hst, hr,
    MemoryRepository.UpdatePayment]

/-- Over a table, a refund of a payment whose item sits under the requested key succeeds
whenever the bank reverts the empty transaction id: the payment is decoded without its
bank transaction id, and the item of the refunded payment is put. -/
theorem RefundPayment_table_run (bank : BankClient β) (g : Globals) (m X : String)
    (p : Payment) (w : World Table β) (bank1 : β)
    (hitem : w.storage.items m ("PAYMENT#" ++ X)
      = some (Item.payment (NewPaymentsItemFromPayment p)))
    (hid : '#' ∉ p.ID.data) (hcur : '#' ∉ p.Price.Currency.data)
    (hlo : -(2 ^ 63) ≤ p.Price.Amount) (hhi : p.Price.Amount < 2 ^ 63)
    (hr : bank.RevertTransaction w.bank "" = (none, bank1)) :
    (Service.mk (DynamoDBRepository.mk Table.client).repository bank).RefundPayment g m X w =
      Outcome.returned
        (none,
          { storage :=
              (Table.PutItem w.storage (Item.payment (NewPaymentsItemFromPayment
                { p with
                  BankTransactionID := ""
                  Merchant := { ID := p.Merchant.ID, AccountDetails := ⟨"", "", "", ""⟩ }
                  Refunded := true
                  RefundTimestamp := g.now.UnixNano.tdiv time.Millisecond }))).2
            bank := bank1
            calls := w.calls ++ [Call.GetPayment m X,
              Call.RevertTransaction "",
              Call.UpdatePayment
                { p with
                  BankTransactionID := ""
                  Merchant := { ID := p.Merchant.ID, AccountDetails := ⟨"", "", "", ""⟩ }
                  Refunded := true
                  RefundTimestamp := g.now.UnixNano.tdiv time.Millisecond }] }) := by
  have hget : (DynamoDBRepository.mk Table.client).repository.GetPayment w.storage m X =
      Outcome.returned
        ({ p with
           BankTransactionID := ""
           Merchant := { ID := p.Merchant.ID, AccountDetails := ⟨"", "", "", ""⟩ } }, none) := by
    have := GetPayment_table_present w.storage m X _ hitem
    rw [decode_encode p hid hcur hlo hhi] at this
    exact this
  simp only [Service.RefundPayment, hget, hr]
  simp [DynamoDBRepository.repository, DynamoDBRepository.UpdatePayment,
    DynamoDBRepository.CreateNewPayment, MarshalPaymentsItem, Table.client, Table.PutItem]

/-- C7: refund is not idempotent. With a bank whose `RevertTransaction` always succeeds,
two refunds of a stored payment both succeed, over the in-memory repository as over a
table. Each refund hands the bank one `RevertTransaction`, so the bank ends in the state
that two reverts in a row leave, each refund rewrites the record once, and the
`RefundTimestamp` stored after the second refund is the clock value of the second call. -/
theorem RefundPayment_twice (bank : BankClient β) (g1 g2 : Globals) (m X : String)
    (p : Payment) (hbank : ∀ b t, (bank.RevertTransaction b t).1 = none) :
    (∀ w : World MemoryRepository β, w.storage.payments X = some p → p.ID = X →
      ∃ w1 w2 : World MemoryRepository β,
        (Service.mk MemoryRepository.repository bank).RefundPayment g1 m X w
          = Outcome.returned (none, w1) ∧
        (Service.mk MemoryRepository.repository bank).RefundPayment g2 m X w1
          = Outcome.returned (none, w2) ∧
        w1.bank = (bank.RevertTransaction w.bank p.BankTransactionID).2 ∧
        w2.bank = (bank.RevertTransaction w1.bank p.BankTransactionID).2 ∧
        w1.storage = (w.storage.UpdatePayment
          { p with
            Refunded := true
            RefundTimestamp := g1.now.UnixNano.tdiv time.Millisecond }).2 ∧
        w2.storage = (w1.storage.UpdatePayment
          { p with
            Refunded := true
            RefundTimestamp := g2.now.UnixNano.tdiv time.Millisecond }).2 ∧
        w2.calls = w.calls ++ [Call.GetPayment m X,
          Call.RevertTransaction p.BankTransactionID,
          Call.UpdatePayment
            { p with
              Refunded := true
              RefundTimestamp := g1.now.UnixNano.tdiv time.Millisecond },
          Call.GetPayment m X,
          Call.RevertTransaction p.BankTransactionID,
          Call.UpdatePayment
            { p with
              Refunded := true
              RefundTimestamp := g2.now.UnixNano.tdiv time.Millisecond }] ∧
        w1.storage.payments X =
          some { p with
            Refunded := true
            RefundTimestamp := g1.now.UnixNano.tdiv time.Millisecond } ∧
        w2.storage.payments X =
          some { p with
            Refunded := true
            RefundTimestamp := g2.now.UnixNano.tdiv time.Millisecond }) ∧
    (∀ w : World Table β,
      w.storage.items m ("PAYMENT#" ++ X) = some (Item.payment (NewPaymentsItemFromPayment p)) →
      p.Merchant.ID = m → p.ID = X → '#' ∉ X.data → '#' ∉ p.Price.Currency.data →
      -(2 ^ 63) ≤ p.Price.Amount → p.Price.Amount < 2 ^ 63 →
      ∃ w1 w2 : World Table β,
        (Service.mk (DynamoDBRepository.mk Table.client).repository bank).RefundPayment
          g1 m X w = Outcome.returned (none, w1) ∧
        (Service.mk (DynamoDBRepository.mk Table.client).repository bank).RefundPayment
          g2 m X w1 = Outcome.returned (none, w2) ∧
        w1.bank = (bank.RevertTransaction w.bank "").2 ∧
        w2.bank = (bank.RevertTransaction w1.bank "").2 ∧
        w1.storage = (Table.PutItem w.storage (Item.payment
          { NewPaymentsItemFromPayment p with
            Refunded := true
            RefundTimestamp := g1.now.UnixNano.tdiv time.Millisecond })).2 ∧
        w2.storage = (Table.PutItem w1.storage (Item.payment
          { NewPaymentsItemFromPayment p with
            Refunded := true
            RefundTimestamp := g2.now.UnixNano.tdiv time.Millisecond })).2 ∧
        w2.calls = w.calls ++ [Call.GetPayment m X,
          Call.RevertTransaction "",
          Call.UpdatePayment
            { p with
              BankTransactionID := ""
              Merchant := { ID := p.Merchant.ID, AccountDetails := ⟨"", "", "", ""⟩ }
              Refunded := true
              RefundTimestamp := g1.now.UnixNano.tdiv time.Millisecond },
          Call.GetPayment m X,
          Call.RevertTransaction "",
          Call.UpdatePayment
            { p with
              BankTransactionID := ""
              Merchant := { ID := p.Merchant.ID, AccountDetails := ⟨"", "", "", ""⟩ }
              Refunded := true
              RefundTimestamp := g2.now.UnixNano.tdiv time.Millisecond }] ∧
        w1.storage.items m ("PAYMENT#" ++ X) =
          some (Item.payment
            { NewPaymentsItemFromPayment p with
              Refunded := true
              RefundTimestamp := g1.now.UnixNano.tdiv time.Millisecond }) ∧
        w2.storage.items m ("PAYMENT#" ++ X) =
          some (Item.payment
            { NewPaymentsItemFromPayment p with
              Refunded := true
              RefundTimestamp := g2.now.UnixNano.tdiv time.Millisecond })) := by
  have hrev : ∀ (b : β) (t : String),
      bank.RevertTransaction b t = (none, (bank.RevertTransaction b t).2) :=
    fun b t => Prod.ext (hbank b t) rfl
  refine ⟨?_, ?_⟩
  · intro w hst hid
    have h1 := RefundPayment_memory_run bank g1 m X p w _ hst (hrev _ _)
    have hst1 : (MemoryRepository.UpdatePayment w.storage
        { p with
          Refunded := true
          RefundTimestamp := g1.now.UnixNano.tdiv time.Millisecond }).2.payments X
        = some { p with
            Refunded := true
            RefundTimestamp := g1.now.UnixNano.tdiv time.Millisecond } := by
      simp [MemoryRepository.UpdatePayment, hid]
    have h2 := RefundPayment_memory_run bank g2 m X
      { p with
        Refunded := true
        RefundTimestamp := g1.now.UnixNano.tdiv time.Millisecond }
      { storage :=
          (MemoryRepository.UpdatePayment w.storage
            { p with
              Refunded := true
              RefundTimestamp := g1.now.UnixNano.tdiv time.Millisecond }).2
        bank := (bank.RevertTransaction w.bank p.BankTransactionID).2
        calls := w.calls ++ [Call.GetPayment m X,
          Call.RevertTransaction p.BankTransactionID,
          Call.UpdatePayment
            { p with
              Refunded := true
              RefundTimestamp := g1.now.UnixNano.tdiv time.Millisecond }] }
      _ hst1 (hrev _ _)
    refine ⟨_, _, h1, h2, rfl, rfl, rfl, rfl, ?_, hst1, ?_⟩
    · simp
    · simp [MemoryRepository.UpdatePayment, hid]
  · intro w hitem hm hX hid hcur hlo hhi
    have hid2 : '#' ∉ p.ID.data := by rw [hX]; exact hid
    have h1 := RefundPayment_table_run bank g1 m X p w _ hitem hid2 hcur hlo hhi (hrev _ _)
    have hkey : ∀ (t : Table) (ts : Int),
        (Table.PutItem t (Item.payment
          { NewPaymentsItemFromPayment p with
            Refunded := true
            RefundTimestamp := ts })).2.items m ("PAYMENT#" ++ X) =
          some (Item.payment
            { NewPaymentsItemFromPayment p with
              Refunded := true
              RefundTimestamp := ts }) := by
      intro t ts
      simp [Table.PutItem, Item.PK, Item.SK, NewPaymentsItemFromPayment, hm, hX]
    have h2 := RefundPayment_table_run bank g2 m X
      { p with
        BankTransactionID := ""
        Merchant := { ID := p.Merchant.ID, AccountDetails := ⟨"", "", "", ""⟩ }
        Refunded := true
        RefundTimestamp := g1.now.UnixNano.tdiv time.Millisecond }
      { storage :=
          (Table.PutItem w.storage (Item.payment
            { NewPaymentsItemFromPayment p with
              Refunded := true
              RefundTimestamp := g1.now.UnixNano.tdiv time.Millisecond })).2
        bank := (bank.RevertTransaction w.bank "").2
        calls := w.calls ++ [Call.GetPayment m X, Call.RevertTransaction "",
          Call.UpdatePayment
            { p with
              BankTransactionID := ""
              Merchant := { ID := p.Merchant.ID, AccountDetails := ⟨"", "", "", ""⟩ }
              Refunded := true
              RefundTimestamp := g1.now.UnixNano.tdiv time.Millisecond }] }
      _ (hkey _ _) hid2 hcur hlo hhi (hrev _ _)
    refine ⟨_, _, h1, h2, rfl, rfl, rfl, rfl, ?_, hkey _ _, hkey _ _⟩
    simp

/-- C7, at the stored test payment refunded at `time.Unix(100, 100)` and again at
`time.Unix(200, 0)` through a bank that counts its reverts: the count goes from 0 to 2
and the second reading ends as the refund timestamp, in memory and over a table. -/
theorem RefundPayment_twice_witness :
    (∃ w1 w2 : World MemoryRepository Nat,
      (Service.mk MemoryRepository.repository examples.countingBank).RefundPayment
        examples.testGlobals "testMerchantID" "00000000-0000-0000-0000-000000000000"
        ⟨examples.storedWorld.storage, 0, []⟩ = Outcome.returned (none, w1) ∧
      (Service.mk MemoryRepository.repository examples.countingBank).RefundPayment
        examples.laterGlobals "testMerchantID" "00000000-0000-0000-0000-000000000000" w1
        = Outcome.returned (none, w2) ∧
      w1.bank = 1 ∧ w2.bank = 2 ∧
      w2.storage.payments "00000000-0000-0000-0000-000000000000" =
        some { examples.storedPayment with Refunded := true, RefundTimestamp := 200000 }) ∧
    (∃ w1 w2 : World Table Nat,
      (Service.mk (DynamoDBRepository.mk Table.client).repository
        examples.countingBank).RefundPayment examples.testGlobals "merchantID" "paymentID"
        ⟨examples.repositoryTable, 0, []⟩ = Outcome.returned (none, w1) ∧
      (Service.mk (DynamoDBRepository.mk Table.client).repository
        examples.countingBank).RefundPayment examples.laterGlobals "merchantID" "paymentID"
        w1 = Outcome.returned (none, w2) ∧
      w1.bank = 1 ∧ w2.bank = 2 ∧
      w2.storage.items "merchantID" "PAYMENT#paymentID" =
        some (Item.payment
          { examples.repositoryItem with Refunded := true, RefundTimestamp := 200000 })) := by
  have h := RefundPayment_twice examples.countingBank examples.testGlobals
    examples.laterGlobals "testMerchantID" "00000000-0000-0000-0000-000000000000"
    examples.storedPayment (fun _ _ => rfl)
  have ht := RefundPayment_twice examples.countingBank examples.testGlobals
    examples.laterGlobals "merchantID" "paymentID" examples.repositoryPayment
    (fun _ _ => rfl)
  obtain ⟨w1, w2, h1, h2, hb1, hb2, _, _, _, _, hst⟩ :=
    h.1 ⟨examples.storedWorld.storage, 0, []⟩ (by decide) rfl
  obtain ⟨t1, t2, k1, k2, kb1, kb2, _, _, _, _, kst⟩ :=
    ht.2 ⟨examples.repositoryTable, 0, []⟩ (by decide) rfl rfl (by decide) (by decide)
      (by decide) (by decide)
  have hb2' : w2.bank = 2 := by rw [hb2, hb1]; rfl
  have kb2' : t2.bank = 2 := by rw [kb2, kb1]; rfl
  exact ⟨⟨w1, w2, h1, h2, hb1, hb2', hst⟩, ⟨t1, t2, k1, k2, kb1, kb2', kst⟩⟩

/-- C8 (as stated, refuted): the test payment is created at `time.Unix(100, 100)` and
refunded at the same clock reading; the refund succeeds and flips `Refunded`, but the
`RefundTimestamp` it stores is not greater than the payment's `Timestamp`. -/
theorem RefundPayment_same_clock_reading :
    ∃ (w1 : World MemoryRepository Unit) (p q : Payment),
      (examples.memoryService.CreateNewPayment examples.testGlobals examples.callerPayment
        examples.emptyWorld).2.storage.payments "00000000-0000-0000-0000-000000000000"
        = some p ∧
      p.Refunded = false ∧
      examples.memoryService.RefundPayment examples.testGlobals "testMerchantID"
        "00000000-0000-0000-0000-000000000000"
        (examples.memoryService.CreateNewPayment examples.testGlobals examples.callerPayment
          examples.emptyWorld).2 = Outcome.returned (none, w1) ∧
      w1.storage.payments "00000000-0000-0000-0000-000000000000" = some q ∧
      q.Refunded = true ∧ ¬ (p.Timestamp < q.RefundTimestamp) := by
  have hst : (examples.memoryService.CreateNewPayment examples.testGlobals
      examples.callerPayment examples.emptyWorld).2.storage.payments
      "00000000-0000-0000-0000-000000000000" =
      some { examples.storedPayment with Timestamp := 100000 } := by decide
  have hrun := RefundPayment_memory_run simulator.BankSimulator examples.testGlobals
    "testMerchantID" "00000000-0000-0000-0000-000000000000" _
    (examples.memoryService.CreateNewPayment examples.testGlobals examples.callerPayment
      examples.emptyWorld).2 () hst rfl
  refine ⟨_, _, { examples.storedPayment with
    Timestamp := 100000, Refunded := true, RefundTimestamp := 100000 }, hst, rfl, hrun, ?_, rfl,
    by decide⟩
  decide

/-- C8 (amended): over the in-memory repository, a successful `RefundPayment` on a stored
unrefunded payment flips `Refunded` to true and sets `RefundTimestamp` to the clock in
milliseconds; that value is strictly positive and greater than the payment's `Timestamp`
whenever the clock in milliseconds is. -/
theorem RefundPayment_sets_clock (bank : BankClient β) (g : Globals) (m X : String)
    (p : Payment) (w w1 : World MemoryRepository β)
    (hst : w.storage.payments X = some p) (hid : p.ID = X) (hun : p.Refunded = false)
    (h : (Service.mk MemoryRepository.repository bank).RefundPayment g m X w
      = Outcome.returned (none, w1)) :
    ∃ q : Payment, w1.storage.payments X = some q ∧ p.Refunded ≠ q.Refunded ∧
      q.Refunded = true ∧
      q.RefundTimestamp = g.now.UnixNano.tdiv time.Millisecond ∧
      (0 < g.now.UnixNano.tdiv time.Millisecond →
        p.Timestamp < g.now.UnixNano.tdiv time.Millisecond →
        0 < q.RefundTimestamp ∧ p.Timestamp < q.RefundTimestamp) := by
  obtain ⟨payment, bank1, storage1, hg, hr, hu, hw⟩ := RefundPayment_success _ g m X w w1 h
  have hp : payment = p := by
    have := hg
    simp [MemoryRepository.repository, MemoryRepository.GetPayment, hst] at this
    exact this.symm
  subst hp
  have hs : storage1 = (MemoryRepository.UpdatePayment w.storage
      { payment with
        Refunded := true
        RefundTimestamp := g.now.UnixNano.tdiv time.Millisecond }).2 :=
    (congrArg Prod.snd hu).symm
  subst hw
  subst hs
  refine ⟨{ payment with
    Refunded := true
    RefundTimestamp := g.now.UnixNano.tdiv time.Millisecond }, ?_, ?_, rfl, rfl,
    fun h0 h1 => ⟨h0, h1⟩⟩
  · simp [MemoryRepository.UpdatePayment, hid]
  · simp [hun]

/-- C8 (amended), at `TestRefundPayment`: timestamp 123, refunded at `time.Unix(100, 100)`,
where the clock in milliseconds, 100000, is positive and later than the timestamp. -/
theorem RefundPayment_sets_clock_witness :
    ∃ q : Payment,
      examples.refundedWorld.storage.payments "00000000-0000-0000-0000-000000000000"
        = some q ∧
      q.Refunded = true ∧ q.RefundTimestamp = 100000 ∧
      0 < q.RefundTimestamp ∧ examples.storedPayment.Timestamp < q.RefundTimestamp := by
  obtain ⟨q, hq, _, hflag, hclock, hlater⟩ :=
    RefundPayment_sets_clock simulator.BankSimulator examples.testGlobals "testMerchantID"
      "00000000-0000-0000-0000-000000000000" examples.storedPayment examples.storedWorld
      examples.refundedWorld (by decide) rfl rfl rfl
  have hms : examples.testGlobals.now.UnixNano.tdiv time.Millisecond = 100000 := by decide
  rw [hms] at hclock hlater
  exact ⟨q, hq, hflag, hclock, hlater (by decide) (by decide)⟩

/-- C10: two payments that agree on `ID`, `Merchant.ID`, `Customer.ID`, `Price`,
`Timestamp`, `Refunded` and `RefundTimestamp` have equal payment details, whatever their
card details, bank transaction ids and merchant account details are. -/
theorem NewPaymentDetailsFromPayment_hides (p q : Payment) (hID : p.ID = q.ID)
    (hMerchant : p.Merchant.ID = q.Merchant.ID) (hCustomer : p.Customer.ID = q.Customer.ID)
    (hPrice : p.Price = q.Price) (hTimestamp : p.Timestamp = q.Timestamp)
    (hRefunded : p.Refunded = q.Refunded) (hRefund : p.RefundTimestamp = q.RefundTimestamp) :
    NewPaymentDetailsFromPayment p = NewPaymentDetailsFromPayment q := by
  unfold NewPaymentDetailsFromPayment
  rw [hID, hMerchant, hCustomer, hPrice, hTimestamp, hRefunded, hRefund]

/-- C10, at the stored test payment and a payment with other card details, another bank
transaction id and another merchant account. -/
theorem NewPaymentDetailsFromPayment_hides_witness :
    examples.storedPayment.Customer.CardDetails ≠ examples.otherSecrets.Customer.CardDetails ∧
      examples.storedPayment.BankTransactionID ≠ examples.otherSecrets.BankTransactionID ∧
      examples.storedPayment.Merchant.AccountDetails
        ≠ examples.otherSecrets.Merchant.AccountDetails ∧
      NewPaymentDetailsFromPayment examples.storedPayment
        = NewPaymentDetailsFromPayment examples.otherSecrets :=
  ⟨by decide, by decide, by decide,
    NewPaymentDetailsFromPayment_hides examples.storedPayment examples.otherSecrets
      rfl rfl rfl rfl rfl rfl rfl⟩

/-- When the repository's `GetPayment` succeeds, `GetPaymentDetails` returns the
projection of the payment it got and records the one call. -/
theorem GetPaymentDetails_of_GetPayment (s : Service σ β) (m id : String) (w : World σ β)
    (p : Payment) (hg : s.storage.GetPayment w.storage m id = Outcome.returned (p, none)) :
    s.GetPaymentDetails m id w =
      Outcome.returned
        ((NewPaymentDetailsFromPayment p, none),
          { storage := w.storage, bank := w.bank
            calls := w.calls ++ [Call.GetPayment m id] }) := by
  simp [Service.GetPaymentDetails, hg]

/-- C9: whenever the repository's `GetPayment` succeeds with payment `p`,
`GetPaymentDetails` returns exactly the projection of `p` on `ID`, `Merchant.ID`,
`Customer.ID`, `Price`, `Timestamp`, `Refunded` and `RefundTimestamp`; and after the
payment of the scenario (customer `c1`, price 1000 `USD`, merchant `m1`) has been created
with id `X`, over the in-memory repository as over a table, the details of `(m1, X)` are
`X`, `m1`, `c1`, 1000 `USD`, not refunded. -/
theorem GetPaymentDetails_projection :
    (∀ (σ β : Type) (s : Service σ β) (m id : String) (w : World σ β) (p : Payment),
      s.storage.GetPayment w.storage m id = Outcome.returned (p, none) →
      s.GetPaymentDetails m id w =
        Outcome.returned
          (({ ID := p.ID, MerchantID := p.Merchant.ID, CustomerID := p.Customer.ID
              Price := p.Price, Timestamp := p.Timestamp, Refunded := p.Refunded
              RefundTimestamp := p.RefundTimestamp }, none),
            { storage := w.storage, bank := w.bank
              calls := w.calls ++ [Call.GetPayment m id] })) ∧
    (∀ (β : Type) (bank : BankClient β) (g : Globals) (w : World MemoryRepository β)
      (holder X : String),
      ((Service.mk MemoryRepository.repository bank).CreateNewPayment g
        (examples.scenarioPayment holder) w).1 = (X, none) →
      ∃ w1,
        (Service.mk MemoryRepository.repository bank).GetPaymentDetails "m1" X
          ((Service.mk MemoryRepository.repository bank).CreateNewPayment g
            (examples.scenarioPayment holder) w).2 =
          Outcome.returned
            (({ ID := X, MerchantID := "m1", CustomerID := "c1", Price := ⟨1000, "USD"⟩
                Timestamp := g.now.UnixNano.tdiv time.Millisecond, Refunded := false
                RefundTimestamp := 0 }, none), w1)) ∧
    (∀ (β : Type) (bank : BankClient β) (g : Globals) (w : World Table β)
      (holder X : String),
      ((Service.mk (DynamoDBRepository.mk Table.client).repository bank).CreateNewPayment g
        (examples.scenarioPayment holder) w).1 = (X, none) →
      ∃ w1,
        (Service.mk (DynamoDBRepository.mk Table.client).repository bank).GetPaymentDetails
          "m1" X
          ((Service.mk (DynamoDBRepository.mk Table.client).repository bank).CreateNewPayment g
            (examples.scenarioPayment holder) w).2 =
          Outcome.returned
            (({ ID := X, MerchantID := "m1", CustomerID := "c1", Price := ⟨1000, "USD"⟩
                Timestamp := g.now.UnixNano.tdiv time.Millisecond, Refunded := false
                RefundTimestamp := 0 }, none), w1)) := by
  refine ⟨?_, ?_, ?_⟩
  · intro σ β s m id w p hg
    simp [Service.GetPaymentDetails, hg, NewPaymentDetailsFromPayment]
  · intro β bank g w holder X hc
    have hok : ((Service.mk MemoryRepository.repository bank).CreateNewPayment g
        (examples.scenarioPayment holder) w).1.2 = none := by rw [hc]
    obtain ⟨bank1, merchant, tx, bank2, storage1, hv, hm, hp, hcr, hr⟩ :=
      CreateNewPayment_success _ g _ w hok
    have hX : X = g.newUUID.String := by
      have := congrArg Prod.fst hc
      simpa [hr] using this.symm
    subst hX
    have hs : storage1 = (MemoryRepository.CreateNewPayment w.storage _).2 :=
      (congrArg Prod.snd hcr).symm
    have hget : MemoryRepository.repository.GetPayment storage1 "m1" g.newUUID.String =
        Outcome.returned
          ({ examples.scenarioPayment holder with
             ID := g.newUUID.String
             BankTransactionID := tx
             Merchant :=
               { (examples.scenarioPayment holder).Merchant with
                 AccountDetails := merchant.AccountDetails }
             Timestamp := g.now.UnixNano.tdiv time.Millisecond }, none) := by
      rw [hs]
      simp [MemoryRepository.repository, MemoryRepository.GetPayment,
        MemoryRepository.CreateNewPayment]
    have hd := GetPaymentDetails_of_GetPayment (Service.mk MemoryRepository.repository bank)
      "m1" g.newUUID.String
      ((Service.mk MemoryRepository.repository bank).CreateNewPayment g
        (examples.scenarioPayment holder) w).2 _ (by rw [hr]; exact hget)
    exact ⟨_, hd⟩
  · intro β bank g w holder X hc
    have hok : ((Service.mk (DynamoDBRepository.mk Table.client).repository bank).CreateNewPayment
        g (examples.scenarioPayment holder) w).1.2 = none := by rw [hc]
    obtain ⟨hid, hget⟩ := CreateNewPayment_table_GetPayment bank g
      (examples.scenarioPayment holder) w (show '#' ∉ ("USD" : String).data by decide)
      (show -(2 ^ 63) ≤ (1000 : Int) by decide) (show (1000 : Int) < 2 ^ 63 by decide) hok
    have hX : X = g.newUUID.String := by
      rw [hc] at hid
      exact hid
    subst hX
    have hd := GetPaymentDetails_of_GetPayment
      (Service.mk (DynamoDBRepository.mk Table.client).repository bank) "m1" g.newUUID.String
      ((Service.mk (DynamoDBRepository.mk Table.client).repository bank).CreateNewPayment g
        (examples.scenarioPayment holder) w).2 _ hget
    exact ⟨_, hd⟩

/-- C9, at `TestGetPaymentDetails` and at the scenario run with the simulated bank over
the in-memory repository and over a table that holds the merchant row of `m1`. -/
theorem GetPaymentDetails_projection_witness :
    examples.memoryService.GetPaymentDetails "testMerchantID"
        "00000000-0000-0000-0000-000000000000" examples.storedWorld =
      Outcome.returned
        (({ ID := "00000000-0000-0000-0000-000000000000", MerchantID := "testMerchantID"
            CustomerID := "testCustomerID", Price := ⟨100, "USD"⟩, Timestamp := 123
            Refunded := false, RefundTimestamp := 0 }, none),
          { storage := examples.storedWorld.storage, bank := ()
            calls := [Call.GetPayment "testMerchantID"
              "00000000-0000-0000-0000-000000000000"] }) ∧
    (∃ w1,
      examples.memoryService.GetPaymentDetails "m1" "00000000-0000-0000-0000-000000000000"
        (examples.memoryService.CreateNewPayment examples.testGlobals
          (examples.scenarioPayment "Customer One") examples.emptyWorld).2 =
        Outcome.returned
          (({ ID := "00000000-0000-0000-0000-000000000000", MerchantID := "m1"
              CustomerID := "c1", Price := ⟨1000, "USD"⟩
              Timestamp := (time.Unix 100 100).UnixNano.tdiv time.Millisecond
              Refunded := false, RefundTimestamp := 0 }, none), w1)) ∧
    (∃ w1,
      examples.tableService.GetPaymentDetails "m1" "00000000-0000-0000-0000-000000000000"
        (examples.tableService.CreateNewPayment examples.testGlobals
          (examples.scenarioPayment "Customer One")
          ⟨examples.merchantTable "m1", (), []⟩).2 =
        Outcome.returned
          (({ ID := "00000000-0000-0000-0000-000000000000", MerchantID := "m1"
              CustomerID := "c1", Price := ⟨1000, "USD"⟩
              Timestamp := (time.Unix 100 100).UnixNano.tdiv time.Millisecond
              Refunded := false, RefundTimestamp := 0 }, none), w1)) :=
  ⟨GetPaymentDetails_projection.1 MemoryRepository Unit examples.memoryService
      "testMerchantID" "00000000-0000-0000-0000-000000000000" examples.storedWorld
      examples.storedPayment (by decide),
    GetPaymentDetails_projection.2.1 Unit simulator.BankSimulator examples.testGlobals
      examples.emptyWorld "Customer One" "00000000-0000-0000-0000-000000000000" (by decide),
    GetPaymentDetails_projection.2.2 Unit simulator.BankSimulator examples.testGlobals
      ⟨examples.merchantTable "m1", (), []⟩ "Customer One"
      "00000000-0000-0000-0000-000000000000" (by decide)⟩

/-- C18 (the code at an unknown merchant): the seeded table holds no row of
`unknown@merchant`, yet `GetMerchantDetails` returns a zero merchant and no error, and
`CreateNewPayment` for that merchant goes on to `ProcessTransaction`, with empty account
details, and stores the payment. -/
theorem CreateNewPayment_unknown_merchant_charged :
    examples.seededTable.items "unknown@merchant" "MERCHANT" = none ∧
    (DynamoDBRepository.mk Table.client).GetMerchantDetails examples.seededTable
        "unknown@merchant" = ({ ID := "", AccountDetails := ⟨"", "", "", ""⟩ }, none) ∧
    (examples.tableService.CreateNewPayment examples.testGlobals
        examples.unknownMerchantPayment examples.seededWorld).1
      = ("00000000-0000-0000-0000-000000000000", none) ∧
    (examples.tableService.CreateNewPayment examples.testGlobals
        examples.unknownMerchantPayment examples.seededWorld).2.calls =
      [Call.ValidateCardInformation examples.unknownMerchantPayment.Customer.CardDetails,
        Call.GetMerchantDetails "unknown@merchant",
        Call.ProcessTransaction ⟨"", "", "", ""⟩
          examples.unknownMerchantPayment.Customer.CardDetails ⟨1000, "USD"⟩,
        Call.CreateNewPayment
          { examples.unknownMerchantPayment with
            ID := "00000000-0000-0000-0000-000000000000"
            BankTransactionID := "simulatedTransactionID"
            Timestamp := 100000 }] := by
  have h : examples.seededTable.items "unknown@merchant" "MERCHANT" = none := by decide
  exact ⟨h, GetMerchantDetails_table_absent _ _ h, by decide, by decide⟩

/-- C19 (as stated, refuted): the input of `TestCreateNewPayment` with `Refunded` true
and `RefundTimestamp` 5 is stored with these values, not with false and 0. -/
theorem CreateNewPayment_keeps_caller_flags :
    (examples.memoryService.CreateNewPayment examples.testGlobals examples.refundedInput
        examples.emptyWorld).1 = ("00000000-0000-0000-0000-000000000000", none) ∧
      (examples.memoryService.CreateNewPayment examples.testGlobals examples.refundedInput
        examples.emptyWorld).2.storage.GetPayment "testMerchantID"
        "00000000-0000-0000-0000-000000000000" =
        ({ examples.storedPayment with
           Timestamp := 100000, Refunded := true, RefundTimestamp := 5 }, none) := by
  decide

theorem MemoryRepository_WellKeyed_write (r : MemoryRepository) (p : Payment)
    (h : r.WellKeyed) : (r.CreateNewPayment p).2.WellKeyed ∧ (r.UpdatePayment p).2.WellKeyed := by
  have hboth : ∀ (k : String) (q : Payment),
      (if k = p.ID then some p else r.payments k) = some q → q.ID = k := by
    intro k q hq
    by_cases hk : k = p.ID
    · rw [if_pos hk] at hq
      simp only [Option.some.injEq] at hq
      rw [← hq, hk]
    · rw [if_neg hk] at hq
      exact h k q hq
  exact ⟨hboth, hboth⟩

/-- Over the in-memory repository `CreateNewPayment` leaves the store as it was or adds
one record under the generated id. -/
theorem CreateNewPayment_memory_storage (bank : BankClient β) (g : Globals) (p : Payment)
    (w : World MemoryRepository β) :
    ((Service.mk MemoryRepository.repository bank).CreateNewPayment g p w).2.storage = w.storage ∨
    ∃ q : Payment, q.ID = g.newUUID.String ∧
      ((Service.mk MemoryRepository.repository bank).CreateNewPayment g p w).2.storage
        = (w.storage.CreateNewPayment q).2 := by
  rcases hv : bank.ValidateCardInformation w.bank p.Customer.CardDetails with ⟨ev, bank1⟩
  cases ev with
  | some e => left; simp [Service.CreateNewPayment, hv]
  | none =>
    rcases hp : bank.ProcessTransaction bank1
      (MemoryRepository.GetMerchantDetails w.storage p.Merchant.ID).1.AccountDetails
      p.Customer.CardDetails p.Price with ⟨⟨tx, ep⟩, bank2⟩
    cases ep with
    | some e =>
      left
      simp [Service.CreateNewPayment, hv, MemoryRepository.repository,
        MemoryRepository.GetMerchantDetails] at hp ⊢
      simp [hp]
    | none =>
      right
      refine ⟨{ p with
        ID := g.newUUID.String
        BankTransactionID := tx
        Merchant := { p.Merchant with
          AccountDetails :=
            (MemoryRepository.GetMerchantDetails w.storage p.Merchant.ID).1.AccountDetails }
        Timestamp := g.now.UnixNano.tdiv time.Millisecond }, rfl, ?_⟩
      simp [Service.CreateNewPayment, hv, MemoryRepository.repository,
        MemoryRepository.GetMerchantDetails, MemoryRepository.CreateNewPayment] at hp ⊢
      simp [hp]

/-- Over the in-memory repository `RefundPayment` leaves the store as it was or rewrites
the record it read under the requested id. -/
theorem RefundPayment_memory_storage (bank : BankClient β) (g : Globals) (m id : String)
    (w : World MemoryRepository β) :
    ∃ (e : Option Error) (w1 : World MemoryRepository β),
      (Service.mk MemoryRepository.repository bank).RefundPayment g m id w
        = Outcome.returned (e, w1) ∧
      (w1.storage = w.storage ∨
        ∃ q : Payment, w.storage.payments id = some q ∧
          w1.storage = (w.storage.UpdatePayment
            { q with
              Refunded := true
              RefundTimestamp := g.now.UnixNano.tdiv time.Millisecond }).2) := by
  cases hst : w.storage.payments id with
  | none =>
    refine ⟨some (Error.errorString ("payment with ID " ++ id ++ " not found")),
      { storage := w.storage, bank := w.bank, calls := w.calls ++ [Call.GetPayment m id] },
      ?_, Or.inl rfl⟩
    simp [Service.RefundPayment, MemoryRepository.repository, MemoryRepository.GetPayment, hst]
  | some q =>
    rcases hr : bank.RevertTransaction w.bank q.BankTransactionID with ⟨er, bank1⟩
    cases er with
    | some e =>
      refine ⟨some e,
        { storage := w.storage, bank := bank1
          calls := w.calls ++ [Call.GetPayment m id,
            Call.RevertTransaction q.BankTransactionID] }, ?_, Or.inl rfl⟩
      simp [Service.RefundPayment, MemoryRepository.repository, MemoryRepository.GetPayment,
        hst, hr]
    | none =>
      exact ⟨_, _, RefundPayment_memory_run bank g m id q w bank1 hst hr,
        Or.inr ⟨q, rfl, rfl⟩⟩

/-- Over a well-keyed in-memory repository, a request that cannot write the record of
`X` leaves the entry of `X` as it was, and the repository well-keyed. -/
theorem step_memory_other (bank : BankClient β) (X : String) (w : World MemoryRepository β)
    (op : Op) (hk : w.storage.WellKeyed) (hop : op.writes X = false) :
    ((Service.mk MemoryRepository.repository bank).step w op).storage.payments X
        = w.storage.payments X ∧
      ((Service.mk MemoryRepository.repository bank).step w op).storage.WellKeyed := by
  cases op with
  | create g p =>
    have hX : ¬ (g.newUUID.String = X) := by simpa [Op.writes] using hop
    simp only [Service.step]
    rcases CreateNewPayment_memory_storage bank g p w with h | ⟨q, hq, h⟩
    · rw [h]
      exact ⟨rfl, hk⟩
    · rw [h]
      refine ⟨?_, (MemoryRepository_WellKeyed_write _ q hk).1⟩
      have hne : ¬ (X = q.ID) := fun e => hX (hq.symm.trans e.symm)
      simp [MemoryRepository.CreateNewPayment, hne]
  | details m id =>
    simp only [Service.step, Service.GetPaymentDetails, MemoryRepository.repository]
    rcases w.storage.GetPayment m id with ⟨p, e⟩
    cases e <;> exact ⟨rfl, hk⟩
  | refund g m id =>
    have hX : ¬ (id = X) := by simpa [Op.writes] using hop
    obtain ⟨e, w1, hrun, hcase⟩ := RefundPayment_memory_storage bank g m id w
    simp only [Service.step, hrun]
    rcases hcase with h | ⟨q, hq, h⟩
    · rw [h]
      exact ⟨rfl, hk⟩
    · rw [h]
      have hid : q.ID = id := hk id q hq
      refine ⟨?_, (MemoryRepository_WellKeyed_write _ _ hk).2⟩
      have hne : ¬ (X = q.ID) := fun e => hX (hid.symm.trans e.symm)
      simp [MemoryRepository.UpdatePayment, hne]

theorem run_memory_other (bank : BankClient β) (X : String) (ops : List Op) :
    ∀ w : World MemoryRepository β, w.storage.WellKeyed →
      (∀ op ∈ ops, op.writes X = false) →
      ((Service.mk MemoryRepository.repository bank).run w ops).storage.payments X
        = w.storage.payments X := by
  induction ops with
  | nil => intro w _ _; rfl
  | cons op ops ih =>
    intro w hk hops
    obtain ⟨h1, h2⟩ := step_memory_other bank X w op hk (hops op (List.mem_cons_self _ _))
    have := ih _ h2 (fun o ho => hops o (List.mem_cons_of_mem _ ho))
    simp only [Service.run, List.foldl_cons] at this ⊢
    rw [this, h1]

/-- C19 (amended): over the in-memory repository, every payment stored by
`CreateNewPayment` has the `Refunded` and `RefundTimestamp` of the input, and the stored
record stays as it is through every later sequence of requests that holds no
`RefundPayment` of that payment and no creation with the same generated id. -/
theorem CreateNewPayment_flags_kept (bank : BankClient β) (g : Globals) (p : Payment)
    (w : World MemoryRepository β) (ops : List Op) (hkeyed : w.storage.WellKeyed)
    (hok : ((Service.mk MemoryRepository.repository bank).CreateNewPayment g p w).1.2 = none)
    (hops : ∀ op ∈ ops, op.writes g.newUUID.String = false) :
    ∃ q : Payment,
      ((Service.mk MemoryRepository.repository bank).CreateNewPayment g p w).2.storage.payments
        g.newUUID.String = some q ∧
      q.Refunded = p.Refunded ∧ q.RefundTimestamp = p.RefundTimestamp ∧
      ((Service.mk MemoryRepository.repository bank).run
        ((Service.mk MemoryRepository.repository bank).CreateNewPayment g p w).2
        ops).storage.payments g.newUUID.String = some q := by
  obtain ⟨bank1, merchant, tx, bank2, storage1, hv, hm, hp, hc, hr⟩ :=
    CreateNewPayment_success _ g p w hok
  have hs : storage1 = (MemoryRepository.CreateNewPayment w.storage _).2 :=
    (congrArg Prod.snd hc).symm
  have hst : ((Service.mk MemoryRepository.repository bank).CreateNewPayment g p
      w).2.storage.payments g.newUUID.String =
      some { p with
        ID := g.newUUID.String
        BankTransactionID := tx
        Merchant := { p.Merchant with AccountDetails := merchant.AccountDetails }
        Timestamp := g.now.UnixNano.tdiv time.Millisecond } := by
    rw [hr, hs]
    simp [MemoryRepository.CreateNewPayment]
  have hk1 : ((Service.mk MemoryRepository.repository bank).CreateNewPayment g p
      w).2.storage.WellKeyed := by
    rw [hr, hs]
    exact (MemoryRepository_WellKeyed_write _ _ hkeyed).1
  refine ⟨_, hst, rfl, rfl, ?_⟩
  rw [run_memory_other bank _ ops _ hk1 hops, hst]

/-- C19 (amended), at `TestCreateNewPayment` followed by a read of the payment, the
creation of a second payment and the refund of that second payment. -/
theorem CreateNewPayment_flags_kept_witness :
    ∃ q : Payment,
      (examples.memoryService.CreateNewPayment examples.testGlobals examples.callerPayment
        examples.emptyWorld).2.storage.payments "00000000-0000-0000-0000-000000000000"
        = some q ∧
      q.Refunded = false ∧ q.RefundTimestamp = 0 ∧
      (examples.memoryService.run
        (examples.memoryService.CreateNewPayment examples.testGlobals examples.callerPayment
          examples.emptyWorld).2
        [Op.details "testMerchantID" "00000000-0000-0000-0000-000000000000",
          Op.create ⟨time.Unix 200 0, examples.otherUUID⟩ examples.callerPayment,
          Op.refund examples.laterGlobals "testMerchantID"
            "01010101-0101-0101-0101-010101010101"]).storage.payments
        "00000000-0000-0000-0000-000000000000" = some q :=
  CreateNewPayment_flags_kept simulator.BankSimulator examples.testGlobals
    examples.callerPayment examples.emptyWorld
    [Op.details "testMerchantID" "00000000-0000-0000-0000-000000000000",
      Op.create ⟨time.Unix 200 0, examples.otherUUID⟩ examples.callerPayment,
      Op.refund examples.laterGlobals "testMerchantID" "01010101-0101-0101-0101-010101010101"]
    (fun k p h => by simp [examples.emptyWorld, NewMemoryRepository] at h) (by decide)
    (by decide)

/-- The whole outcome of a successful `CreateNewPayment`: the generated id, the
repository state after one `CreateNewPayment` of the stamped payment on the state before,
the bank state after the validation and the charge, and the four calls on the trace. -/
theorem CreateNewPayment_success_world (s : Service σ β) (g : Globals) (p : Payment)
    (w : World σ β) (h : (s.CreateNewPayment g p w).1.2 = none) :
    s.CreateNewPayment g p w =
      ((g.newUUID.String, none),
        { storage :=
            (s.storage.CreateNewPayment w.storage
              { p with
                ID := g.newUUID.String
                BankTransactionID :=
                  (s.bankClient.ProcessTransaction
                    (s.bankClient.ValidateCardInformation w.bank p.Customer.CardDetails).2
                    (s.storage.GetMerchantDetails w.storage p.Merchant.ID).1.AccountDetails
                    p.Customer.CardDetails p.Price).1.1
                Merchant :=
                  { p.Merchant with
                    AccountDetails :=
                      (s.storage.GetMerchantDetails w.storage p.Merchant.ID).1.AccountDetails }
                Timestamp := g.now.UnixNano.tdiv time.Millisecond }).2
          bank :=
            (s.bankClient.ProcessTransaction
              (s.bankClient.ValidateCardInformation w.bank p.Customer.CardDetails).2
              (s.storage.GetMerchantDetails w.storage p.Merchant.ID).1.AccountDetails
              p.Customer.CardDetails p.Price).2
          calls := w.calls ++ [Call.ValidateCardInformation p.Customer.CardDetails,
            Call.GetMerchantDetails p.Merchant.ID,
            Call.ProcessTransaction
              (s.storage.GetMerchantDetails w.storage p.Merchant.ID).1.AccountDetails
              p.Customer.CardDetails p.Price,
            Call.CreateNewPayment
              { p with
                ID := g.newUUID.String
                BankTransactionID :=
                  (s.bankClient.ProcessTransaction
                    (s.bankClient.ValidateCardInformation w.bank p.Customer.CardDetails).2
                    (s.storage.GetMerchantDetails w.storage p.Merchant.ID).1.AccountDetails
                    p.Customer.CardDetails p.Price).1.1
                Merchant :=
                  { p.Merchant with
                    AccountDetails :=
                      (s.storage.GetMerchantDetails w.storage p.Merchant.ID).1.AccountDetails }
                Timestamp := g.now.UnixNano.tdiv time.Millisecond }] }) := by
  obtain ⟨bank1, merchant, tx, bank2, storage1, hv, hm, hp, hc, hr⟩ :=
    CreateNewPayment_success s g p w h
  rw [hr]
  simp only [hv, hm, hp, hc]
  simp

/-- The whole outcome of a successful `RefundPayment`, in terms of what the repository's
`GetPayment` returned. -/
theorem RefundPayment_success_world (s : Service σ β) (g : Globals) (m id : String)
    (w w1 : World σ β) (h : s.RefundPayment g m id w = Outcome.returned (none, w1)) :
    ∃ payment : Payment,
      s.storage.GetPayment w.storage m id = Outcome.returned (payment, none) ∧
      w1 =
        { storage :=
            (s.storage.UpdatePayment w.storage
              { payment with
                Refunded := true
                RefundTimestamp := g.now.UnixNano.tdiv time.Millisecond }).2
          bank := (s.bankClient.RevertTransaction w.bank payment.BankTransactionID).2
          calls := w.calls ++ [Call.GetPayment m id,
            Call.RevertTransaction payment.BankTransactionID,
            Call.UpdatePayment
              { payment with
                Refunded := true
                RefundTimestamp := g.now.UnixNano.tdiv time.Millisecond }] } := by
  obtain ⟨payment, bank1, storage1, hg, hr, hu, hw⟩ := RefundPayment_success s g m id w w1 h
  refine ⟨payment, hg, ?_⟩
  rw [hw, hr, hu]

theorem tdiv_million (n : Int) :
    (0 ≤ n → n.tdiv 1000000 = n / 1000000) ∧
      (n < 0 → n.tdiv 1000000 = -((-n) / 1000000)) := by
  refine ⟨fun h => Int.tdiv_eq_ediv h (by decide), fun h => ?_⟩
  have := Int.neg_tdiv (-n) 1000000
  rw [neg_neg] at this
  rw [this, Int.tdiv_eq_ediv (by omega) (by decide)]

/-- C20: the timestamps the orchestrator assigns are the clock in whole milliseconds.
For a clock reading of `n` nanoseconds (`now().UnixNano()`), a successful
`CreateNewPayment` applies the repository's `CreateNewPayment` to a payment whose
`Timestamp` is `n` divided by 1,000,000 with the fraction discarded, and that is the
`Timestamp` of the record then stored in memory and of the item then stored in a table; a
successful `RefundPayment` does the same with `RefundTimestamp` through `UpdatePayment`.
`time.Unix(sec, nsec)` reads `sec * 10^9 + nsec` nanoseconds, and under
`time.Unix(100, 100)` the stored values are 100000. -/
theorem timestamps_in_milliseconds (g : Globals) :
    (∀ (σ β : Type) (s : Service σ β) (p : Payment) (w : World σ β),
      (s.CreateNewPayment g p w).1.2 = none →
      ∃ q : Payment,
        (s.CreateNewPayment g p w).2.storage = (s.storage.CreateNewPayment w.storage q).2 ∧
        q.Timestamp = g.now.UnixNano.tdiv 1000000 ∧
        (0 ≤ g.now.UnixNano → q.Timestamp = g.now.UnixNano / 1000000) ∧
        (g.now.UnixNano < 0 → q.Timestamp = -((-g.now.UnixNano) / 1000000))) ∧
    (∀ (β : Type) (bank : BankClient β) (p : Payment) (w : World MemoryRepository β),
      ((Service.mk MemoryRepository.repository bank).CreateNewPayment g p w).1.2 = none →
      ∃ q : Payment,
        ((Service.mk MemoryRepository.repository bank).CreateNewPayment g p
          w).2.storage.payments g.newUUID.String = some q ∧
        q.Timestamp = g.now.UnixNano.tdiv 1000000) ∧
    (∀ (β : Type) (bank : BankClient β) (p : Payment) (w : World Table β),
      ((Service.mk (DynamoDBRepository.mk Table.client).repository bank).CreateNewPayment
        g p w).1.2 = none →
      ∃ item : PaymentsItem,
        ((Service.mk (DynamoDBRepository.mk Table.client).repository bank).CreateNewPayment
          g p w).2.storage.items p.Merchant.ID ("PAYMENT#" ++ g.newUUID.String)
          = some (Item.payment item) ∧
        item.Timestamp = g.now.UnixNano.tdiv 1000000) ∧
    (∀ (σ β : Type) (s : Service σ β) (m id : String) (w w1 : World σ β),
      s.RefundPayment g m id w = Outcome.returned (none, w1) →
      ∃ q : Payment,
        w1.storage = (s.storage.UpdatePayment w.storage q).2 ∧
        q.RefundTimestamp = g.now.UnixNano.tdiv 1000000 ∧
        (0 ≤ g.now.UnixNano → q.RefundTimestamp = g.now.UnixNano / 1000000) ∧
        (g.now.UnixNano < 0 → q.RefundTimestamp = -((-g.now.UnixNano) / 1000000))) ∧
    (∀ (β : Type) (bank : BankClient β) (m X : String) (p : Payment)
      (w w1 : World MemoryRepository β),
      w.storage.payments X = some p → p.ID = X →
      (Service.mk MemoryRepository.repository bank).RefundPayment g m X w
        = Outcome.returned (none, w1) →
      ∃ q : Payment, w1.storage.payments X = some q ∧
        q.RefundTimestamp = g.now.UnixNano.tdiv 1000000) ∧
    (∀ (β : Type) (bank : BankClient β) (m X : String) (p : Payment) (w w1 : World Table β),
      w.storage.items m ("PAYMENT#" ++ X) = some (Item.payment (NewPaymentsItemFromPayment p)) →
      p.Merchant.ID = m → p.ID = X → '#' ∉ X.data → '#' ∉ p.Price.Currency.data →
      -(2 ^ 63) ≤ p.Price.Amount → p.Price.Amount < 2 ^ 63 →
      (Service.mk (DynamoDBRepository.mk Table.client).repository bank).RefundPayment
        g m X w = Outcome.returned (none, w1) →
      ∃ item : PaymentsItem,
        w1.storage.items m ("PAYMENT#" ++ X) = some (Item.payment item) ∧
        item.RefundTimestamp = g.now.UnixNano.tdiv 1000000) ∧
    (∀ sec nsec : Int, 0 ≤ nsec → nsec < 1000000000 →
      -(2 ^ 63) ≤ sec * 1000000000 + nsec → sec * 1000000000 + nsec < 2 ^ 63 →
      (time.Unix sec nsec).UnixNano = sec * 1000000000 + nsec) ∧
    ((examples.memoryService.CreateNewPayment examples.testGlobals examples.callerPayment
        examples.emptyWorld).2.storage.payments "00000000-0000-0000-0000-000000000000"
      = some { examples.storedPayment with Timestamp := 100000 } ∧
      examples.refundedWorld.storage.payments "00000000-0000-0000-0000-000000000000"
      = some { examples.storedPayment with Refunded := true, RefundTimestamp := 100000 }) := by
  refine ⟨?_, ?_, ?_, ?_, ?_, ?_, ?_, by decide⟩
  · intro σ β s p w hok
    have hw := CreateNewPayment_success_world s g p w hok
    refine ⟨_, by rw [hw], rfl, ?_, ?_⟩
    · exact (tdiv_million _).1
    · exact (tdiv_million _).2
  · intro β bank p w hok
    have hw := CreateNewPayment_success_world _ g p w hok
    refine ⟨{ p with
      ID := g.newUUID.String
      BankTransactionID :=
        (bank.ProcessTransaction (bank.ValidateCardInformation w.bank p.Customer.CardDetails).2
          (MemoryRepository.GetMerchantDetails w.storage p.Merchant.ID).1.AccountDetails
          p.Customer.CardDetails p.Price).1.1
      Merchant :=
        { p.Merchant with
          AccountDetails :=
            (MemoryRepository.GetMerchantDetails w.storage p.Merchant.ID).1.AccountDetails }
      Timestamp := g.now.UnixNano.tdiv time.Millisecond }, ?_, rfl⟩
    rw [hw]
    simp [MemoryRepository.repository, MemoryRepository.CreateNewPayment]
  · intro β bank p w hok
    have hw := CreateNewPayment_success_world _ g p w hok
    refine ⟨NewPaymentsItemFromPayment
      { p with
        ID := g.newUUID.String
        BankTransactionID :=
          (bank.ProcessTransaction
            (bank.ValidateCardInformation w.bank p.Customer.CardDetails).2
            ((DynamoDBRepository.mk Table.client).repository.GetMerchantDetails w.storage
              p.Merchant.ID).1.AccountDetails
            p.Customer.CardDetails p.Price).1.1
        Merchant :=
          { p.Merchant with
            AccountDetails :=
              ((DynamoDBRepository.mk Table.client).repository.GetMerchantDetails w.storage
                p.Merchant.ID).1.AccountDetails }
        Timestamp := g.now.UnixNano.tdiv time.Millisecond }, ?_, rfl⟩
    rw [hw]
    simp only [DynamoDBRepository.repository]
    rw [CreateNewPayment_eq_PutItem]
    simp [Table.client, Table.PutItem, Item.PK, Item.SK, NewPaymentsItemFromPayment]
  · intro σ β s m id w w1 hok
    obtain ⟨payment, _, hw⟩ := RefundPayment_success_world s g m id w w1 hok
    refine ⟨{ payment with
      Refunded := true
      RefundTimestamp := g.now.UnixNano.tdiv time.Millisecond }, by rw [hw], rfl, ?_, ?_⟩
    · exact (tdiv_million _).1
    · exact (tdiv_million _).2
  · intro β bank m X p w w1 hst hid hok
    obtain ⟨payment, hg, hw⟩ := RefundPayment_success_world _ g m X w w1 hok
    have hp : payment = p := by
      have := hg
      simp [MemoryRepository.repository, MemoryRepository.GetPayment, hst] at this
      exact this.symm
    subst hp
    refine ⟨{ payment with
      Refunded := true
      RefundTimestamp := g.now.UnixNano.tdiv time.Millisecond }, ?_, rfl⟩
    rw [hw]
    simp [MemoryRepository.repository, MemoryRepository.UpdatePayment, hid]
  · intro β bank m X p w w1 hitem hm hX hid hcur hlo hhi hok
    have hid2 : '#' ∉ p.ID.data := by rw [hX]; exact hid
    obtain ⟨payment, hg, hw⟩ := RefundPayment_success_world _ g m X w w1 hok
    have hget : (DynamoDBRepository.mk Table.client).repository.GetPayment w.storage m X =
        Outcome.returned
          ({ p with
             BankTransactionID := ""
             Merchant := { ID := p.Merchant.ID, AccountDetails := ⟨"", "", "", ""⟩ } },
            none) := by
      have := GetPayment_table_present w.storage m X _ hitem
      rw [decode_encode p hid2 hcur hlo hhi] at this
      exact this
    have hpay : payment = { p with
        BankTransactionID := ""
        Merchant := { ID := p.Merchant.ID, AccountDetails := ⟨"", "", "", ""⟩ } } := by
      have := hg.symm.trans hget
      simp only [Outcome.returned.injEq, Prod.mk.injEq, and_true] at this
      exact this
    subst hpay
    refine ⟨NewPaymentsItemFromPayment
      { p with
        BankTransactionID := ""
        Merchant := { ID := p.Merchant.ID, AccountDetails := ⟨"", "", "", ""⟩ }
        Refunded := true
        RefundTimestamp := g.now.UnixNano.tdiv time.Millisecond }, ?_, rfl⟩
    rw [hw]
    simp only [DynamoDBRepository.repository]
    have hupd : ∀ (t : Table) (q : Payment),
        (DynamoDBRepository.mk Table.client).UpdatePayment t q
          = Table.PutItem t (Item.payment (NewPaymentsItemFromPayment q)) := by
      intro t q
      simp [DynamoDBRepository.UpdatePayment, DynamoDBRepository.CreateNewPayment,
        MarshalPaymentsItem, Table.client, Table.PutItem]
    rw [hupd]
    simp [Table.PutItem, Item.PK, Item.SK, NewPaymentsItemFromPayment, hm, hX]
  · intro sec nsec h0 h1 hlo hhi
    have hn : ¬ (nsec < 0 ∨ 1000000000 ≤ nsec) := by omega
    simp only [time.Unix, if_neg hn, time.Time.UnixNano, time.wrapInt64]
    omega

/-- C20, at the runs of `TestCreateNewPayment` and `TestRefundPayment` in memory, at a
creation over the seeded table, at a refund of the item of the repository tests, and at
`time.Unix(100, 100)`: every timestamp written is 100000. -/
theorem timestamps_in_milliseconds_witness :
    (∃ q : Payment,
      (examples.memoryService.CreateNewPayment examples.testGlobals examples.callerPayment
        examples.emptyWorld).2.storage
        = (examples.memoryService.storage.CreateNewPayment examples.emptyWorld.storage q).2 ∧
      q.Timestamp = 100000) ∧
    (∃ q : Payment,
      (examples.memoryService.CreateNewPayment examples.testGlobals examples.callerPayment
        examples.emptyWorld).2.storage.payments "00000000-0000-0000-0000-000000000000"
        = some q ∧ q.Timestamp = 100000) ∧
    (∃ item : PaymentsItem,
      (examples.tableService.CreateNewPayment examples.testGlobals examples.requestPayment
        examples.seededWorld).2.storage.items "test@merchant"
        "PAYMENT#00000000-0000-0000-0000-000000000000" = some (Item.payment item) ∧
      item.Timestamp = 100000) ∧
    (∃ q : Payment,
      examples.refundedWorld.storage
        = (examples.memoryService.storage.UpdatePayment examples.storedWorld.storage q).2 ∧
      q.RefundTimestamp = 100000) ∧
    (∃ q : Payment,
      examples.refundedWorld.storage.payments "00000000-0000-0000-0000-000000000000"
        = some q ∧ q.RefundTimestamp = 100000) ∧
    (∃ (w1 : World Table Unit) (item : PaymentsItem),
      examples.tableService.RefundPayment examples.testGlobals "merchantID" "paymentID"
        examples.repositoryWorld = Outcome.returned (none, w1) ∧
      w1.storage.items "merchantID" "PAYMENT#paymentID" = some (Item.payment item) ∧
      item.RefundTimestamp = 100000) ∧
    (time.Unix 100 100).UnixNano = 100 * 1000000000 + 100 := by
  have h := timestamps_in_milliseconds examples.testGlobals
  have hms : examples.testGlobals.now.UnixNano.tdiv 1000000 = 100000 := by decide
  have hrun := RefundPayment_table_run simulator.BankSimulator examples.testGlobals
    "merchantID" "paymentID" examples.repositoryPayment examples.repositoryWorld ()
    (by decide) (by decide) (by decide) (by decide) (by decide) rfl
  obtain ⟨q0, hq0, hts0, _, _⟩ := h.1 _ _ examples.memoryService examples.callerPayment
    examples.emptyWorld (by decide)
  obtain ⟨q, hq, hts⟩ := h.2.1 _ simulator.BankSimulator examples.callerPayment
    examples.emptyWorld (by decide)
  obtain ⟨item, hitem, hits⟩ := h.2.2.1 _ simulator.BankSimulator examples.requestPayment
    examples.seededWorld (by decide)
  obtain ⟨r0, hr0, hrts0, _, _⟩ := h.2.2.2.1 _ _ examples.memoryService "testMerchantID"
    "00000000-0000-0000-0000-000000000000" examples.storedWorld examples.refundedWorld rfl
  obtain ⟨r, hr, hrts⟩ := h.2.2.2.2.1 _ simulator.BankSimulator "testMerchantID"
    "00000000-0000-0000-0000-000000000000" examples.storedPayment examples.storedWorld
    examples.refundedWorld (by decide) rfl rfl
  obtain ⟨ritem, hritem, hrits⟩ := h.2.2.2.2.2.1 _ simulator.BankSimulator "merchantID"
    "paymentID" examples.repositoryPayment examples.repositoryWorld _ (by decide) rfl rfl
    (by decide) (by decide) (by decide) (by decide) hrun
  rw [hms] at hts0 hts hits hrts0 hrts hrits
  exact ⟨⟨q0, hq0, hts0⟩, ⟨q, hq, hts⟩, ⟨item, hitem, hits⟩, ⟨r0, hr0, hrts0⟩, ⟨r, hr, hrts⟩,
    ⟨_, ritem, hrun, hritem, hrits⟩,
    h.2.2.2.2.2.2.1 100 100 (by decide) (by decide) (by decide) (by decide)⟩

/-- C23: exactly-once record creation. A successful `CreateNewPayment` leaves the
repository in the state that one `CreateNewPayment` of the stamped payment on the state
before leaves, the bank in the state after one validation and one charge, and on the
trace the four calls of the use case, the repository's `CreateNewPayment` being the last
and the only one of its kind; and over the in-memory repository, when the generated id is
not yet stored, the store afterwards holds one new record under the returned id and every
other entry as before. -/
theorem CreateNewPayment_exactly_once :
    (∀ (σ β : Type) (s : Service σ β) (g : Globals) (p : Payment) (w : World σ β),
      (s.CreateNewPayment g p w).1.2 = none →
      s.CreateNewPayment g p w =
        ((g.newUUID.String, none),
          { storage :=
              (s.storage.CreateNewPayment w.storage
                { p with
                  ID := g.newUUID.String
                  BankTransactionID :=
                    (s.bankClient.ProcessTransaction
                      (s.bankClient.ValidateCardInformation w.bank p.Customer.CardDetails).2
                      (s.storage.GetMerchantDetails w.storage p.Merchant.ID).1.AccountDetails
                      p.Customer.CardDetails p.Price).1.1
                  Merchant :=
                    { p.Merchant with
                      AccountDetails :=
                        (s.storage.GetMerchantDetails w.storage
                          p.Merchant.ID).1.AccountDetails }
                  Timestamp := g.now.UnixNano.tdiv time.Millisecond }).2
            bank :=
              (s.bankClient.ProcessTransaction
                (s.bankClient.ValidateCardInformation w.bank p.Customer.CardDetails).2
                (s.storage.GetMerchantDetails w.storage p.Merchant.ID).1.AccountDetails
                p.Customer.CardDetails p.Price).2
            calls := w.calls ++ [Call.ValidateCardInformation p.Customer.CardDetails,
              Call.GetMerchantDetails p.Merchant.ID,
              Call.ProcessTransaction
                (s.storage.GetMerchantDetails w.storage p.Merchant.ID).1.AccountDetails
                p.Customer.CardDetails p.Price,
              Call.CreateNewPayment
                { p with
                  ID := g.newUUID.String
                  BankTransactionID :=
                    (s.bankClient.ProcessTransaction
                      (s.bankClient.ValidateCardInformation w.bank p.Customer.CardDetails).2
                      (s.storage.GetMerchantDetails w.storage p.Merchant.ID).1.AccountDetails
                      p.Customer.CardDetails p.Price).1.1
                  Merchant :=
                    { p.Merchant with
                      AccountDetails :=
                        (s.storage.GetMerchantDetails w.storage
                          p.Merchant.ID).1.AccountDetails }
                  Timestamp := g.now.UnixNano.tdiv time.Millisecond }] }) ∧
      (s.CreateNewPayment g p w).2.calls.countP Call.isCreateNewPayment
        = w.calls.countP Call.isCreateNewPayment + 1) ∧
    (∀ (β : Type) (bank : BankClient β) (g : Globals) (p : Payment)
      (w : World MemoryRepository β),
      ((Service.mk MemoryRepository.repository bank).CreateNewPayment g p w).1.2 = none →
      w.storage.payments g.newUUID.String = none →
      ((Service.mk MemoryRepository.repository bank).CreateNewPayment g p w).1.1
        = g.newUUID.String ∧
      (∃ q : Payment, q.ID = g.newUUID.String ∧
        ((Service.mk MemoryRepository.repository bank).CreateNewPayment g p
          w).2.storage.payments g.newUUID.String = some q) ∧
      (∀ k : String, k ≠ g.newUUID.String →
        ((Service.mk MemoryRepository.repository bank).CreateNewPayment g p
          w).2.storage.payments k = w.storage.payments k) ∧
      (∀ (k : String) (old : Payment), w.storage.payments k = some old →
        ((Service.mk MemoryRepository.repository bank).CreateNewPayment g p
          w).2.storage.payments k = some old)) := by
  refine ⟨?_, ?_⟩
  · intro σ β s g p w hok
    have hw := CreateNewPayment_success_world s g p w hok
    refine ⟨hw, ?_⟩
    rw [hw]
    simp [List.countP_append, Call.isCreateNewPayment]
  · intro β bank g p w hok hfresh
    obtain ⟨bank1, merchant, tx, bank2, storage1, _, _, _, hc, hr⟩ :=
      CreateNewPayment_success _ g p w hok
    have hs : storage1 = (MemoryRepository.CreateNewPayment w.storage _).2 :=
      (congrArg Prod.snd hc).symm
    have hother : ∀ k : String, k ≠ g.newUUID.String →
        ((Service.mk MemoryRepository.repository bank).CreateNewPayment g p
          w).2.storage.payments k = w.storage.payments k := by
      intro k hk
      rw [hr, hs]
      simp [MemoryRepository.CreateNewPayment, hk]
    refine ⟨by rw [hr], ⟨{ p with
        ID := g.newUUID.String
        BankTransactionID := tx
        Merchant := { p.Merchant with AccountDetails := merchant.AccountDetails }
        Timestamp := g.now.UnixNano.tdiv time.Millisecond }, rfl, ?_⟩, hother,
      fun k old hold => ?_⟩
    · rw [hr, hs]
      simp [MemoryRepository.CreateNewPayment]
    · have hk : k ≠ g.newUUID.String := by
        intro e
        rw [e, hfresh] at hold
        simp at hold
      rw [hother k hk, hold]

/-- C23, at `TestCreateNewPayment`: over a store that counts its writes and a bank that
counts its validations and charges, one write, one validation and one charge are made and
the trace holds one repository `CreateNewPayment`; and run on the world that already
holds a payment under another id that payment is kept. -/
theorem CreateNewPayment_exactly_once_witness :
    (Service.mk examples.countingRepository examples.chargeCountingBank).CreateNewPayment
        examples.testGlobals examples.callerPayment ⟨0, (0, 0), []⟩ =
      (("00000000-0000-0000-0000-000000000000", none),
        { storage := 1, bank := (1, 1)
          calls := [Call.ValidateCardInformation examples.testCustomer.CardDetails,
            Call.GetMerchantDetails "testMerchantID",
            Call.ProcessTransaction examples.testAccount examples.testCustomer.CardDetails
              ⟨100, "USD"⟩,
            Call.CreateNewPayment
              { examples.storedPayment with
                BankTransactionID := "countedTransactionID", Timestamp := 100000 }] }) ∧
    (examples.memoryService.CreateNewPayment examples.testGlobals examples.callerPayment
        examples.emptyWorld).2.calls.countP Call.isCreateNewPayment = 0 + 1 ∧
    (examples.memoryService.CreateNewPayment ⟨time.Unix 200 0, examples.otherUUID⟩
        examples.callerPayment examples.storedWorld).1.1
      = "01010101-0101-0101-0101-010101010101" ∧
    (examples.memoryService.CreateNewPayment ⟨time.Unix 200 0, examples.otherUUID⟩
        examples.callerPayment examples.storedWorld).2.storage.payments
        "00000000-0000-0000-0000-000000000000" = some examples.storedPayment := by
  have hcount := (CreateNewPayment_exactly_once.1 _ _
    (Service.mk examples.countingRepository examples.chargeCountingBank)
    examples.testGlobals examples.callerPayment ⟨0, (0, 0), []⟩ (by decide)).1
  have hu : examples.testGlobals.newUUID.String = "00000000-0000-0000-0000-000000000000" := by
    decide
  have hms : examples.testGlobals.now.UnixNano.tdiv time.Millisecond = 100000 := by decide
  refine ⟨?_,
    ((CreateNewPayment_exactly_once.1 _ _ examples.memoryService examples.testGlobals
      examples.callerPayment examples.emptyWorld) (by decide)).2,
    ((CreateNewPayment_exactly_once.2 _ simulator.BankSimulator
      ⟨time.Unix 200 0, examples.otherUUID⟩ examples.callerPayment examples.storedWorld)
      (by decide) (by decide)).1,
    ((CreateNewPayment_exactly_once.2 _ simulator.BankSimulator
      ⟨time.Unix 200 0, examples.otherUUID⟩ examples.callerPayment examples.storedWorld)
      (by decide) (by decide)).2.2.2 "00000000-0000-0000-0000-000000000000"
      examples.storedPayment (by decide)⟩
  rw [hcount, hu, hms]
  rfl

/-- C26: over a table, when the item under `(m, "PAYMENT#" + X)` is the item of a payment
of merchant `m` and id `X` whose id and currency hold no `#`, a successful
`RefundPayment(m, X)` leaves under that key the stored item with `Refunded` true and
`RefundTimestamp` the clock in milliseconds, and leaves every other key as it was. -/
theorem RefundPayment_table_frame (bank : BankClient β) (g : Globals) (m X : String)
    (p : Payment) (w w1 : World Table β)
    (hitem : w.storage.items m ("PAYMENT#" ++ X)
      = some (Item.payment (NewPaymentsItemFromPayment p)))
    (hm : p.Merchant.ID = m) (hX : p.ID = X)
    (hid : '#' ∉ X.data) (hcur : '#' ∉ p.Price.Currency.data)
    (hlo : -(2 ^ 63) ≤ p.Price.Amount) (hhi : p.Price.Amount < 2 ^ 63)
    (h : (Service.mk (DynamoDBRepository.mk Table.client).repository bank).RefundPayment
      g m X w = Outcome.returned (none, w1)) :
    w1.storage.items m ("PAYMENT#" ++ X) =
        some (Item.payment
          { NewPaymentsItemFromPayment p with
            Refunded := true
            RefundTimestamp := g.now.UnixNano.tdiv time.Millisecond }) ∧
      ∀ pk sk : String, ¬ (pk = m ∧ sk = "PAYMENT#" ++ X) →
        w1.storage.items pk sk = w.storage.items pk sk := by
  have hid2 : '#' ∉ p.ID.data := by rw [hX]; exact hid
  obtain ⟨payment, bank1, storage1, hg, hr, _, _⟩ := RefundPayment_success _ g m X w w1 h
  have hget : (DynamoDBRepository.mk Table.client).repository.GetPayment w.storage m X =
      Outcome.returned
        ({ p with
           BankTransactionID := ""
           Merchant := { ID := p.Merchant.ID, AccountDetails := ⟨"", "", "", ""⟩ } }, none) := by
    have := GetPayment_table_present w.storage m X _ hitem
    rw [decode_encode p hid2 hcur hlo hhi] at this
    exact this
  have hpay : payment = { p with
      BankTransactionID := ""
      Merchant := { ID := p.Merchant.ID, AccountDetails := ⟨"", "", "", ""⟩ } } := by
    have := hg.symm.trans hget
    simp only [Outcome.returned.injEq, Prod.mk.injEq, and_true] at this
    exact this
  subst hpay
  have hrun := RefundPayment_table_run bank g m X p w bank1 hitem hid2 hcur hlo hhi hr
  rw [hrun] at h
  simp only [Outcome.returned.injEq, Prod.mk.injEq, true_and] at h
  subst h
  subst hm
  subst hX
  refine ⟨?_, fun pk sk hk => ?_⟩
  · simp [Table.PutItem, Item.PK, Item.SK, NewPaymentsItemFromPayment]
  · have hk2 : ¬ (pk = p.Merchant.ID ∧ sk = "PAYMENT#" ++ p.ID) := hk
    simp [Table.PutItem, Item.PK, Item.SK, NewPaymentsItemFromPayment, hk2]

/-- C26, at the item of the repository tests refunded through the simulated bank at
`time.Unix(100, 100)`. -/
theorem RefundPayment_table_frame_witness :
    ∃ w1 : World Table Unit,
      examples.tableService.RefundPayment examples.testGlobals "merchantID" "paymentID"
        examples.repositoryWorld = Outcome.returned (none, w1) ∧
      w1.storage.items "merchantID" ("PAYMENT#" ++ "paymentID") =
        some (Item.payment
          { NewPaymentsItemFromPayment examples.repositoryPayment with
            Refunded := true
            RefundTimestamp := examples.testGlobals.now.UnixNano.tdiv time.Millisecond }) := by
  have hrun := RefundPayment_table_run simulator.BankSimulator examples.testGlobals
    "merchantID" "paymentID" examples.repositoryPayment examples.repositoryWorld ()
    (by decide) (by decide) (by decide) (by decide) (by decide) rfl
  exact ⟨_, hrun,
    (RefundPayment_table_frame simulator.BankSimulator examples.testGlobals "merchantID"
      "paymentID" examples.repositoryPayment examples.repositoryWorld _ (by decide) rfl rfl
      (by decide) (by decide) (by decide) (by decide) hrun).1⟩

/-- C22 (the code at a created payment): over the seeded table the simulated bank
answers `ProcessTransaction` with `simulatedTransactionID` and the payment is handed to
the repository with that id; the later `RefundPayment` of the payment succeeds and calls
`RevertTransaction` with the empty id, never with `simulatedTransactionID`. -/
theorem RefundPayment_table_reverts_empty_id :
    (examples.tableService.CreateNewPayment examples.testGlobals examples.requestPayment
        examples.seededWorld).1 = ("00000000-0000-0000-0000-000000000000", none) ∧
    Call.CreateNewPayment examples.createdPayment ∈
      (examples.tableService.CreateNewPayment examples.testGlobals examples.requestPayment
        examples.seededWorld).2.calls ∧
    examples.createdPayment.BankTransactionID = "simulatedTransactionID" ∧
    ∃ w2 : World Table Unit,
      examples.tableService.RefundPayment examples.laterGlobals "test@merchant"
        "00000000-0000-0000-0000-000000000000"
        (examples.tableService.CreateNewPayment examples.testGlobals examples.requestPayment
          examples.seededWorld).2 = Outcome.returned (none, w2) ∧
      Call.RevertTransaction "" ∈ w2.calls ∧
      Call.RevertTransaction "simulatedTransactionID" ∉ w2.calls := by
  have hrun := RefundPayment_table_run simulator.BankSimulator examples.laterGlobals
    "test@merchant" "00000000-0000-0000-0000-000000000000" examples.createdPayment
    (examples.tableService.CreateNewPayment examples.testGlobals examples.requestPayment
      examples.seededWorld).2 () (by decide) (by decide) (by decide) (by decide) (by decide)
    rfl
  exact ⟨by decide, by decide, rfl, _, hrun, by decide, by decide⟩

end Orchestrator

/-! ## The `createPayment` handler -/

section Handler

open entities storage simulator service api

variable {σ β : Type}

theorem HasErrors_CheckField (v : Validator) (ok : Bool) (key message : String) :
    (v.CheckField ok key message).HasErrors = (v.HasErrors || !ok) := by
  unfold Validator.CheckField
  cases ok with
  | true => simp
  | false =>
    by_cases h : v.FieldErrors.any (fun e => e.1 == key) = true
    · have hne : v.FieldErrors ≠ [] := by
        intro e
        rw [e] at h
        simp at h
      simp [h, Validator.HasErrors, hne]
    · simp [h, Validator.HasErrors]

/-- The checks of `createPayment` record an error exactly when one of the conditions of
the handler fails; the card number is measured in characters. -/
theorem createPaymentChecks_HasErrors (input : createPaymentInput) :
    (createPaymentChecks input).HasErrors = false ↔
      input.CustomerID ≠ "" ∧ input.CustomerName ≠ "" ∧ input.CardNumber.length = 16 ∧
      100 ≤ input.CardCVV ∧ input.CardCVV ≤ 999 ∧ input.CardExpiryDate ≠ "" ∧
      input.Price ≠ 0 ∧ input.Currency ≠ "" := by
  have h0 : (Validator.mk []).HasErrors = false := rfl
  simp only [createPaymentChecks, HasErrors_CheckField, h0]
  constructor
  · intro h
    simp at h
    obtain ⟨⟨⟨⟨⟨⟨⟨⟨h1, h2⟩, _⟩, h4⟩, _⟩, h6⟩, h7⟩, h8⟩, h9⟩ := h
    exact ⟨h1, h2, h4, h6.1, h6.2, h7, h8, h9⟩
  · rintro ⟨h1, h2, h4, h5, h6, h7, h8, h9⟩
    have h3 : input.CardNumber ≠ "" := by
      intro e
      rw [e] at h4
      simp at h4
    have hc : input.CardCVV ≠ 0 := by omega
    simp [h1, h2, h3, h4, hc, h5, h6, h7, h8, h9]

/-- A request is handed to `Service.CreateNewPayment`, with its fields copied into the
payment, exactly when it passes the checks; otherwise the handler answers with the
validation errors and the world is untouched. -/
theorem createPayment_forwards (app : application σ β) (g : Globals) (merchantID : String)
    (input : createPaymentInput) (w : World σ β) :
    ((createPaymentChecks input).HasErrors = false →
      (app.createPayment g merchantID input w).2
        = (app.service.CreateNewPayment g (createPaymentPayment merchantID input) w).2) ∧
    ((createPaymentChecks input).HasErrors = true →
      app.createPayment g merchantID input w
        = (Response.failedValidation (createPaymentChecks input), w)) := by
  refine ⟨fun h => ?_, fun h => ?_⟩
  · simp only [application.createPayment, h]
    rcases app.service.CreateNewPayment g (createPaymentPayment merchantID input) w
      with ⟨⟨id, e⟩, w1⟩
    cases e <;> rfl
  · simp [application.createPayment, h]

/-- C21 (the code at a card number of sixteen letters): the request of `TestCreatePayment`
with the card number `abcdefghijklmnop`, which holds no digit, passes the checks of
`createPayment`; the handler hands it to `Service.CreateNewPayment`, whose first call
gives that card number to the bank, and answers with the id of the created payment. -/
theorem createPayment_forwards_letters :
    examples.lettersRequest.CardNumber.data.all Char.isDigit = false ∧
    (createPaymentChecks examples.lettersRequest).HasErrors = false ∧
    (examples.testApplication.createPayment examples.testGlobals "testMerchant"
        examples.lettersRequest examples.emptyWorld).1
      = Response.JSON 200 [("paymentID", "00000000-0000-0000-0000-000000000000")] ∧
    (examples.testApplication.createPayment examples.testGlobals "testMerchant"
        examples.lettersRequest examples.emptyWorld).2.calls.head?
      = some (Call.ValidateCardInformation
          ⟨"Test Customer", "abcdefghijklmnop", 123, "12/23"⟩) := by
  decide

end Handler

end PaymentPlatform
